import Mathlib

/-!
# bRAWcap C++ wrapper: buffers, packets, filters, receive and transmit pipelines

A shallow embedding of the header-only C++ wrapper (`brawcap_buffer.hpp`,
`brawcap_filter.hpp`, `brawcap_timestamp.hpp`, `brawcap_adapter.hpp`,
`src/brawcap_packet.hpp`, `src/brawcap_receive.hpp`,
`src/brawcap_transmit.hpp`) over the bRAWcap C library, with the status codes
and the version type of its C header.

Conventions of the embedding.

* A wrapper method becomes a function from the state it touches to an `Outcome`
  and the state at the moment the method returned or stopped.
* `assert(c)` is the standard C assertion with assertions enabled: when `c` is
  false the call stops with `Outcome.assertFailed`.
* The C library itself is shipped as a binary; only its header is part of the
  sources. Every library function used by the wrapper is modelled from the
  documented behaviour and is marked as such in its doc comment.
* Pointers are natural numbers, `none` is the null pointer. A pointer to packet
  slot `index` of the buffer at `buffer` is `PacketPtr.slot buffer index`.
* A pipeline method records its operations on the buffer-list mutex, its accesses
  to the buffer list and its invocations of the user callback as a list of
  events in program order.
* C++ exceptions are modelled where a method holds the buffer-list mutex without
  a lock guard.
* Text is a list of character codes.
-/

set_option linter.dupNamespace false

namespace BRAWcap

/-! ## Status codes (`brawcap_types_shared.h`) -/

/-- The C enum `brawcap_status_t`, an `int`. -/
abbrev brawcap_status_t := Int

/-- `#define BRAWCAP_SUCCESS(status) (status == 0)`. -/
def BRAWCAP_SUCCESS (status : brawcap_status_t) : Bool := status == 0

/-- `#define BRAWCAP_ERROR(status) (status < 0)`. -/
def BRAWCAP_ERROR (status : brawcap_status_t) : Bool := decide (status < 0)

/-- `#define BRAWCAP_WARNING(status) (status > 0 && status < 2000)`. -/
def BRAWCAP_WARNING (status : brawcap_status_t) : Bool :=
  decide (status > 0) && decide (status < 2000)

/-- `#define BRAWCAP_INFO(status) (status >= 2000 && status < 4000)`. -/
def BRAWCAP_INFO (status : brawcap_status_t) : Bool :=
  decide (status ≥ 2000) && decide (status < 4000)

def BRAWCAP_STATUS_SUCCESS : brawcap_status_t := 0
def BRAWCAP_STATUS_ERROR_FAILED : brawcap_status_t := -1
def BRAWCAP_STATUS_ERROR_NOT_AVAILABLE : brawcap_status_t := -2
def BRAWCAP_STATUS_ERROR_INVALID_POINTER : brawcap_status_t := -3
def BRAWCAP_STATUS_ERROR_INVALID_PARAM : brawcap_status_t := -4
def BRAWCAP_STATUS_ERROR_PARAM_OUT_OF_RANGE : brawcap_status_t := -5
def BRAWCAP_STATUS_ERROR_NOT_FOUND : brawcap_status_t := -6
def BRAWCAP_STATUS_ERROR_IN_USE : brawcap_status_t := -7
def BRAWCAP_STATUS_ERROR_BEYOND_MTU : brawcap_status_t := -8
def BRAWCAP_STATUS_ERROR_DRIVER_IO_FAILED : brawcap_status_t := -9
def BRAWCAP_STATUS_ERROR_DRIVER_NOT_AVAILABLE : brawcap_status_t := -10
def BRAWCAP_STATUS_ERROR_OVERRUN : brawcap_status_t := -11
def BRAWCAP_STATUS_WARNING_DEMO_MODE : brawcap_status_t := 1
def BRAWCAP_STATUS_WARNING_PENDING : brawcap_status_t := 2
def BRAWCAP_STATUS_WARNING_LIMIT_REACHED : brawcap_status_t := 3
def BRAWCAP_STATUS_WARNING_CANCELED : brawcap_status_t := 4
def BRAWCAP_STATUS_WARNING_NOT_ALL_PROCESSED : brawcap_status_t := 5
def BRAWCAP_STATUS_WARNING_NO_UPLINK : brawcap_status_t := 6
def BRAWCAP_STATUS_INFO_NOT_RUNNING : brawcap_status_t := 2000
def BRAWCAP_STATUS_INFO_NOT_ATTACHED : brawcap_status_t := 2001
def BRAWCAP_STATUS_INFO_NOT_REGISTERED : brawcap_status_t := 2002
def BRAWCAP_STATUS_INFO_ALREADY_REGISTERED : brawcap_status_t := 2003
def BRAWCAP_STATUS_INFO_NO_DATA : brawcap_status_t := 2004
def BRAWCAP_STATUS_INFO_TIMEOUT : brawcap_status_t := 2005

/-! ## Limits (`brawcap_types_shared.h`, `brawcap_types_um.h`) -/

def BRAWCAP_PACKET_SIZE_MAX : Nat := 9018
def BRAWCAP_PACKET_SIZE_MIN : Nat := 14
def BRAWCAP_BUFFER_PACKETS_MAX : Nat := 100000
def BRAWCAP_BUFFER_PACKETS_MIN : Nat := 1
def BRAWCAP_RX_BUFFERS_PER_HANDLE_MAX : Nat := 2

/-! ## Outcome of a wrapper call -/

/-- How a wrapper method ended: it returned a value, or one of its `assert`s
fired. -/
inductive Outcome (α : Type) where
  | returned (value : α)
  | assertFailed
  deriving DecidableEq, Repr

/-- An address. -/
abbrev Ptr := Nat

/-! ## The native library objects -/

/-- Who owns a native packet buffer. The header (`brawcap_buffer` group): "The
packet buffer will be locked down after attaching/sending to a specific
handle." -/
inductive LockState where
  | Unlocked
  | LockedForReceive
  | LockedForTransmit
  deriving DecidableEq, Repr

/-- Modelled from the spec: the library object `brawcap_packet_t` (its definition
is not part of the sources). A payload region of fixed capacity
`maxPayloadSize` and the bytes currently stored in it. -/
structure brawcap_packet_t where
  maxPayloadSize : Nat
  payload : List Nat
  deriving DecidableEq, Repr

/-- Modelled from the spec: the library object `brawcap_buffer_t` (its definition
is not part of the sources). It owns `numPackets` slots of `maxPacketPayloadSize`
bytes each; `packets` are the occupied slots in index order, `address` is where
the object lives. -/
structure brawcap_buffer_t where
  address : Ptr
  maxPacketPayloadSize : Nat
  numPackets : Nat
  packets : List brawcap_packet_t
  lock : LockState
  deriving DecidableEq, Repr

/-- The value of a non-null `brawcap_packet_t*`: either a standalone packet made
by `brawcap_packet_create`, or slot `index` of the buffer at address `buffer`. -/
inductive PacketPtr where
  | standalone (address : Ptr)
  | slot (buffer : Ptr) (index : Nat)
  deriving DecidableEq, Repr

/-- Modelled from the spec: the library object `brawcap_buffer_iterator_t`. A
cursor over the occupied slots of the buffer at `buffer`; `count` is the number
of occupied slots when the iterator was created ("if the packet buffer ... is
modified meanwhile, the iterator is not updated"), `position` lies in
`[0, count]` and `position = count` is the invalid sentinel. -/
structure brawcap_buffer_iterator_t where
  buffer : Ptr
  count : Nat
  position : Nat
  deriving DecidableEq, Repr

/-- A buffer is locked while it is attached for receive or pending for
transmit. -/
def brawcap_buffer_t.locked (b : brawcap_buffer_t) : Bool :=
  b.lock != LockState.Unlocked

/-- The slot a packet occupies once it is copied into buffer `b`. -/
def brawcap_buffer_t.slotOf (b : brawcap_buffer_t) (p : brawcap_packet_t) : brawcap_packet_t :=
  { maxPayloadSize := b.maxPacketPayloadSize, payload := p.payload }

/-! ## The native buffer functions (`brawcap.h`, group `brawcap_buffer`) -/

/-- Modelled from the spec: `brawcap_buffer_create`. Fails with
`PARAM_OUT_OF_RANGE` unless the payload size is within
`[BRAWCAP_PACKET_SIZE_MIN, BRAWCAP_PACKET_SIZE_MAX]` and the packet count within
`[BRAWCAP_BUFFER_PACKETS_MIN, BRAWCAP_BUFFER_PACKETS_MAX]`; otherwise yields an
empty, unlocked buffer at `address`. -/
def brawcap_buffer_create (address : Ptr) (maxPacketPayloadSize numPackets : Nat) :
    brawcap_status_t × Option brawcap_buffer_t :=
  if maxPacketPayloadSize < BRAWCAP_PACKET_SIZE_MIN ∨ BRAWCAP_PACKET_SIZE_MAX < maxPacketPayloadSize
      ∨ numPackets < BRAWCAP_BUFFER_PACKETS_MIN ∨ BRAWCAP_BUFFER_PACKETS_MAX < numPackets then
    (BRAWCAP_STATUS_ERROR_PARAM_OUT_OF_RANGE, none)
  else
    (BRAWCAP_STATUS_SUCCESS,
      some { address := address, maxPacketPayloadSize := maxPacketPayloadSize,
             numPackets := numPackets, packets := [], lock := LockState.Unlocked })

/-- Modelled from the spec: `brawcap_buffer_clear`. `IN_USE` on a locked buffer,
otherwise all buffered packets are cleared. -/
def brawcap_buffer_clear (b : brawcap_buffer_t) : brawcap_status_t × brawcap_buffer_t :=
  if b.locked then (BRAWCAP_STATUS_ERROR_IN_USE, b)
  else (BRAWCAP_STATUS_SUCCESS, { b with packets := [] })

/-- Modelled from the spec: `brawcap_buffer_add_back`. The documented statuses, in
the order of the header table: `INVALID_POINTER` for a null packet, `IN_USE` for
a locked buffer, `OVERRUN` when "the max number of packets for the buffer is
reached", `PARAM_OUT_OF_RANGE` when the payload is too long for a slot;
otherwise the packet is stored after the last occupied slot. -/
def brawcap_buffer_add_back (b : brawcap_buffer_t) (pPacket : Option brawcap_packet_t) :
    brawcap_status_t × brawcap_buffer_t :=
  match pPacket with
  | none => (BRAWCAP_STATUS_ERROR_INVALID_POINTER, b)
  | some p =>
    if b.locked then (BRAWCAP_STATUS_ERROR_IN_USE, b)
    else if b.numPackets ≤ b.packets.length then (BRAWCAP_STATUS_ERROR_OVERRUN, b)
    else if b.maxPacketPayloadSize < p.payload.length then
      (BRAWCAP_STATUS_ERROR_PARAM_OUT_OF_RANGE, b)
    else (BRAWCAP_STATUS_SUCCESS, { b with packets := b.packets ++ [b.slotOf p] })

/-- Modelled from the spec: `brawcap_buffer_add_front`. Same statuses as
`brawcap_buffer_add_back`; on success the packet becomes the first buffered
packet. -/
def brawcap_buffer_add_front (b : brawcap_buffer_t) (pPacket : Option brawcap_packet_t) :
    brawcap_status_t × brawcap_buffer_t :=
  match pPacket with
  | none => (BRAWCAP_STATUS_ERROR_INVALID_POINTER, b)
  | some p =>
    if b.locked then (BRAWCAP_STATUS_ERROR_IN_USE, b)
    else if b.numPackets ≤ b.packets.length then (BRAWCAP_STATUS_ERROR_OVERRUN, b)
    else if b.maxPacketPayloadSize < p.payload.length then
      (BRAWCAP_STATUS_ERROR_PARAM_OUT_OF_RANGE, b)
    else (BRAWCAP_STATUS_SUCCESS, { b with packets := b.slotOf p :: b.packets })

/-- Modelled from the spec: `brawcap_buffer_add_at_index`. As
`brawcap_buffer_add_back`, and `INVALID_PARAM` when "the given index is invalid
(exceeds buffer)", that is when it lies beyond the occupied slots; on success
the packet is stored at `index` and the later packets move up by one. -/
def brawcap_buffer_add_at_index (b : brawcap_buffer_t) (pPacket : Option brawcap_packet_t)
    (index : Nat) : brawcap_status_t × brawcap_buffer_t :=
  match pPacket with
  | none => (BRAWCAP_STATUS_ERROR_INVALID_POINTER, b)
  | some p =>
    if b.locked then (BRAWCAP_STATUS_ERROR_IN_USE, b)
    else if b.numPackets ≤ b.packets.length then (BRAWCAP_STATUS_ERROR_OVERRUN, b)
    else if b.maxPacketPayloadSize < p.payload.length then
      (BRAWCAP_STATUS_ERROR_PARAM_OUT_OF_RANGE, b)
    else if b.packets.length < index then (BRAWCAP_STATUS_ERROR_INVALID_PARAM, b)
    else
      (BRAWCAP_STATUS_SUCCESS,
        { b with packets := b.packets.take index ++ b.slotOf p :: b.packets.drop index })

/-- Modelled from the spec: `brawcap_buffer_at_index`, "reads out a buffered packet
at the index": `IN_USE` on a locked buffer, `INVALID_PARAM` when the index does
not name a buffered packet, otherwise the address of that slot. -/
def brawcap_buffer_at_index (b : brawcap_buffer_t) (index : Nat) :
    brawcap_status_t × Option PacketPtr :=
  if b.locked then (BRAWCAP_STATUS_ERROR_IN_USE, none)
  else if b.packets.length ≤ index then (BRAWCAP_STATUS_ERROR_INVALID_PARAM, none)
  else (BRAWCAP_STATUS_SUCCESS, some (PacketPtr.slot b.address index))

/-- Modelled from the spec: `brawcap_buffer_count`, the number of currently
buffered packets; `IN_USE` on a locked buffer (the out parameter is then left
as it was, `old`). -/
def brawcap_buffer_count (b : brawcap_buffer_t) (old : Nat) : brawcap_status_t × Nat :=
  if b.locked then (BRAWCAP_STATUS_ERROR_IN_USE, old)
  else (BRAWCAP_STATUS_SUCCESS, b.packets.length)

/-- Modelled from the spec: `brawcap_buffer_capacity`, the packet capacity set at
creation; `IN_USE` on a locked buffer. -/
def brawcap_buffer_capacity (b : brawcap_buffer_t) (old : Nat) : brawcap_status_t × Nat :=
  if b.locked then (BRAWCAP_STATUS_ERROR_IN_USE, old)
  else (BRAWCAP_STATUS_SUCCESS, b.numPackets)

/-! ## `BRAWcapBuffer` (`brawcap_buffer.hpp`)

The wrapper object holds `std::shared_ptr<brawcap_buffer_t> m_pBuffer`. Its
methods are functions of the pointee `*m_pBuffer`; the packet argument of the
insertion methods is the native packet `packet.ResolvePacket()` points to. -/

/-- The wrapper object: a shared pointer to the native buffer. -/
structure BRAWcapBuffer where
  m_pBuffer : Ptr
  deriving DecidableEq, Repr

/-- `BRAWcapBuffer::BRAWcapBuffer(packetMaxPayloadSize, numPackets)`; `address` is
where the library allocates the new buffer. Returns the pointee of the new
`m_pBuffer`. -/
def BRAWcapBuffer.BRAWcapBuffer (address : Ptr) (packetMaxPayloadSize numPackets : Nat) :
    Outcome brawcap_buffer_t :=
  if packetMaxPayloadSize = 0 ∨ numPackets = 0 then Outcome.assertFailed
  else
    match brawcap_buffer_create address packetMaxPayloadSize numPackets with
    | (status, some pBuffer) =>
      if BRAWCAP_ERROR status then Outcome.assertFailed else Outcome.returned pBuffer
    | (_, none) => Outcome.assertFailed

/-- `BRAWcapBuffer::Clear`. -/
def BRAWcapBuffer.Clear (pBuffer : brawcap_buffer_t) : Outcome Bool × brawcap_buffer_t :=
  let r := brawcap_buffer_clear pBuffer
  if BRAWCAP_ERROR r.1 then (Outcome.assertFailed, r.2)
  else (Outcome.returned (BRAWCAP_SUCCESS r.1 || BRAWCAP_INFO r.1), r.2)

/-- `BRAWcapBuffer::PushBack`. -/
def BRAWcapBuffer.PushBack (pBuffer : brawcap_buffer_t) (packet : Option brawcap_packet_t) :
    Outcome Bool × brawcap_buffer_t :=
  let r := brawcap_buffer_add_back pBuffer packet
  if !BRAWCAP_SUCCESS r.1 then
    if r.1 == BRAWCAP_STATUS_ERROR_OVERRUN then (Outcome.returned false, r.2)
    else (Outcome.assertFailed, r.2)
  else (Outcome.returned true, r.2)

/-- `BRAWcapBuffer::PushFront`. -/
def BRAWcapBuffer.PushFront (pBuffer : brawcap_buffer_t) (packet : Option brawcap_packet_t) :
    Outcome Bool × brawcap_buffer_t :=
  let r := brawcap_buffer_add_front pBuffer packet
  if !BRAWCAP_SUCCESS r.1 then
    if r.1 == BRAWCAP_STATUS_ERROR_OVERRUN then (Outcome.returned false, r.2)
    else (Outcome.assertFailed, r.2)
  else (Outcome.returned true, r.2)

/-- `BRAWcapBuffer::Insert`: `retVal` starts as `false`, is set to `false` on
`OVERRUN`, and is what the method returns. -/
def BRAWcapBuffer.Insert (pBuffer : brawcap_buffer_t) (packet : Option brawcap_packet_t)
    (index : Nat) : Outcome Bool × brawcap_buffer_t :=
  let retVal := false
  let r := brawcap_buffer_add_at_index pBuffer packet index
  if !BRAWCAP_SUCCESS r.1 then
    if r.1 == BRAWCAP_STATUS_ERROR_OVERRUN then (Outcome.returned false, r.2)
    else (Outcome.assertFailed, r.2)
  else (Outcome.returned retVal, r.2)

/-- `BRAWcapBuffer::Count`. -/
def BRAWcapBuffer.Count (pBuffer : brawcap_buffer_t) : Outcome Nat :=
  let r := brawcap_buffer_count pBuffer 0
  if !BRAWCAP_SUCCESS r.1 then Outcome.assertFailed else Outcome.returned r.2

/-- `BRAWcapBuffer::Capacity`. -/
def BRAWcapBuffer.Capacity (pBuffer : brawcap_buffer_t) : Outcome Nat :=
  let r := brawcap_buffer_capacity pBuffer 0
  if !BRAWCAP_SUCCESS r.1 then Outcome.assertFailed else Outcome.returned r.2

/-! ## The native iterator functions (`brawcap.h`, group `brawcap_buffer_iterator`) -/

/-- Modelled from the spec: `brawcap_buffer_iterator_create`. `IN_USE` on a locked
buffer; `INVALID_PARAM` when the "start position exceeds number of buffered
packets" (the spec: creation "fails if `startIndex` exceeds the buffer's current
occupied-count"); on failure no iterator is produced. -/
def brawcap_buffer_iterator_create (b : brawcap_buffer_t) (startPosition : Nat) :
    brawcap_status_t × Option brawcap_buffer_iterator_t :=
  if b.locked then (BRAWCAP_STATUS_ERROR_IN_USE, none)
  else if b.packets.length < startPosition then (BRAWCAP_STATUS_ERROR_INVALID_PARAM, none)
  else
    (BRAWCAP_STATUS_SUCCESS,
      some { buffer := b.address, count := b.packets.length, position := startPosition })

/-- Modelled from the spec: `brawcap_buffer_iterator_next`. `INVALID_POINTER` for a
null iterator. "Stepping beyond the last occupied slot yields the invalid
sentinel (further `Next()` calls beyond the sentinel are a no-op boundary, not
an error)". -/
def brawcap_buffer_iterator_next (pIterator : Option brawcap_buffer_iterator_t) :
    brawcap_status_t × Option brawcap_buffer_iterator_t :=
  match pIterator with
  | none => (BRAWCAP_STATUS_ERROR_INVALID_POINTER, none)
  | some it =>
    if it.position < it.count then
      (BRAWCAP_STATUS_SUCCESS, some { it with position := it.position + 1 })
    else (BRAWCAP_STATUS_SUCCESS, some it)

/-- Modelled from the spec: `brawcap_buffer_iterator_prev`. `INVALID_POINTER` for a
null iterator. "Stepping past either boundary transitions to the invalid
sentinel", and "stepping `Prev()` from the sentinel reaches index `N-1`". -/
def brawcap_buffer_iterator_prev (pIterator : Option brawcap_buffer_iterator_t) :
    brawcap_status_t × Option brawcap_buffer_iterator_t :=
  match pIterator with
  | none => (BRAWCAP_STATUS_ERROR_INVALID_POINTER, none)
  | some it =>
    if it.position = 0 then (BRAWCAP_STATUS_SUCCESS, some { it with position := it.count })
    else (BRAWCAP_STATUS_SUCCESS, some { it with position := it.position - 1 })

/-- Modelled from the spec: `brawcap_buffer_iterator_eval`. The buffered packet at
the current position, or `NULL` for an "invalid iterator (e.g. beyond the last
or first packet)" and for a null iterator. -/
def brawcap_buffer_iterator_eval (pIterator : Option brawcap_buffer_iterator_t) :
    Option PacketPtr :=
  match pIterator with
  | none => none
  | some it => if it.position < it.count then some (PacketPtr.slot it.buffer it.position) else none

/-- Modelled from the spec: `brawcap_packet_timestamp_get`. `INVALID_POINTER` for a
null packet; otherwise the timestamp object, which "is part of the packet
itself" and is addressed here by the packet it belongs to. -/
def brawcap_packet_timestamp_get (pPacket : Option PacketPtr) :
    brawcap_status_t × Option PacketPtr :=
  match pPacket with
  | none => (BRAWCAP_STATUS_ERROR_INVALID_POINTER, none)
  | some p => (BRAWCAP_STATUS_SUCCESS, some p)

/-! ## `BRAWcapPacket` (`src/brawcap_packet.hpp`) -/

/-- The members of `BRAWcapPacket`, with `m_pTimestamp` of its base class
`BRAWcapTimestamp`. `m_pBuffer` is the weak pointer to the owning buffer. -/
structure BRAWcapPacket where
  m_pTimestamp : Option PacketPtr
  m_created : Bool
  m_pCreatedPacket : Option PacketPtr
  m_pBuffer : Option Ptr
  m_pBufferedPacket : Option PacketPtr
  deriving DecidableEq, Repr

/-- `BRAWcapPacket::MapTo`. -/
def BRAWcapPacket.MapTo (self : BRAWcapPacket) (pBufferedPacket : Option PacketPtr) :
    Outcome Unit × BRAWcapPacket :=
  let self := { self with m_pBufferedPacket := pBufferedPacket }
  if pBufferedPacket.isSome then
    let r := brawcap_packet_timestamp_get self.m_pBufferedPacket
    if BRAWCAP_ERROR r.1 || r.2.isNone then (Outcome.assertFailed, self)
    else (Outcome.returned (), { self with m_pTimestamp := r.2 })
  else (Outcome.returned (), { self with m_pTimestamp := none })

/-- The private constructor `BRAWcapPacket::BRAWcapPacket(pBuffer, pBufferedPacket)`
of a buffered packet. -/
def BRAWcapPacket.BRAWcapPacket_buffered (pBuffer : Option Ptr)
    (pBufferedPacket : Option PacketPtr) : Outcome BRAWcapPacket :=
  let self : BRAWcapPacket :=
    { m_pTimestamp := none, m_created := false, m_pCreatedPacket := none,
      m_pBuffer := pBuffer, m_pBufferedPacket := none }
  match self.MapTo pBufferedPacket with
  | (Outcome.returned _, self) => Outcome.returned self
  | (Outcome.assertFailed, _) => Outcome.assertFailed

/-! ## `BRAWcapBuffer::Iterator` (`brawcap_buffer.hpp`) -/

/-- The members of `BRAWcapBuffer::Iterator`; `m_iterator` holds the native iterator
it points to. -/
structure BRAWcapBuffer.Iterator where
  m_buffer : Option Ptr
  m_iterator : Option brawcap_buffer_iterator_t
  m_packet : BRAWcapPacket
  deriving DecidableEq, Repr

/-- `Iterator::Iterator(buffer, startIndex)`; `buffer` is the pointee of the shared
pointer passed in. -/
def BRAWcapBuffer.Iterator.Iterator (buffer : brawcap_buffer_t) (startIndex : Nat) :
    Outcome BRAWcapBuffer.Iterator :=
  match BRAWcapPacket.BRAWcapPacket_buffered (some buffer.address) none with
  | Outcome.assertFailed => Outcome.assertFailed
  | Outcome.returned m_packet =>
    let r := brawcap_buffer_iterator_create buffer startIndex
    match m_packet.MapTo (brawcap_buffer_iterator_eval r.2) with
    | (Outcome.assertFailed, _) => Outcome.assertFailed
    | (Outcome.returned _, m_packet) =>
      if BRAWCAP_ERROR r.1 then Outcome.assertFailed
      else
        Outcome.returned
          { m_buffer := some buffer.address, m_iterator := r.2, m_packet := m_packet }

/-- `Iterator::operator++()` (prefix). -/
def BRAWcapBuffer.Iterator.operatorInc (self : BRAWcapBuffer.Iterator) :
    Outcome BRAWcapBuffer.Iterator :=
  let r := brawcap_buffer_iterator_next self.m_iterator
  if BRAWCAP_ERROR r.1 then Outcome.assertFailed
  else
    match self.m_packet.MapTo (brawcap_buffer_iterator_eval r.2) with
    | (Outcome.assertFailed, _) => Outcome.assertFailed
    | (Outcome.returned _, m_packet) =>
      Outcome.returned { self with m_iterator := r.2, m_packet := m_packet }

/-- `Iterator::operator--()` (prefix). -/
def BRAWcapBuffer.Iterator.operatorDec (self : BRAWcapBuffer.Iterator) :
    Outcome BRAWcapBuffer.Iterator :=
  let r := brawcap_buffer_iterator_prev self.m_iterator
  if BRAWCAP_ERROR r.1 then Outcome.assertFailed
  else
    match self.m_packet.MapTo (brawcap_buffer_iterator_eval r.2) with
    | (Outcome.assertFailed, _) => Outcome.assertFailed
    | (Outcome.returned _, m_packet) =>
      Outcome.returned { self with m_iterator := r.2, m_packet := m_packet }

/-- `Iterator::operator*()`. -/
def BRAWcapBuffer.Iterator.operatorDeref (self : BRAWcapBuffer.Iterator) : BRAWcapPacket :=
  self.m_packet

/-- `Iterator::operator==`. -/
def BRAWcapBuffer.Iterator.operatorEq (self b : BRAWcapBuffer.Iterator) : Bool :=
  self.m_packet.m_pBufferedPacket == b.m_packet.m_pBufferedPacket

/-- `Iterator::operator!=`. -/
def BRAWcapBuffer.Iterator.operatorNe (self b : BRAWcapBuffer.Iterator) : Bool :=
  self.m_packet.m_pBufferedPacket != b.m_packet.m_pBufferedPacket

/-! ## `BRAWcapBuffer`: element access and iteration -/

/-- `BRAWcapBuffer::At`. -/
def BRAWcapBuffer.At (pBuffer : brawcap_buffer_t) (index : Nat) : Outcome BRAWcapPacket :=
  let r := brawcap_buffer_at_index pBuffer index
  if !BRAWCAP_SUCCESS r.1 then Outcome.assertFailed
  else BRAWcapPacket.BRAWcapPacket_buffered (some pBuffer.address) r.2

/-- `BRAWcapBuffer::Front`: `return At(0);`. -/
def BRAWcapBuffer.Front (pBuffer : brawcap_buffer_t) : Outcome BRAWcapPacket :=
  BRAWcapBuffer.At pBuffer 0

/-- `BRAWcapBuffer::Back`: `return At(Count());`. -/
def BRAWcapBuffer.Back (pBuffer : brawcap_buffer_t) : Outcome BRAWcapPacket :=
  match BRAWcapBuffer.Count pBuffer with
  | Outcome.assertFailed => Outcome.assertFailed
  | Outcome.returned count => BRAWcapBuffer.At pBuffer count

/-- `BRAWcapBuffer::Begin`. -/
def BRAWcapBuffer.Begin (pBuffer : brawcap_buffer_t) : Outcome BRAWcapBuffer.Iterator :=
  BRAWcapBuffer.Iterator.Iterator pBuffer 0

/-- `BRAWcapBuffer::End`: `return ++Iterator(m_pBuffer, count);`. -/
def BRAWcapBuffer.End (pBuffer : brawcap_buffer_t) : Outcome BRAWcapBuffer.Iterator :=
  let r := brawcap_buffer_count pBuffer 0
  if !BRAWCAP_SUCCESS r.1 then Outcome.assertFailed
  else
    match BRAWcapBuffer.Iterator.Iterator pBuffer r.2 with
    | Outcome.assertFailed => Outcome.assertFailed
    | Outcome.returned it => it.operatorInc

/-! ## The native handle: receive and transmit (`brawcap.h`) -/

/-- Modelled from the spec: the receive and transmit state of the library object
`brawcap_handle_t`: whether the receive and the transmit loop are started, the
buffers attached for receive, and the transmit queue in submission order. -/
structure brawcap_handle_t where
  rxStarted : Bool
  rxBuffers : List Ptr
  txStarted : Bool
  txQueue : List Ptr
  deriving DecidableEq, Repr

/-- The library side of a pipeline: its handle and the native buffers that
exist. -/
structure Native where
  handle : brawcap_handle_t
  buffers : List brawcap_buffer_t
  deriving DecidableEq, Repr

/-- The native buffer at address `p`, if there is one. -/
def Native.buffer? (n : Native) (p : Ptr) : Option brawcap_buffer_t :=
  n.buffers.find? (fun b => b.address == p)

/-- Set the lock state of the native buffer at address `p`. -/
def Native.setLock (n : Native) (p : Ptr) (l : LockState) : Native :=
  { n with buffers := n.buffers.map (fun b => if b.address == p then { b with lock := l } else b) }

/-- Modelled from the spec: `brawcap_rx_start`. `WARNING_PENDING` when "another
receive is pending or reception is already started", `INVALID_POINTER` for a
null callback, otherwise the receive loop is started. -/
def brawcap_rx_start (n : Native) (callback : Option Ptr) : brawcap_status_t × Native :=
  if callback.isNone then (BRAWCAP_STATUS_ERROR_INVALID_POINTER, n)
  else if n.handle.rxStarted then (BRAWCAP_STATUS_WARNING_PENDING, n)
  else (BRAWCAP_STATUS_SUCCESS, { n with handle := { n.handle with rxStarted := true } })

/-- Modelled from the spec: `brawcap_rx_stop`. `INFO_NOT_RUNNING` when "there was
no receive running", otherwise the receive loop is stopped. -/
def brawcap_rx_stop (n : Native) : brawcap_status_t × Native :=
  if n.handle.rxStarted then
    (BRAWCAP_STATUS_SUCCESS, { n with handle := { n.handle with rxStarted := false } })
  else (BRAWCAP_STATUS_INFO_NOT_RUNNING, n)

/-- Modelled from the spec: `brawcap_tx_start`. `WARNING_PENDING` when "another
transmit is pending or transmission is already started", `INVALID_POINTER` for
a null callback, otherwise the transmit loop is started. -/
def brawcap_tx_start (n : Native) (callback : Option Ptr) : brawcap_status_t × Native :=
  if callback.isNone then (BRAWCAP_STATUS_ERROR_INVALID_POINTER, n)
  else if n.handle.txStarted then (BRAWCAP_STATUS_WARNING_PENDING, n)
  else (BRAWCAP_STATUS_SUCCESS, { n with handle := { n.handle with txStarted := true } })

/-- Modelled from the spec: `brawcap_tx_stop`. `INFO_NOT_RUNNING` when "there was
no transmission running", otherwise the transmit loop is stopped. -/
def brawcap_tx_stop (n : Native) : brawcap_status_t × Native :=
  if n.handle.txStarted then
    (BRAWCAP_STATUS_SUCCESS, { n with handle := { n.handle with txStarted := false } })
  else (BRAWCAP_STATUS_INFO_NOT_RUNNING, n)

/-- Modelled from the spec: `brawcap_tx_buffer_send`. `INVALID_POINTER` when there
is no such buffer, `IN_USE` when "the buffer is already in use / locked down by
another operation"; otherwise the buffer is locked for transmit and appended
to the transmit queue of the handle. -/
def brawcap_tx_buffer_send (n : Native) (pBuffer : Ptr) (_synchronized : Bool) :
    brawcap_status_t × Native :=
  match n.buffer? pBuffer with
  | none => (BRAWCAP_STATUS_ERROR_INVALID_POINTER, n)
  | some b =>
    if b.locked then (BRAWCAP_STATUS_ERROR_IN_USE, n)
    else
      (BRAWCAP_STATUS_SUCCESS,
        { n.setLock pBuffer LockState.LockedForTransmit with
          handle := { n.handle with txQueue := n.handle.txQueue ++ [pBuffer] } })

/-! ## Pipelines: events and results -/

/-- One invocation of a user completion callback: the function pointer that was
called and the three arguments it was called with. -/
structure CallbackCall where
  callback : Option Ptr
  buffer : BRAWcapBuffer
  status : brawcap_status_t
  pUser : Option Ptr
  deriving DecidableEq, Repr

/-- What a pipeline method does, in program order, as far as other threads and the
user can tell: operations on `m_bufferLock`, reads and modifications of
`m_buffers`, and invocations of the user callback. -/
inductive Event where
  | lock
  | unlock
  | buffersRead
  | buffersWrite
  | callback (call : CallbackCall)
  deriving DecidableEq, Repr

/-- The user callback invocations among the events, in order. -/
def callbacks : List Event → List CallbackCall
  | [] => []
  | Event.callback call :: rest => call :: callbacks rest
  | _ :: rest => callbacks rest

/-- The result of a pipeline method: how it ended, what it did, and the wrapper
object and the library state at that moment. -/
structure Result (α σ : Type) where
  outcome : Outcome α
  events : List Event
  self : σ
  native : Native
  deriving DecidableEq, Repr

/-! ## `BRAWcapReceive` (`src/brawcap_receive.hpp`) -/

/-- The members of `BRAWcapReceive` (`m_bufferLock` appears through the lock
events). -/
structure BRAWcapReceive where
  m_buffers : List BRAWcapBuffer
  m_callback : Option Ptr
  m_pUser : Option Ptr
  deriving DecidableEq, Repr

/-- `BRAWcapReceive::ReceiveStart`. The library is given the static function
`ReceiveBufferCompleteInternal` (a non-null function pointer, here address 1)
and `this`. -/
def BRAWcapReceive.ReceiveStart (self : BRAWcapReceive) (n : Native) (callback : Option Ptr)
    (pUser : Option Ptr) : Result Unit BRAWcapReceive :=
  if callback.isNone then
    { outcome := Outcome.assertFailed, events := [], self := self, native := n }
  else
    let self := { self with m_callback := callback, m_pUser := pUser }
    let r := brawcap_rx_start n (some 1)
    if !BRAWCAP_SUCCESS r.1 then
      { outcome := Outcome.assertFailed, events := [], self := self, native := r.2 }
    else
      { outcome := Outcome.returned (), events := [], self := self, native := r.2 }

/-- `BRAWcapReceive::ReceiveStop`. -/
def BRAWcapReceive.ReceiveStop (self : BRAWcapReceive) (n : Native) :
    Result Unit BRAWcapReceive :=
  let r := brawcap_rx_stop n
  if !BRAWCAP_SUCCESS r.1 then
    { outcome := Outcome.assertFailed, events := [], self := self, native := r.2 }
  else
    { outcome := Outcome.returned (), events := [],
      self := { self with m_callback := none, m_pUser := none }, native := r.2 }

/-- The loop of `ReceiveBufferCompleteInternal` over the remaining elements of
`m_buffers`: the callback invocations it makes. -/
def BRAWcapReceive.ReceiveBufferCompleteInternal.loop (pReceive : BRAWcapReceive)
    (status : brawcap_status_t) (pBuffer : Ptr) : List BRAWcapBuffer → List Event
  | [] => []
  | buffer :: rest =>
    if pReceive.m_callback.isNone then []
    else if buffer.m_pBuffer == pBuffer then
      [Event.callback
        { callback := pReceive.m_callback, buffer := buffer, status := status,
          pUser := pReceive.m_pUser }]
    else BRAWcapReceive.ReceiveBufferCompleteInternal.loop pReceive status pBuffer rest

/-- `BRAWcapReceive::ReceiveBufferCompleteInternal(pHandle, status, pBuffer, pUser)`,
with `pReceive` the object `pUser` points to. -/
def BRAWcapReceive.ReceiveBufferCompleteInternal (pReceive : BRAWcapReceive)
    (status : brawcap_status_t) (pBuffer : Ptr) : List Event :=
  Event.buffersRead ::
    BRAWcapReceive.ReceiveBufferCompleteInternal.loop pReceive status pBuffer pReceive.m_buffers

/-! ## `BRAWcapTransmit` (`src/brawcap_transmit.hpp`) -/

/-- The members of `BRAWcapTransmit` (`m_bufferLock` appears through the lock
events). -/
structure BRAWcapTransmit where
  m_buffers : List BRAWcapBuffer
  m_callback : Option Ptr
  m_pUser : Option Ptr
  deriving DecidableEq, Repr

/-- `BRAWcapTransmit::TransmitStart`. The library is given the static function
`TransmitBufferCompleteInternal` (a non-null function pointer, here address 2)
and `this`. -/
def BRAWcapTransmit.TransmitStart (self : BRAWcapTransmit) (n : Native) (callback : Option Ptr)
    (pUser : Option Ptr) : Result Bool BRAWcapTransmit :=
  if callback.isNone then
    { outcome := Outcome.assertFailed, events := [], self := self, native := n }
  else
    let self := { self with m_callback := callback, m_pUser := pUser }
    let r := brawcap_tx_start n (some 2)
    if BRAWCAP_ERROR r.1 then
      { outcome := Outcome.assertFailed, events := [], self := self, native := r.2 }
    else
      { outcome := Outcome.returned (BRAWCAP_SUCCESS r.1 || BRAWCAP_INFO r.1), events := [],
        self := self, native := r.2 }

/-- `BRAWcapTransmit::TransmitStop`. -/
def BRAWcapTransmit.TransmitStop (self : BRAWcapTransmit) (n : Native) :
    Result Bool BRAWcapTransmit :=
  let r := brawcap_tx_stop n
  if BRAWCAP_ERROR r.1 then
    { outcome := Outcome.assertFailed, events := [], self := self, native := r.2 }
  else
    { outcome := Outcome.returned (BRAWCAP_SUCCESS r.1 || BRAWCAP_INFO r.1), events := [],
      self := self, native := r.2 }

/-- `BRAWcapTransmit::TransmitBufferSend`, on the paths on which
`m_buffers.push_back` does not throw; `TransmitBufferSend.orThrow` adds the
exit by exception. -/
def BRAWcapTransmit.TransmitBufferSend (self : BRAWcapTransmit) (n : Native)
    (buffer : BRAWcapBuffer) (synchronized : Bool) : Result Bool BRAWcapTransmit :=
  let self := { self with m_buffers := self.m_buffers ++ [buffer] }
  let events := [Event.lock, Event.buffersWrite, Event.unlock]
  let r := brawcap_tx_buffer_send n buffer.m_pBuffer synchronized
  if BRAWCAP_ERROR r.1 then
    { outcome := Outcome.assertFailed, events := events, self := self, native := r.2 }
  else
    { outcome := Outcome.returned (BRAWCAP_SUCCESS r.1 || BRAWCAP_INFO r.1), events := events,
      self := self, native := r.2 }

/-- The loop of `TransmitBufferCompleteInternal` over the remaining elements of
`m_buffers`: the first element that wraps `pBuffer`, and the list with that
element erased; `none` when the loop runs to the end. -/
def BRAWcapTransmit.TransmitBufferCompleteInternal.loop (pBuffer : Ptr) :
    List BRAWcapBuffer → Option (BRAWcapBuffer × List BRAWcapBuffer)
  | [] => none
  | it :: rest =>
    if it.m_pBuffer == pBuffer then some (it, rest)
    else
      match BRAWcapTransmit.TransmitBufferCompleteInternal.loop pBuffer rest with
      | none => none
      | some r => some (r.1, it :: r.2)

/-- `BRAWcapTransmit::TransmitBufferCompleteInternal(pHandle, status, pBuffer, pUser)`,
with `pTransmit` the object `pUser` points to: the events and the object
afterwards. -/
def BRAWcapTransmit.TransmitBufferCompleteInternal (pTransmit : BRAWcapTransmit)
    (status : brawcap_status_t) (pBuffer : Ptr) : List Event × BRAWcapTransmit :=
  match BRAWcapTransmit.TransmitBufferCompleteInternal.loop pBuffer pTransmit.m_buffers with
  | some r =>
    ([Event.lock, Event.buffersRead, Event.buffersWrite, Event.unlock,
      Event.callback
        { callback := pTransmit.m_callback, buffer := r.1, status := status,
          pUser := pTransmit.m_pUser }],
      { pTransmit with m_buffers := r.2 })
  | none => ([Event.lock, Event.buffersRead, Event.unlock], pTransmit)

/-! ## Sequences of buffer calls -/

/-- One call of a mutating `BRAWcapBuffer` method. -/
inductive BufferCall where
  | Clear
  | PushBack (packet : Option brawcap_packet_t)
  | PushFront (packet : Option brawcap_packet_t)
  | Insert (packet : Option brawcap_packet_t) (index : Nat)
  deriving DecidableEq, Repr

/-- The native buffer after one call, whether the call returned or stopped at an
assertion. -/
def BufferCall.after (c : BufferCall) (pBuffer : brawcap_buffer_t) : brawcap_buffer_t :=
  match c with
  | BufferCall.Clear => (BRAWcapBuffer.Clear pBuffer).2
  | BufferCall.PushBack packet => (BRAWcapBuffer.PushBack pBuffer packet).2
  | BufferCall.PushFront packet => (BRAWcapBuffer.PushFront pBuffer packet).2
  | BufferCall.Insert packet index => (BRAWcapBuffer.Insert pBuffer packet index).2

/-- The native buffer after a sequence of calls, first call first. -/
def afterCalls (calls : List BufferCall) (pBuffer : brawcap_buffer_t) : brawcap_buffer_t :=
  calls.foldl (fun b c => c.after b) pBuffer

/-! ## The native packet payload functions (`brawcap.h`, group `brawcap_packet`) -/

/-- Modelled from the spec: `brawcap_packet_payload_max_size_get`. `INVALID_POINTER`
for a null packet (the out parameter then keeps `old`), otherwise the maximum
payload size fixed at creation. -/
def brawcap_packet_payload_max_size_get (pPacket : Option brawcap_packet_t) (old : Nat) :
    brawcap_status_t × Nat :=
  match pPacket with
  | none => (BRAWCAP_STATUS_ERROR_INVALID_POINTER, old)
  | some p => (BRAWCAP_STATUS_SUCCESS, p.maxPayloadSize)

/-- Modelled from the spec: `brawcap_packet_payload_size_get`. `INVALID_POINTER` for
a null packet, otherwise the byte size of the stored payload. -/
def brawcap_packet_payload_size_get (pPacket : Option brawcap_packet_t) (old : Nat) :
    brawcap_status_t × Nat :=
  match pPacket with
  | none => (BRAWCAP_STATUS_ERROR_INVALID_POINTER, old)
  | some p => (BRAWCAP_STATUS_SUCCESS, p.payload.length)

/-- Modelled from the spec: `brawcap_packet_payload_get`. `INVALID_POINTER` for a
null packet (the out parameters then keep their old values), otherwise "a
pointer to the beginning of the packet payload", here the bytes it points to,
and their number. -/
def brawcap_packet_payload_get (pPacket : Option brawcap_packet_t)
    (oldPayload : Option (List Nat)) (oldLength : Nat) :
    brawcap_status_t × Option (List Nat) × Nat :=
  match pPacket with
  | none => (BRAWCAP_STATUS_ERROR_INVALID_POINTER, oldPayload, oldLength)
  | some p => (BRAWCAP_STATUS_SUCCESS, some p.payload, p.payload.length)

/-- Modelled from the spec: `brawcap_packet_payload_set`. `INVALID_POINTER` for a
null packet or null payload, `PARAM_OUT_OF_RANGE` when "the specified payload
size exceeds the packet max payload size" (the packet is then left as it was:
"never partially writes on failure"); otherwise the first `length` bytes at
`pPayload` become the payload. -/
def brawcap_packet_payload_set (pPacket : Option brawcap_packet_t)
    (pPayload : Option (List Nat)) (length : Nat) :
    brawcap_status_t × Option brawcap_packet_t :=
  match pPacket, pPayload with
  | some p, some bytes =>
    if p.maxPayloadSize < length then (BRAWCAP_STATUS_ERROR_PARAM_OUT_OF_RANGE, some p)
    else (BRAWCAP_STATUS_SUCCESS, some { p with payload := bytes.take length })
  | _, _ => (BRAWCAP_STATUS_ERROR_INVALID_POINTER, pPacket)

/-- The C function `memcpy(dest, src, n)` on byte lists: the first `n` bytes of
`dest` are replaced by the first `n` bytes of `src`. -/
def memcpy (dest src : List Nat) (n : Nat) : List Nat :=
  src.take n ++ dest.drop n

/-! ## `BRAWcapPacket`: payload access (`src/brawcap_packet.hpp`)

As for the buffer, the methods are functions of the native packet
`ResolvePacket()` points to (`none` for a null pointer). -/

/-- `BRAWcapPacket::MaxPayloadSize`. -/
def BRAWcapPacket.MaxPayloadSize (pPacket : Option brawcap_packet_t) : Outcome Nat :=
  let r := brawcap_packet_payload_max_size_get pPacket 0
  if BRAWCAP_ERROR r.1 then Outcome.assertFailed else Outcome.returned r.2

/-- `BRAWcapPacket::PayloadLength`. -/
def BRAWcapPacket.PayloadLength (pPacket : Option brawcap_packet_t) : Outcome Nat :=
  let r := brawcap_packet_payload_size_get pPacket 0
  if BRAWCAP_ERROR r.1 then Outcome.assertFailed else Outcome.returned r.2

/-- `BRAWcapPacket::PayloadRef(payload, length)`: the outcome and the two reference
parameters afterwards. -/
def BRAWcapPacket.PayloadRef (pPacket : Option brawcap_packet_t) (payload : Option (List Nat))
    (length : Nat) : Outcome Unit × Option (List Nat) × Nat :=
  let r := brawcap_packet_payload_get pPacket payload length
  if BRAWCAP_ERROR r.1 then (Outcome.assertFailed, r.2) else (Outcome.returned (), r.2)

/-- `BRAWcapPacket::PayloadCopy(payload, length)`: the outcome, the destination
bytes at `payload` and the reference parameter `length` afterwards. -/
def BRAWcapPacket.PayloadCopy (pPacket : Option brawcap_packet_t) (payload : List Nat)
    (length : Nat) : Outcome Bool × List Nat × Nat :=
  let r := brawcap_packet_payload_get pPacket none 0
  if BRAWCAP_ERROR r.1 then (Outcome.assertFailed, payload, length)
  else
    let tempPayload := r.2.1
    let tempLength := r.2.2
    if tempLength > length then (Outcome.returned false, payload, tempLength)
    else (Outcome.returned true, memcpy payload (tempPayload.getD []) tempLength, length)

/-- `BRAWcapPacket::PayloadSet(pPayload, length)`: the outcome and the native packet
afterwards. -/
def BRAWcapPacket.PayloadSet (pPacket : Option brawcap_packet_t) (pPayload : Option (List Nat))
    (length : Nat) : Outcome Bool × Option brawcap_packet_t :=
  let r := brawcap_packet_payload_set pPacket pPayload length
  if !BRAWCAP_SUCCESS r.1 then
    if r.1 == BRAWCAP_STATUS_ERROR_PARAM_OUT_OF_RANGE then (Outcome.returned false, r.2)
    else if BRAWCAP_ERROR r.1 then (Outcome.assertFailed, r.2)
    else (Outcome.returned true, r.2)
  else (Outcome.returned true, r.2)

/-! ## Timestamps (`brawcap.h`, group `brawcap_timestamp`; `brawcap_timestamp.hpp`) -/

def BRAWCAP_TIMESTAMP_NS_PER_SEC : Nat := 1000000000
def BRAWCAP_TIMESTAMP_US_PER_SEC : Nat := 1000000
def BRAWCAP_TIMESTAMP_MS_PER_SEC : Nat := 1000
def BRAWCAP_TIMESTAMP_NS_PER_US : Nat := 1000
def BRAWCAP_TIMESTAMP_NS_PER_MS : Nat := 1000000

/-- Modelled from the spec: the library object `brawcap_timestamp_t`, "a fixed-point
time value (seconds + sub-second fraction)": whole seconds since the epoch and
the fraction in nanoseconds, with the capture mode and the resolution. -/
structure brawcap_timestamp_t where
  mode : Nat
  resolution_ns : Nat
  seconds : Nat
  nanoseconds : Nat
  deriving DecidableEq, Repr

/-- Modelled from the spec: `brawcap_timestamp_value_ns_get`. `INVALID_POINTER` for
a null timestamp, otherwise the whole seconds and the fraction in nanoseconds. -/
def brawcap_timestamp_value_ns_get (pTimestamp : Option brawcap_timestamp_t) (old : Nat × Nat) :
    brawcap_status_t × Nat × Nat :=
  match pTimestamp with
  | none => (BRAWCAP_STATUS_ERROR_INVALID_POINTER, old)
  | some t => (BRAWCAP_STATUS_SUCCESS, t.seconds, t.nanoseconds)

/-- Modelled from the spec: `brawcap_timestamp_value_ns_set`. `INVALID_POINTER` for
a null timestamp, `PARAM_OUT_OF_RANGE` when the fraction "exceed[s] 999.999.999
nanoseconds" (the timestamp is then left as it was), otherwise the value is
stored. -/
def brawcap_timestamp_value_ns_set (pTimestamp : Option brawcap_timestamp_t)
    (seconds nanoseconds : Nat) : brawcap_status_t × Option brawcap_timestamp_t :=
  match pTimestamp with
  | none => (BRAWCAP_STATUS_ERROR_INVALID_POINTER, none)
  | some t =>
    if BRAWCAP_TIMESTAMP_NS_PER_SEC ≤ nanoseconds then
      (BRAWCAP_STATUS_ERROR_PARAM_OUT_OF_RANGE, some t)
    else (BRAWCAP_STATUS_SUCCESS, some { t with seconds := seconds, nanoseconds := nanoseconds })

/-- Modelled from the spec: `brawcap_timestamp_value_us_get`. The whole seconds and
the fraction in microseconds, the stored fraction truncated. -/
def brawcap_timestamp_value_us_get (pTimestamp : Option brawcap_timestamp_t) (old : Nat × Nat) :
    brawcap_status_t × Nat × Nat :=
  match pTimestamp with
  | none => (BRAWCAP_STATUS_ERROR_INVALID_POINTER, old)
  | some t => (BRAWCAP_STATUS_SUCCESS, t.seconds, t.nanoseconds / BRAWCAP_TIMESTAMP_NS_PER_US)

/-- Modelled from the spec: `brawcap_timestamp_value_us_set`. `PARAM_OUT_OF_RANGE`
when the fraction "exceed[s] 999.999 microseconds", otherwise the value is
stored. -/
def brawcap_timestamp_value_us_set (pTimestamp : Option brawcap_timestamp_t)
    (seconds microseconds : Nat) : brawcap_status_t × Option brawcap_timestamp_t :=
  match pTimestamp with
  | none => (BRAWCAP_STATUS_ERROR_INVALID_POINTER, none)
  | some t =>
    if BRAWCAP_TIMESTAMP_US_PER_SEC ≤ microseconds then
      (BRAWCAP_STATUS_ERROR_PARAM_OUT_OF_RANGE, some t)
    else
      (BRAWCAP_STATUS_SUCCESS,
        some { t with seconds := seconds,
                      nanoseconds := microseconds * BRAWCAP_TIMESTAMP_NS_PER_US })

/-- Modelled from the spec: `brawcap_timestamp_value_ms_get`. The whole seconds and
the fraction in milliseconds, the stored fraction truncated. -/
def brawcap_timestamp_value_ms_get (pTimestamp : Option brawcap_timestamp_t) (old : Nat × Nat) :
    brawcap_status_t × Nat × Nat :=
  match pTimestamp with
  | none => (BRAWCAP_STATUS_ERROR_INVALID_POINTER, old)
  | some t => (BRAWCAP_STATUS_SUCCESS, t.seconds, t.nanoseconds / BRAWCAP_TIMESTAMP_NS_PER_MS)

/-- Modelled from the spec: `brawcap_timestamp_value_ms_set`. `PARAM_OUT_OF_RANGE`
when the fraction "exceed[s] 999 milliseconds", otherwise the value is
stored. -/
def brawcap_timestamp_value_ms_set (pTimestamp : Option brawcap_timestamp_t)
    (seconds milliseconds : Nat) : brawcap_status_t × Option brawcap_timestamp_t :=
  match pTimestamp with
  | none => (BRAWCAP_STATUS_ERROR_INVALID_POINTER, none)
  | some t =>
    if BRAWCAP_TIMESTAMP_MS_PER_SEC ≤ milliseconds then
      (BRAWCAP_STATUS_ERROR_PARAM_OUT_OF_RANGE, some t)
    else
      (BRAWCAP_STATUS_SUCCESS,
        some { t with seconds := seconds,
                      nanoseconds := milliseconds * BRAWCAP_TIMESTAMP_NS_PER_MS })

/-- `BRAWcapTimestamp::Ns(seconds, nanoseconds)`, a function of the timestamp
`m_pTimestamp` points to: the outcome and the two reference parameters. -/
def BRAWcapTimestamp.Ns (m_pTimestamp : Option brawcap_timestamp_t) (old : Nat × Nat) :
    Outcome Unit × Nat × Nat :=
  if m_pTimestamp.isNone then (Outcome.assertFailed, old)
  else
    let r := brawcap_timestamp_value_ns_get m_pTimestamp old
    if BRAWCAP_ERROR r.1 then (Outcome.assertFailed, r.2) else (Outcome.returned (), r.2)

/-- `BRAWcapTimestamp::NsSet(seconds, nanoseconds)`. -/
def BRAWcapTimestamp.NsSet (m_pTimestamp : Option brawcap_timestamp_t)
    (seconds nanoseconds : Nat) : Outcome Unit × Option brawcap_timestamp_t :=
  if m_pTimestamp.isNone then (Outcome.assertFailed, m_pTimestamp)
  else
    let r := brawcap_timestamp_value_ns_set m_pTimestamp seconds nanoseconds
    if BRAWCAP_ERROR r.1 then (Outcome.assertFailed, r.2) else (Outcome.returned (), r.2)

/-- `BRAWcapTimestamp::Us(seconds, microseconds)`. -/
def BRAWcapTimestamp.Us (m_pTimestamp : Option brawcap_timestamp_t) (old : Nat × Nat) :
    Outcome Unit × Nat × Nat :=
  if m_pTimestamp.isNone then (Outcome.assertFailed, old)
  else
    let r := brawcap_timestamp_value_us_get m_pTimestamp old
    if BRAWCAP_ERROR r.1 then (Outcome.assertFailed, r.2) else (Outcome.returned (), r.2)

/-- `BRAWcapTimestamp::UsSet(seconds, microseconds)`. -/
def BRAWcapTimestamp.UsSet (m_pTimestamp : Option brawcap_timestamp_t)
    (seconds microseconds : Nat) : Outcome Unit × Option brawcap_timestamp_t :=
  if m_pTimestamp.isNone then (Outcome.assertFailed, m_pTimestamp)
  else
    let r := brawcap_timestamp_value_us_set m_pTimestamp seconds microseconds
    if BRAWCAP_ERROR r.1 then (Outcome.assertFailed, r.2) else (Outcome.returned (), r.2)

/-- `BRAWcapTimestamp::Ms(seconds, milliseconds)`. -/
def BRAWcapTimestamp.Ms (m_pTimestamp : Option brawcap_timestamp_t) (old : Nat × Nat) :
    Outcome Unit × Nat × Nat :=
  if m_pTimestamp.isNone then (Outcome.assertFailed, old)
  else
    let r := brawcap_timestamp_value_ms_get m_pTimestamp old
    if BRAWCAP_ERROR r.1 then (Outcome.assertFailed, r.2) else (Outcome.returned (), r.2)

/-- `BRAWcapTimestamp::MsSet(seconds, milliseconds)`. -/
def BRAWcapTimestamp.MsSet (m_pTimestamp : Option brawcap_timestamp_t)
    (seconds milliseconds : Nat) : Outcome Unit × Option brawcap_timestamp_t :=
  if m_pTimestamp.isNone then (Outcome.assertFailed, m_pTimestamp)
  else
    let r := brawcap_timestamp_value_ms_set m_pTimestamp seconds milliseconds
    if BRAWCAP_ERROR r.1 then (Outcome.assertFailed, r.2) else (Outcome.returned (), r.2)

/-- Modelled from the spec: `BRAWcapTimestamp::Nanoseconds`, which
`BRAWcapPacket::TimestampNs` calls and which the `BRAWcapTimestamp` of
`brawcap_timestamp.hpp` does not declare. It is the "get ... at nanosecond
granularity" of the spec, the member declared there as `Ns`. -/
def BRAWcapTimestamp.Nanoseconds (m_pTimestamp : Option brawcap_timestamp_t) (old : Nat × Nat) :
    Outcome Unit × Nat × Nat :=
  BRAWcapTimestamp.Ns m_pTimestamp old

/-- Modelled from the spec: `BRAWcapTimestamp::NanosecondsSet`, called by
`BRAWcapPacket::TimestampNsSet` and not declared in `brawcap_timestamp.hpp`: the
"set ... at nanosecond granularity" of the spec, declared there as `NsSet`. -/
def BRAWcapTimestamp.NanosecondsSet (m_pTimestamp : Option brawcap_timestamp_t)
    (seconds nanoseconds : Nat) : Outcome Unit × Option brawcap_timestamp_t :=
  BRAWcapTimestamp.NsSet m_pTimestamp seconds nanoseconds

/-- Modelled from the spec: `BRAWcapTimestamp::Microseconds`, called by
`BRAWcapPacket::TimestampUs` and not declared in `brawcap_timestamp.hpp`: the
microsecond getter, declared there as `Us`. -/
def BRAWcapTimestamp.Microseconds (m_pTimestamp : Option brawcap_timestamp_t) (old : Nat × Nat) :
    Outcome Unit × Nat × Nat :=
  BRAWcapTimestamp.Us m_pTimestamp old

/-- Modelled from the spec: `BRAWcapTimestamp::MicrosecondsSet`, called by
`BRAWcapPacket::TimestampUsSet` and not declared in `brawcap_timestamp.hpp`: the
microsecond setter, declared there as `UsSet`. -/
def BRAWcapTimestamp.MicrosecondsSet (m_pTimestamp : Option brawcap_timestamp_t)
    (seconds microseconds : Nat) : Outcome Unit × Option brawcap_timestamp_t :=
  BRAWcapTimestamp.UsSet m_pTimestamp seconds microseconds

/-- Modelled from the spec: `BRAWcapTimestamp::Milliseconds`, called by
`BRAWcapPacket::TimestampMs` and not declared in `brawcap_timestamp.hpp`: the
millisecond getter, declared there as `Ms`. -/
def BRAWcapTimestamp.Milliseconds (m_pTimestamp : Option brawcap_timestamp_t) (old : Nat × Nat) :
    Outcome Unit × Nat × Nat :=
  BRAWcapTimestamp.Ms m_pTimestamp old

/-- Modelled from the spec: `BRAWcapTimestamp::MillisecondsSet`, called by
`BRAWcapPacket::TimestampMsSet` and not declared in `brawcap_timestamp.hpp`: the
millisecond setter, declared there as `MsSet`. -/
def BRAWcapTimestamp.MillisecondsSet (m_pTimestamp : Option brawcap_timestamp_t)
    (seconds milliseconds : Nat) : Outcome Unit × Option brawcap_timestamp_t :=
  BRAWcapTimestamp.MsSet m_pTimestamp seconds milliseconds

/-- `BRAWcapPacket::TimestampNs`; `m_pTimestamp` is the timestamp of the packet. -/
def BRAWcapPacket.TimestampNs (m_pTimestamp : Option brawcap_timestamp_t) (old : Nat × Nat) :
    Outcome Unit × Nat × Nat :=
  BRAWcapTimestamp.Nanoseconds m_pTimestamp old

/-- `BRAWcapPacket::TimestampNsSet`. -/
def BRAWcapPacket.TimestampNsSet (m_pTimestamp : Option brawcap_timestamp_t)
    (seconds nanoseconds : Nat) : Outcome Unit × Option brawcap_timestamp_t :=
  BRAWcapTimestamp.NanosecondsSet m_pTimestamp seconds nanoseconds

/-- `BRAWcapPacket::TimestampUs`. -/
def BRAWcapPacket.TimestampUs (m_pTimestamp : Option brawcap_timestamp_t) (old : Nat × Nat) :
    Outcome Unit × Nat × Nat :=
  BRAWcapTimestamp.Microseconds m_pTimestamp old

/-- `BRAWcapPacket::TimestampUsSet`. -/
def BRAWcapPacket.TimestampUsSet (m_pTimestamp : Option brawcap_timestamp_t)
    (seconds microseconds : Nat) : Outcome Unit × Option brawcap_timestamp_t :=
  BRAWcapTimestamp.MicrosecondsSet m_pTimestamp seconds microseconds

/-- `BRAWcapPacket::TimestampMs`. -/
def BRAWcapPacket.TimestampMs (m_pTimestamp : Option brawcap_timestamp_t) (old : Nat × Nat) :
    Outcome Unit × Nat × Nat :=
  BRAWcapTimestamp.Milliseconds m_pTimestamp old

/-- `BRAWcapPacket::TimestampMsSet`. -/
def BRAWcapPacket.TimestampMsSet (m_pTimestamp : Option brawcap_timestamp_t)
    (seconds milliseconds : Nat) : Outcome Unit × Option brawcap_timestamp_t :=
  BRAWcapTimestamp.MillisecondsSet m_pTimestamp seconds milliseconds

/-! ## Filters (`brawcap.h`, group `brawcap_filter`; `brawcap_filter.hpp`) -/

def BRAWCAP_FILTER_BYTE_MAX_LENGTH : Nat := 64
def BRAWCAP_FILTER_TYPE_BYTE_MASK : Nat := 0
def BRAWCAP_FILTER_TYPE_BPF : Nat := 1

/-- Modelled from the spec: the library object `brawcap_filter_t`,
"`{offset, length, mask[≤64], ignoreBits[≤64], captureOffset, captureLength,
active: bool, forwardToStack: bool}`", with its type. -/
structure brawcap_filter_t where
  type : Nat
  offset : Nat
  length : Nat
  mask : List Nat
  ignoreBits : List Nat
  captureOffset : Nat
  captureLength : Nat
  active : Bool
  indicate : Bool
  deriving DecidableEq, Repr

/-- Modelled from the spec: `brawcap_filter_create`. `NOT_AVAILABLE` when the
"specified filter type is not supported" ("currently only the
`BRAWCAP_FILTER_TYPE_BYTE_MASK` filter type is supported"); otherwise a filter
with an empty mask span, zeroed mask and ignore bits, inactive. -/
def brawcap_filter_create (type : Nat) : brawcap_status_t × Option brawcap_filter_t :=
  if type = BRAWCAP_FILTER_TYPE_BYTE_MASK then
    (BRAWCAP_STATUS_SUCCESS,
      some { type := type, offset := 0, length := 0,
             mask := List.replicate BRAWCAP_FILTER_BYTE_MAX_LENGTH 0,
             ignoreBits := List.replicate BRAWCAP_FILTER_BYTE_MAX_LENGTH 0,
             captureOffset := 0, captureLength := 0, active := false, indicate := false })
  else (BRAWCAP_STATUS_ERROR_NOT_AVAILABLE, none)

/-- Modelled from the spec: `brawcap_filter_mask_set`. `INVALID_POINTER` for a null
filter, `INVALID_PARAM` when the filter "is not of type
`BRAWCAP_FILTER_TYPE_BYTE_MASK`", `PARAM_OUT_OF_RANGE` when "offset+length
exceeds `BRAWCAP_FILTER_BYTE_MAX_LENGTH`" (the filter is then left as it was);
otherwise the four mask parameters are stored. -/
def brawcap_filter_mask_set (pFilter : Option brawcap_filter_t) (offset length : Nat)
    (mask ignoreBits : List Nat) : brawcap_status_t × Option brawcap_filter_t :=
  match pFilter with
  | none => (BRAWCAP_STATUS_ERROR_INVALID_POINTER, none)
  | some f =>
    if f.type ≠ BRAWCAP_FILTER_TYPE_BYTE_MASK then (BRAWCAP_STATUS_ERROR_INVALID_PARAM, some f)
    else if BRAWCAP_FILTER_BYTE_MAX_LENGTH < offset + length then
      (BRAWCAP_STATUS_ERROR_PARAM_OUT_OF_RANGE, some f)
    else
      (BRAWCAP_STATUS_SUCCESS,
        some { f with offset := offset, length := length, mask := mask,
                      ignoreBits := ignoreBits })

/-- Modelled from the spec: `brawcap_filter_bytes_to_capture_set`.
`INVALID_POINTER` for a null filter, `PARAM_OUT_OF_RANGE` when "offset+length
exceeds `BRAWCAP_PACKET_SIZE_MAX`" (the filter is then left as it was);
otherwise the capture window is stored. -/
def brawcap_filter_bytes_to_capture_set (pFilter : Option brawcap_filter_t)
    (offset length : Nat) : brawcap_status_t × Option brawcap_filter_t :=
  match pFilter with
  | none => (BRAWCAP_STATUS_ERROR_INVALID_POINTER, none)
  | some f =>
    if BRAWCAP_PACKET_SIZE_MAX < offset + length then
      (BRAWCAP_STATUS_ERROR_PARAM_OUT_OF_RANGE, some f)
    else (BRAWCAP_STATUS_SUCCESS, some { f with captureOffset := offset, captureLength := length })

/-- The data members of `BRAWcapFilter` apart from `m_pFilter`: the type and the
values the wrapper remembers for the single-field setters. -/
structure BRAWcapFilter where
  m_type : Nat
  m_captureByteOffset : Nat
  m_captureByteLength : Nat
  m_byteOffset : Nat
  m_byteLength : Nat
  m_byteMask : List Nat
  m_byteIgnore : List Nat
  deriving DecidableEq, Repr

/-- A `BRAWcapFilter` together with the native filter `m_pFilter` points to. -/
structure FilterState where
  self : BRAWcapFilter
  m_pFilter : Option brawcap_filter_t
  deriving DecidableEq, Repr

/-- `BRAWcapFilter::BRAWcapFilter(type)`: the outcome, and the object with the
native filter it points to. -/
def BRAWcapFilter.BRAWcapFilter (type : Nat) : Outcome Unit × FilterState :=
  let self : BRAWcap.BRAWcapFilter :=
    { m_type := type, m_captureByteOffset := 0, m_captureByteLength := 0, m_byteOffset := 0,
      m_byteLength := 0, m_byteMask := List.replicate BRAWCAP_FILTER_BYTE_MAX_LENGTH 0,
      m_byteIgnore := List.replicate BRAWCAP_FILTER_BYTE_MAX_LENGTH 0 }
  let r := brawcap_filter_create type
  if BRAWCAP_ERROR r.1 then (Outcome.assertFailed, { self := self, m_pFilter := none })
  else (Outcome.returned (), { self := self, m_pFilter := r.2 })

/-- `BRAWcapFilter::CaptureByteOffsetSet`. -/
def BRAWcapFilter.CaptureByteOffsetSet (st : FilterState) (offset : Nat) :
    Outcome Unit × FilterState :=
  let r := brawcap_filter_bytes_to_capture_set st.m_pFilter offset st.self.m_captureByteLength
  if BRAWCAP_ERROR r.1 then (Outcome.assertFailed, { st with m_pFilter := r.2 })
  else
    (Outcome.returned (),
      { self := { st.self with m_captureByteOffset := offset }, m_pFilter := r.2 })

/-- `BRAWcapFilter::CaptureByteLengthSet`. -/
def BRAWcapFilter.CaptureByteLengthSet (st : FilterState) (length : Nat) :
    Outcome Unit × FilterState :=
  let r := brawcap_filter_bytes_to_capture_set st.m_pFilter st.self.m_captureByteOffset length
  if BRAWCAP_ERROR r.1 then (Outcome.assertFailed, { st with m_pFilter := r.2 })
  else
    (Outcome.returned (),
      { self := { st.self with m_captureByteLength := length }, m_pFilter := r.2 })

/-- `BRAWcapFilter::ByteFilterOffsetSet`. -/
def BRAWcapFilter.ByteFilterOffsetSet (st : FilterState) (offset : Nat) :
    Outcome Unit × FilterState :=
  let r := brawcap_filter_mask_set st.m_pFilter offset st.self.m_byteLength st.self.m_byteMask
    st.self.m_byteIgnore
  if BRAWCAP_ERROR r.1 then (Outcome.assertFailed, { st with m_pFilter := r.2 })
  else (Outcome.returned (), { self := { st.self with m_byteOffset := offset }, m_pFilter := r.2 })

/-- `BRAWcapFilter::ByteFilterLengthSet`. -/
def BRAWcapFilter.ByteFilterLengthSet (st : FilterState) (length : Nat) :
    Outcome Unit × FilterState :=
  let r := brawcap_filter_mask_set st.m_pFilter st.self.m_byteOffset length st.self.m_byteMask
    st.self.m_byteIgnore
  if BRAWCAP_ERROR r.1 then (Outcome.assertFailed, { st with m_pFilter := r.2 })
  else (Outcome.returned (), { self := { st.self with m_byteLength := length }, m_pFilter := r.2 })

/-- `BRAWcapFilter::ByteFilterByteMaskSet`. -/
def BRAWcapFilter.ByteFilterByteMaskSet (st : FilterState) (mask : List Nat) :
    Outcome Unit × FilterState :=
  let r := brawcap_filter_mask_set st.m_pFilter st.self.m_byteOffset st.self.m_byteLength mask
    st.self.m_byteIgnore
  if BRAWCAP_ERROR r.1 then (Outcome.assertFailed, { st with m_pFilter := r.2 })
  else (Outcome.returned (), { self := { st.self with m_byteMask := mask }, m_pFilter := r.2 })

/-- `BRAWcapFilter::ByteFilterIgnoreBitsSet`. -/
def BRAWcapFilter.ByteFilterIgnoreBitsSet (st : FilterState) (ignoreBits : List Nat) :
    Outcome Unit × FilterState :=
  let r := brawcap_filter_mask_set st.m_pFilter st.self.m_byteOffset st.self.m_byteLength
    st.self.m_byteMask ignoreBits
  if BRAWCAP_ERROR r.1 then (Outcome.assertFailed, { st with m_pFilter := r.2 })
  else
    (Outcome.returned (), { self := { st.self with m_byteIgnore := ignoreBits }, m_pFilter := r.2 })

/-- One call of a single-field setter of `BRAWcapFilter`. -/
inductive FilterCall where
  | CaptureByteOffsetSet (offset : Nat)
  | CaptureByteLengthSet (length : Nat)
  | ByteFilterOffsetSet (offset : Nat)
  | ByteFilterLengthSet (length : Nat)
  | ByteFilterByteMaskSet (mask : List Nat)
  | ByteFilterIgnoreBitsSet (ignoreBits : List Nat)
  deriving DecidableEq, Repr

/-- The filter after one setter call, whether the call returned or stopped at its
assertion. -/
def FilterCall.after (c : FilterCall) (st : FilterState) : FilterState :=
  match c with
  | FilterCall.CaptureByteOffsetSet offset => (BRAWcapFilter.CaptureByteOffsetSet st offset).2
  | FilterCall.CaptureByteLengthSet length => (BRAWcapFilter.CaptureByteLengthSet st length).2
  | FilterCall.ByteFilterOffsetSet offset => (BRAWcapFilter.ByteFilterOffsetSet st offset).2
  | FilterCall.ByteFilterLengthSet length => (BRAWcapFilter.ByteFilterLengthSet st length).2
  | FilterCall.ByteFilterByteMaskSet mask => (BRAWcapFilter.ByteFilterByteMaskSet st mask).2
  | FilterCall.ByteFilterIgnoreBitsSet ignoreBits =>
    (BRAWcapFilter.ByteFilterIgnoreBitsSet st ignoreBits).2

/-- The filter after a sequence of setter calls, first call first. -/
def afterFilterCalls (calls : List FilterCall) (st : FilterState) : FilterState :=
  calls.foldl (fun s c => c.after s) st

/-- The values the wrapper remembers are the current values of the native byte-mask
filter, and the mask span lies within `BRAWCAP_FILTER_BYTE_MAX_LENGTH`. -/
def FilterState.coherent (st : FilterState) : Prop :=
  match st.m_pFilter with
  | none => False
  | some f =>
    f.type = BRAWCAP_FILTER_TYPE_BYTE_MASK
      ∧ f.offset = st.self.m_byteOffset ∧ f.length = st.self.m_byteLength
      ∧ f.mask = st.self.m_byteMask ∧ f.ignoreBits = st.self.m_byteIgnore
      ∧ f.captureOffset = st.self.m_captureByteOffset
      ∧ f.captureLength = st.self.m_captureByteLength
      ∧ st.self.m_byteOffset + st.self.m_byteLength ≤ BRAWCAP_FILTER_BYTE_MAX_LENGTH

/-! ## Receive buffers of a pipeline (`brawcap.h`; `src/brawcap_receive.hpp`) -/

/-- Modelled from the spec: `brawcap_rx_buffer_attach`. `INVALID_POINTER` when
there is no such buffer, `IN_USE` when "the buffer is already in use / locked
down by another operation", `WARNING_LIMIT_REACHED` when the "limitation of
buffer per handle [is] reached (`BRAWCAP_RX_BUFFERS_PER_HANDLE_MAX`)";
otherwise the buffer is locked for receive and attached to the handle. -/
def brawcap_rx_buffer_attach (n : Native) (pBuffer : Ptr) : brawcap_status_t × Native :=
  match n.buffer? pBuffer with
  | none => (BRAWCAP_STATUS_ERROR_INVALID_POINTER, n)
  | some b =>
    if b.locked then (BRAWCAP_STATUS_ERROR_IN_USE, n)
    else if BRAWCAP_RX_BUFFERS_PER_HANDLE_MAX ≤ n.handle.rxBuffers.length then
      (BRAWCAP_STATUS_WARNING_LIMIT_REACHED, n)
    else
      (BRAWCAP_STATUS_SUCCESS,
        { n.setLock pBuffer LockState.LockedForReceive with
          handle := { n.handle with rxBuffers := n.handle.rxBuffers ++ [pBuffer] } })

/-- `BRAWcapReceive::ReceiveBufferAdd(maxPacketPayloadSize, numPackets)`; `address`
is where the library allocates the new buffer. The lock guard is released when
the method returns, not when an assertion stops it. -/
def BRAWcapReceive.ReceiveBufferAdd (self : BRAWcapReceive) (n : Native) (address : Ptr)
    (maxPacketPayloadSize numPackets : Nat) : Result Unit BRAWcapReceive :=
  match BRAWcapBuffer.BRAWcapBuffer address maxPacketPayloadSize numPackets with
  | Outcome.assertFailed =>
    { outcome := Outcome.assertFailed, events := [Event.lock], self := self, native := n }
  | Outcome.returned pBuffer =>
    let buffer : BRAWcapBuffer := { m_pBuffer := pBuffer.address }
    let n := { n with buffers := n.buffers ++ [pBuffer] }
    let self := { self with m_buffers := self.m_buffers ++ [buffer] }
    let r := brawcap_rx_buffer_attach n buffer.m_pBuffer
    if BRAWCAP_ERROR r.1 then
      { outcome := Outcome.assertFailed, events := [Event.lock, Event.buffersWrite],
        self := self, native := r.2 }
    else
      { outcome := Outcome.returned (),
        events := [Event.lock, Event.buffersWrite, Event.unlock], self := self, native := r.2 }

/-! ## Release of a buffer, and packets that outlive it -/

/-- Modelled from the spec: `brawcap_buffer_free`. `INVALID_POINTER` for a null
buffer, `IN_USE` when the "buffer is still in use/pending (receive/transmit)"
(it then stays as it is); otherwise the buffer "becomes invalid and its memory
will be released", here `none`. -/
def brawcap_buffer_free (pBuffer : Option brawcap_buffer_t) :
    brawcap_status_t × Option brawcap_buffer_t :=
  match pBuffer with
  | none => (BRAWCAP_STATUS_ERROR_INVALID_POINTER, none)
  | some b =>
    if b.locked then (BRAWCAP_STATUS_ERROR_IN_USE, some b)
    else (BRAWCAP_STATUS_SUCCESS, none)

/-- `BRAWcapBuffer::~BRAWcapBuffer()` of the last `BRAWcapBuffer` that shares
`m_pBuffer`: the destructor body is empty, and destroying the shared pointer
`std::shared_ptr<brawcap_buffer_t>(pBuffer, &brawcap_buffer_free)` runs the
deleter, whose return value a shared pointer does not use. The outcome and
the native buffer afterwards (`none` once it is freed). -/
def BRAWcapBuffer.destructor (pBuffer : brawcap_buffer_t) :
    Outcome Unit × Option brawcap_buffer_t :=
  let r := brawcap_buffer_free (some pBuffer)
  (Outcome.returned (), r.2)

/-- `BRAWcapPacket::ResolvePacket`. The check of the weak pointer is commented out
in the source (`//assert(!m_pBuffer.expired());`). -/
def BRAWcapPacket.ResolvePacket (self : BRAWcapPacket) : Option PacketPtr :=
  if self.m_created then self.m_pCreatedPacket
  else self.m_pBufferedPacket

/-- `BRAWcapPacket::ResolvePacketSafe(pLockedBuffer)`; `alive p` says whether the
native buffer at `p` still has an owner, so that `m_pBuffer.lock()` yields it.
The resolved pointer and the reference parameter `pLockedBuffer`. -/
def BRAWcapPacket.ResolvePacketSafe (self : BRAWcapPacket) (alive : Ptr → Bool)
    (pLockedBuffer : Option Ptr) : Outcome (Option PacketPtr) × Option Ptr :=
  if self.m_created then (Outcome.returned self.m_pCreatedPacket, pLockedBuffer)
  else
    let pLockedBuffer :=
      match self.m_pBuffer with
      | some p => if alive p then some p else none
      | none => none
    if pLockedBuffer.isSome then (Outcome.returned self.m_pBufferedPacket, pLockedBuffer)
    else (Outcome.assertFailed, pLockedBuffer)

/-! ## Versions (`brawcap_types_shared.h`) -/

/-- `brawcap_version_fragments_t`: four `UINT16` fields, in declaration order
`build`, `patch`, `minor`, `major`. -/
structure brawcap_version_fragments_t where
  build : Nat
  patch : Nat
  minor : Nat
  major : Nat
  deriving DecidableEq, Repr

/-- The four fields hold `UINT16` values. -/
def brawcap_version_fragments_t.inRange (v : brawcap_version_fragments_t) : Prop :=
  v.build < 65536 ∧ v.patch < 65536 ∧ v.minor < 65536 ∧ v.major < 65536

/-- The member `complete` of the union `brawcap_version_t`: the `UINT64` that
shares its eight bytes with `fragments`. On the little-endian targets of the
library the field at byte offset `2k` is the `k`-th 16-bit digit. -/
def brawcap_version_fragments_t.complete (v : brawcap_version_fragments_t) : Nat :=
  v.build % 65536 + 65536 * (v.patch % 65536) + 65536 ^ 2 * (v.minor % 65536)
    + 65536 ^ 3 * (v.major % 65536)

/-- Lexicographic order on `(major, minor, patch, build)`. -/
def brawcap_version_fragments_t.lexLt (a b : brawcap_version_fragments_t) : Prop :=
  a.major < b.major
    ∨ (a.major = b.major
        ∧ (a.minor < b.minor
            ∨ (a.minor = b.minor
                ∧ (a.patch < b.patch ∨ (a.patch = b.patch ∧ a.build < b.build)))))

/-! ## Single packets (`brawcap.h`; `src/brawcap_receive.hpp`, `src/brawcap_transmit.hpp`) -/

/-- Modelled from the spec: the statuses the header lists for `brawcap_rx_packet`.
`SUCCESS` is the one with which the received data is stored in the packet;
`INFO_NO_DATA` is "returned without any data received (due to timeout)" and
`WARNING_PENDING` means "another receive is still pending/active". -/
def brawcap_rx_packet_statuses : List brawcap_status_t :=
  [BRAWCAP_STATUS_SUCCESS, BRAWCAP_STATUS_ERROR_INVALID_POINTER, BRAWCAP_STATUS_WARNING_PENDING,
   BRAWCAP_STATUS_ERROR_DRIVER_NOT_AVAILABLE, BRAWCAP_STATUS_WARNING_DEMO_MODE,
   BRAWCAP_STATUS_ERROR_DRIVER_IO_FAILED, BRAWCAP_STATUS_INFO_NO_DATA]

/-- Modelled from the spec: the statuses the header lists for `brawcap_tx_packet`. -/
def brawcap_tx_packet_statuses : List brawcap_status_t :=
  [BRAWCAP_STATUS_SUCCESS, BRAWCAP_STATUS_ERROR_INVALID_POINTER,
   BRAWCAP_STATUS_ERROR_DRIVER_NOT_AVAILABLE, BRAWCAP_STATUS_WARNING_DEMO_MODE,
   BRAWCAP_STATUS_ERROR_DRIVER_IO_FAILED, BRAWCAP_STATUS_WARNING_NOT_ALL_PROCESSED]

/-- `BRAWcapReceive::ReceiveSinglePacket(packet)`; `status` is what
`brawcap_rx_packet(handle, packet.ResolvePacket())` returned. -/
def BRAWcapReceive.ReceiveSinglePacket (status : brawcap_status_t) : Outcome Bool :=
  if BRAWCAP_ERROR status then Outcome.assertFailed
  else Outcome.returned (!BRAWCAP_ERROR status)

/-- `BRAWcapTransmit::TransmitSinglePacket(packet)`; `status` is what
`brawcap_tx_packet(handle, packet.ResolvePacket())` returned. -/
def BRAWcapTransmit.TransmitSinglePacket (status : brawcap_status_t) : Outcome Bool :=
  if BRAWCAP_ERROR status then Outcome.assertFailed
  else Outcome.returned (BRAWCAP_SUCCESS status || BRAWCAP_INFO status)

/-! ## Removing a receive buffer (`brawcap.h`; `src/brawcap_receive.hpp`) -/

/-- Modelled from the spec: `brawcap_rx_buffer_detach`. `INVALID_POINTER` when
there is no such buffer, `INFO_NOT_ATTACHED` when "the buffer was not
attached"; otherwise the buffer is taken off the handle, and "after detaching a
buffer it is unlocked". -/
def brawcap_rx_buffer_detach (n : Native) (pBuffer : Ptr) : brawcap_status_t × Native :=
  match n.buffer? pBuffer with
  | none => (BRAWCAP_STATUS_ERROR_INVALID_POINTER, n)
  | some _ =>
    if pBuffer ∈ n.handle.rxBuffers then
      (BRAWCAP_STATUS_SUCCESS,
        { n.setLock pBuffer LockState.Unlocked with
          handle := { n.handle with rxBuffers := n.handle.rxBuffers.erase pBuffer } })
    else (BRAWCAP_STATUS_INFO_NOT_ATTACHED, n)

/-- The end of the last `BRAWcapBuffer` that shares the native buffer at `p`: the
library state after `BRAWcapBuffer.destructor`. -/
def Native.release (n : Native) (p : Ptr) : Native :=
  match n.buffer? p with
  | none => n
  | some b =>
    match (BRAWcapBuffer.destructor b).2 with
    | none => { n with buffers := n.buffers.filter (fun x => x.address != p) }
    | some _ => n

/-- `BRAWcapReceive::ReceiveBufferRemove()`. `m_buffers.back()` of an empty vector
is undefined behaviour: `none`. `pop_back` destroys the last element;
`lastOwner` says whether no other copy of that `BRAWcapBuffer` exists, so that
the native buffer goes with it. The lock guard is released when the method
returns, not when the assertion stops it. -/
def BRAWcapReceive.ReceiveBufferRemove (self : BRAWcapReceive) (n : Native) (lastOwner : Bool) :
    Option (Result Unit BRAWcapReceive) :=
  match self.m_buffers.getLast? with
  | none => none
  | some back =>
    let r := brawcap_rx_buffer_detach n back.m_pBuffer
    if BRAWCAP_ERROR r.1 then
      some { outcome := Outcome.assertFailed, events := [Event.lock, Event.buffersRead],
             self := self, native := r.2 }
    else
      some { outcome := Outcome.returned (),
             events := [Event.lock, Event.buffersRead, Event.buffersWrite, Event.unlock],
             self := { self with m_buffers := self.m_buffers.dropLast },
             native := if lastOwner then r.2.release back.m_pBuffer else r.2 }

/-! ## The filter of a handle (`brawcap.h`; `src/brawcap_receive.hpp`, `brawcap_filter.hpp`) -/

/-- Modelled from the spec: `brawcap_rx_filter_set`; `rxFilter` is the filter
configured for the handle ("each handle can have exactly one filter applied").
`INVALID_POINTER` for a null filter, `NOT_AVAILABLE` when the "specified filter
type is not available"; otherwise the handle takes over the values of the
given filter. The status and the filter of the handle afterwards. -/
def brawcap_rx_filter_set (rxFilter : brawcap_filter_t) (pFilter : Option brawcap_filter_t) :
    brawcap_status_t × brawcap_filter_t :=
  match pFilter with
  | none => (BRAWCAP_STATUS_ERROR_INVALID_POINTER, rxFilter)
  | some f =>
    if f.type ≠ BRAWCAP_FILTER_TYPE_BYTE_MASK then (BRAWCAP_STATUS_ERROR_NOT_AVAILABLE, rxFilter)
    else (BRAWCAP_STATUS_SUCCESS, f)

/-- Modelled from the spec: `brawcap_rx_filter_get`. `INVALID_POINTER` for a null
filter; otherwise the given filter "will contain the currently configured
filter, afterwards". The status and the given filter afterwards. -/
def brawcap_rx_filter_get (rxFilter : brawcap_filter_t) (pFilter : Option brawcap_filter_t) :
    brawcap_status_t × Option brawcap_filter_t :=
  match pFilter with
  | none => (BRAWCAP_STATUS_ERROR_INVALID_POINTER, none)
  | some _ => (BRAWCAP_STATUS_SUCCESS, some rxFilter)

/-- `BRAWcapReceive::ReceiveFilterSet(filter)`: the outcome and the filter of the
handle afterwards. -/
def BRAWcapReceive.ReceiveFilterSet (rxFilter : brawcap_filter_t) (filter : FilterState) :
    Outcome Unit × brawcap_filter_t :=
  let r := brawcap_rx_filter_set rxFilter filter.m_pFilter
  if BRAWCAP_ERROR r.1 then (Outcome.assertFailed, r.2)
  else (Outcome.returned (), r.2)

/-- `BRAWcapReceive::ReceiveFilter()`: the outcome and the `BRAWcapFilter` it
builds and returns, with the native filter that one points to. -/
def BRAWcapReceive.ReceiveFilter (rxFilter : brawcap_filter_t) : Outcome Unit × FilterState :=
  match BRAWcapFilter.BRAWcapFilter BRAWCAP_FILTER_TYPE_BYTE_MASK with
  | (Outcome.assertFailed, filter) => (Outcome.assertFailed, filter)
  | (Outcome.returned _, filter) =>
    let r := brawcap_rx_filter_get rxFilter filter.m_pFilter
    if BRAWCAP_ERROR r.1 then (Outcome.assertFailed, { filter with m_pFilter := r.2 })
    else (Outcome.returned (), { filter with m_pFilter := r.2 })

/-- The implicitly defined copy constructor `BRAWcapFilter(const BRAWcapFilter&)`:
a member-wise copy, so the copy has its own remembered values and shares the
native filter through `m_pFilter`. The copy made of `original`, at a moment
when the shared native filter is `current`. -/
def BRAWcapFilter.copy (original : FilterState) (current : Option brawcap_filter_t) :
    FilterState :=
  { self := original.self, m_pFilter := current }

/-! ## Adapter addresses as text (`brawcap_types_um.h`; `brawcap_adapter.hpp`) -/

/-- `brawcap_adapter_ipv4_t`: the union of `UINT8 bytes[4]`, `UINT16 words[2]` and
`UINT32 addr`, held as its four bytes. -/
structure brawcap_adapter_ipv4_t where
  bytes : List Nat
  deriving DecidableEq, Repr

/-- `brawcap_adapter_ipv6_t`: the union of `UINT8 bytes[16]`, `UINT16 words[8]` and
`UINT64 qwords[2]`, held as its sixteen bytes. -/
structure brawcap_adapter_ipv6_t where
  bytes : List Nat
  deriving DecidableEq, Repr

/-- `ipv4.bytes[i]`, a `UINT8`. -/
def brawcap_adapter_ipv4_t.byte (ipv4 : brawcap_adapter_ipv4_t) (i : Nat) : Nat :=
  ipv4.bytes.getD i 0 % 256

/-- `ipv6.bytes[i]`, a `UINT8`. -/
def brawcap_adapter_ipv6_t.byte (ipv6 : brawcap_adapter_ipv6_t) (i : Nat) : Nat :=
  ipv6.bytes.getD i 0 % 256

/-- `ipv6.words[i]`, a `UINT16`: the union member `words` shares the sixteen bytes,
and on the little-endian targets of the library word `i` is made of the bytes
`2i` (low) and `2i+1` (high). -/
def brawcap_adapter_ipv6_t.word (ipv6 : brawcap_adapter_ipv6_t) (i : Nat) : Nat :=
  ipv6.byte (2 * i) + 256 * ipv6.byte (2 * i + 1)

/-- The characters of a string literal, as their codes. -/
def cstr (s : String) : List Nat :=
  s.toList.map Char.toNat

/-- A `std::stringstream`: the characters written so far, as their codes, and the
base that integer insertion uses. -/
structure stringstream where
  str : List Nat
  basefield : Nat
  deriving DecidableEq, Repr

/-- The manipulator `std::dec`. -/
def stringstream.dec (s : stringstream) : stringstream :=
  { s with basefield := 10 }

/-- The manipulator `std::hex`. -/
def stringstream.hex (s : stringstream) : stringstream :=
  { s with basefield := 16 }

/-- `operator<<(std::ostream&, unsigned char)`, the inserter that overload
resolution picks for a `UINT8` (`typedef unsigned char UINT8`): it writes the
one character with that code, whatever the base. -/
def stringstream.insertUnsignedChar (s : stringstream) (c : Nat) : stringstream :=
  { s with str := s.str ++ [c % 256] }

/-- `operator<<(std::ostream&, const char*)`. -/
def stringstream.insertCStr (s : stringstream) (text : String) : stringstream :=
  { s with str := s.str ++ cstr text }

/-- `BRAWcapAdapter::AdapterIpv4()`; `r` is what `brawcap_adapter_ipv4_by_handle`
answers: its status and the address it writes. -/
def BRAWcapAdapter.AdapterIpv4 (r : brawcap_status_t × brawcap_adapter_ipv4_t) :
    Outcome brawcap_adapter_ipv4_t :=
  if !BRAWCAP_SUCCESS r.1 then Outcome.assertFailed
  else Outcome.returned r.2

/-- `BRAWcapAdapter::AdapterIpv4String()`. -/
def BRAWcapAdapter.AdapterIpv4String (r : brawcap_status_t × brawcap_adapter_ipv4_t) :
    Outcome (List Nat) :=
  match BRAWcapAdapter.AdapterIpv4 r with
  | Outcome.assertFailed => Outcome.assertFailed
  | Outcome.returned ipv4 =>
    let strIpv4 : stringstream :=
      (List.range 4).foldl
        (fun (strIpv4 : stringstream) i =>
          let strIpv4 := strIpv4.dec.insertUnsignedChar (ipv4.byte i)
          if i != 3 then strIpv4.insertCStr "." else strIpv4)
        { str := [], basefield := 10 }
    Outcome.returned strIpv4.str

/-- `BRAWcapAdapter::AdapterIpv6()`; `r` is what `brawcap_adapter_ipv6_by_handle`
answers: its status and the address it writes. -/
def BRAWcapAdapter.AdapterIpv6 (r : brawcap_status_t × brawcap_adapter_ipv6_t) :
    Outcome brawcap_adapter_ipv6_t :=
  if !BRAWCAP_SUCCESS r.1 then Outcome.assertFailed
  else Outcome.returned r.2

/-- `BRAWcapAdapter::AdapterIpv6String()`. The loop reads `ipv6.bytes[i]` for
`i = 0 .. 7`. -/
def BRAWcapAdapter.AdapterIpv6String (r : brawcap_status_t × brawcap_adapter_ipv6_t) :
    Outcome (List Nat) :=
  match BRAWcapAdapter.AdapterIpv6 r with
  | Outcome.assertFailed => Outcome.assertFailed
  | Outcome.returned ipv6 =>
    let strIpv6 : stringstream :=
      (List.range 8).foldl
        (fun (strIpv6 : stringstream) i =>
          let strIpv6 := strIpv6.hex.insertUnsignedChar (ipv6.byte i)
          if i != 7 then strIpv6.insertCStr ":" else strIpv6)
        { str := [], basefield := 10 }
    Outcome.returned strIpv6.str

/-- The `printf` conversion `%u` of an unsigned value: its decimal digits. -/
def printf_u (value : Nat) : List Nat :=
  (Nat.toDigits 10 value).map Char.toNat

/-- The `printf` conversion `%x` of an unsigned value: its hexadecimal digits,
lowercase. -/
def printf_x (value : Nat) : List Nat :=
  (Nat.toDigits 16 value).map Char.toNat

/-- The text of the adapter property reader (`01_adapter_property_reader.c`) for an
IPv4 address: `"%u.%u.%u.%u"` of `ipv4.bytes[0]` .. `ipv4.bytes[3]`. -/
def printf_ipv4 (ipv4 : brawcap_adapter_ipv4_t) : List Nat :=
  printf_u (ipv4.byte 0) ++ cstr "." ++ printf_u (ipv4.byte 1) ++ cstr "."
    ++ printf_u (ipv4.byte 2) ++ cstr "." ++ printf_u (ipv4.byte 3)

/-- The text of the adapter property reader (`01_adapter_property_reader.c`) for an
IPv6 address: `"%x:%x:%x:%x:%x:%x:%x:%x"` of `ipv6.words[0]` .. `ipv6.words[7]`. -/
def printf_ipv6 (ipv6 : brawcap_adapter_ipv6_t) : List Nat :=
  printf_x (ipv6.word 0) ++ cstr ":" ++ printf_x (ipv6.word 1) ++ cstr ":"
    ++ printf_x (ipv6.word 2) ++ cstr ":" ++ printf_x (ipv6.word 3) ++ cstr ":"
    ++ printf_x (ipv6.word 4) ++ cstr ":" ++ printf_x (ipv6.word 5) ++ cstr ":"
    ++ printf_x (ipv6.word 6) ++ cstr ":" ++ printf_x (ipv6.word 7)

/-! ## Iterating over a buffer -/

/-- The `BRAWcapPacket` an iterator holds while it stands at the occupied slot
`index` of the buffer: a buffered packet that resolves that slot. -/
def BRAWcapBuffer.packetAt (pBuffer : brawcap_buffer_t) (index : Nat) : BRAWcapPacket :=
  { m_pTimestamp := some (PacketPtr.slot pBuffer.address index), m_created := false,
    m_pCreatedPacket := none, m_pBuffer := some pBuffer.address,
    m_pBufferedPacket := some (PacketPtr.slot pBuffer.address index) }

/-- The iterator that stands at position `index` of the buffer: at the occupied
slot `index`, or, from the occupied count on, at the sentinel that resolves no
slot. -/
def BRAWcapBuffer.iteratorAt (pBuffer : brawcap_buffer_t) (index : Nat) :
    BRAWcapBuffer.Iterator :=
  { m_buffer := some pBuffer.address,
    m_iterator :=
      some { buffer := pBuffer.address, count := pBuffer.packets.length, position := index },
    m_packet :=
      if index < pBuffer.packets.length then BRAWcapBuffer.packetAt pBuffer index
      else
        { m_pTimestamp := none, m_created := false, m_pCreatedPacket := none,
          m_pBuffer := some pBuffer.address, m_pBufferedPacket := none } }

/-- The loop `for (...; it != buffer.End(); ++it) { visit(*it); }` from the
iterator `it` on, where the body only reads the packet: each round evaluates
`it != buffer.End()` (one unit of fuel), dereferences `it` and steps it. The
packets dereferenced so far are collected in `visited`; `none` when the fuel is
used up before the condition turns false. -/
def BRAWcapBuffer.forLoop.loop (pBuffer : brawcap_buffer_t) :
    Nat → BRAWcapBuffer.Iterator → List BRAWcapPacket → Option (Outcome (List BRAWcapPacket))
  | 0, _, _ => none
  | fuel + 1, it, visited =>
    match BRAWcapBuffer.End pBuffer with
    | Outcome.assertFailed => some Outcome.assertFailed
    | Outcome.returned e =>
      if it.operatorNe e then
        match it.operatorInc with
        | Outcome.assertFailed => some Outcome.assertFailed
        | Outcome.returned next =>
          BRAWcapBuffer.forLoop.loop pBuffer fuel next (visited ++ [it.operatorDeref])
      else some (Outcome.returned visited)

/-- The loop `for (auto it = buffer.Begin(); it != buffer.End(); ++it) { visit(*it); }`:
the packets it dereferences, in order. -/
def BRAWcapBuffer.forLoop (pBuffer : brawcap_buffer_t) (fuel : Nat) :
    Option (Outcome (List BRAWcapPacket)) :=
  match BRAWcapBuffer.Begin pBuffer with
  | Outcome.assertFailed => some Outcome.assertFailed
  | Outcome.returned it => BRAWcapBuffer.forLoop.loop pBuffer fuel it []

/-! ## The buffer-list mutex along the events of a method -/

/-- Whether `m_bufferLock` is locked after the events of a method, when `held` says
whether it is locked before them and nothing else unlocks it meanwhile; `none`
when the method calls `lock()` on the locked mutex (the call then waits for an
unlock that does not come) or `unlock()` on the unlocked one. -/
def mutexAfter : Bool → List Event → Option Bool
  | held, [] => some held
  | held, Event.lock :: rest => if held then none else mutexAfter true rest
  | held, Event.unlock :: rest => if held then mutexAfter false rest else none
  | held, _ :: rest => mutexAfter held rest

/-- Every invocation of the user callback among the events happens while the
thread does not hold `m_bufferLock`. -/
def callbacksOutsideLock : Bool → List Event → Bool
  | _, [] => true
  | _, Event.lock :: rest => callbacksOutsideLock true rest
  | _, Event.unlock :: rest => callbacksOutsideLock false rest
  | held, Event.callback _ :: rest => !held && callbacksOutsideLock held rest
  | held, _ :: rest => callbacksOutsideLock held rest

/-- Every read and every modification of `m_buffers` among the events happens
while the thread holds `m_bufferLock`. -/
def buffersUnderLock : Bool → List Event → Bool
  | _, [] => true
  | _, Event.lock :: rest => buffersUnderLock true rest
  | _, Event.unlock :: rest => buffersUnderLock false rest
  | held, Event.buffersRead :: rest => held && buffersUnderLock held rest
  | held, Event.buffersWrite :: rest => held && buffersUnderLock held rest
  | held, _ :: rest => buffersUnderLock held rest

/-- A C++ exception that leaves a pipeline method: what the method did up to then,
and the wrapper object and the library state at that moment. -/
structure Thrown (σ : Type) where
  events : List Event
  self : σ
  native : Native
  deriving DecidableEq, Repr

/-- `BRAWcapTransmit::TransmitBufferSend` with its exit by exception.
`m_buffers.push_back(buffer)` is the one statement of the method that can
throw: when the vector has to grow and the allocation fails (`allocationFails`)
it throws `std::bad_alloc` and leaves the vector as it was. The method has no
handler and takes the mutex with a bare `m_bufferLock.lock()`, not with a lock
guard, so the exception leaves it after the `lock()` and before the
`unlock()`, and before the library is called. Otherwise the call is
`TransmitBufferSend`. -/
def BRAWcapTransmit.TransmitBufferSend.orThrow (self : BRAWcapTransmit) (n : Native)
    (buffer : BRAWcapBuffer) (synchronized : Bool) (allocationFails : Bool) :
    Except (Thrown BRAWcapTransmit) (Result Bool BRAWcapTransmit) :=
  if allocationFails then Except.error { events := [Event.lock], self := self, native := n }
  else Except.ok (self.TransmitBufferSend n buffer synchronized)

/-! # Theorems

## Buffer capacity and insertion -/

/-- A successful construction yields an empty, unlocked buffer of the requested
capacity. -/
theorem BRAWcapBuffer_new_spec {address size num : Nat} {b : brawcap_buffer_t}
    (h : BRAWcapBuffer.BRAWcapBuffer address size num = Outcome.returned b) :
    b.packets = [] ∧ b.numPackets = num ∧ b.maxPacketPayloadSize = size
      ∧ b.lock = LockState.Unlocked ∧ b.address = address := by
  unfold BRAWcapBuffer.BRAWcapBuffer brawcap_buffer_create at h
  split_ifs at h
  all_goals simp_all
  all_goals (obtain ⟨_, rfl⟩ := h; simp)

/-- The native buffer a mutating wrapper call leaves behind is the one the native
function it delegates to leaves behind. -/
theorem BufferCall_after_native (c : BufferCall) (b : brawcap_buffer_t) :
    c.after b =
      match c with
      | BufferCall.Clear => (brawcap_buffer_clear b).2
      | BufferCall.PushBack packet => (brawcap_buffer_add_back b packet).2
      | BufferCall.PushFront packet => (brawcap_buffer_add_front b packet).2
      | BufferCall.Insert packet index => (brawcap_buffer_add_at_index b packet index).2 := by
  cases c
  · simp only [BufferCall.after, BRAWcapBuffer.Clear]; split_ifs <;> rfl
  · simp only [BufferCall.after, BRAWcapBuffer.PushBack]; split_ifs <;> rfl
  · simp only [BufferCall.after, BRAWcapBuffer.PushFront]; split_ifs <;> rfl
  · simp only [BufferCall.after, BRAWcapBuffer.Insert]; split_ifs <;> rfl

/-- Every mutating call keeps the capacity, the slot size, the lock state and the
address of the native buffer, and keeps the occupied count within capacity. -/
theorem BufferCall_after_spec (c : BufferCall) (b : brawcap_buffer_t)
    (h : b.packets.length ≤ b.numPackets) :
    (c.after b).packets.length ≤ (c.after b).numPackets
      ∧ (c.after b).numPackets = b.numPackets
      ∧ (c.after b).maxPacketPayloadSize = b.maxPacketPayloadSize
      ∧ (c.after b).lock = b.lock ∧ (c.after b).address = b.address := by
  rw [BufferCall_after_native]
  cases c with
  | Clear =>
    simp only [brawcap_buffer_clear]
    split_ifs <;> simp_all
  | PushBack packet =>
    cases packet with
    | none => simp [brawcap_buffer_add_back, h]
    | some p =>
      simp only [brawcap_buffer_add_back]
      split_ifs <;> first | (simp_all; done) | (simp_all; omega)
  | PushFront packet =>
    cases packet with
    | none => simp [brawcap_buffer_add_front, h]
    | some p =>
      simp only [brawcap_buffer_add_front]
      split_ifs <;> first | (simp_all; done) | (simp_all; omega)
  | Insert packet index =>
    cases packet with
    | none => simp [brawcap_buffer_add_at_index, h]
    | some p =>
      simp only [brawcap_buffer_add_at_index]
      split_ifs <;> first | (simp_all; done) | (simp_all; omega)

/-- The invariants of `BufferCall_after_spec` along a sequence of calls. -/
theorem afterCalls_spec (calls : List BufferCall) (b : brawcap_buffer_t)
    (h : b.packets.length ≤ b.numPackets) :
    (afterCalls calls b).packets.length ≤ (afterCalls calls b).numPackets
      ∧ (afterCalls calls b).numPackets = b.numPackets
      ∧ (afterCalls calls b).maxPacketPayloadSize = b.maxPacketPayloadSize
      ∧ (afterCalls calls b).lock = b.lock ∧ (afterCalls calls b).address = b.address := by
  induction calls generalizing b with
  | nil => exact ⟨h, rfl, rfl, rfl, rfl⟩
  | cons c rest ih =>
    have hc := BufferCall_after_spec c b h
    have hr := ih (c.after b) hc.1
    simp only [afterCalls, List.foldl_cons] at hr ⊢
    refine ⟨hr.1, ?_, ?_, ?_, ?_⟩
    · rw [hr.2.1, hc.2.1]
    · rw [hr.2.2.1, hc.2.2.1]
    · rw [hr.2.2.2.1, hc.2.2.2.1]
    · rw [hr.2.2.2.2, hc.2.2.2.2]

/-- On an unlocked buffer `Count` returns the number of occupied slots and
`Capacity` the number of slots. -/
theorem Count_Capacity_unlocked (b : brawcap_buffer_t) (h : b.lock = LockState.Unlocked) :
    BRAWcapBuffer.Count b = Outcome.returned b.packets.length
      ∧ BRAWcapBuffer.Capacity b = Outcome.returned b.numPackets := by
  simp [BRAWcapBuffer.Count, BRAWcapBuffer.Capacity, brawcap_buffer_count,
    brawcap_buffer_capacity, brawcap_buffer_t.locked, h, BRAWCAP_SUCCESS, BRAWCAP_STATUS_SUCCESS]

/-- When `Count` returns, the buffer is unlocked and the value is the number of
occupied slots. -/
theorem Count_returned {b : brawcap_buffer_t} {n : Nat}
    (h : BRAWcapBuffer.Count b = Outcome.returned n) :
    b.lock = LockState.Unlocked ∧ n = b.packets.length := by
  unfold BRAWcapBuffer.Count brawcap_buffer_count at h
  by_cases hl : b.locked
  · simp [hl, BRAWCAP_SUCCESS, BRAWCAP_STATUS_ERROR_IN_USE] at h
  · simp [hl, BRAWCAP_SUCCESS, BRAWCAP_STATUS_SUCCESS] at h
    refine ⟨?_, h.symm⟩
    simpa [brawcap_buffer_t.locked] using hl

/-- When `Capacity` returns, the value is the number of slots. -/
theorem Capacity_returned {b : brawcap_buffer_t} {n : Nat}
    (h : BRAWcapBuffer.Capacity b = Outcome.returned n) : n = b.numPackets := by
  unfold BRAWcapBuffer.Capacity brawcap_buffer_capacity at h
  by_cases hl : b.locked
  · simp [hl, BRAWCAP_SUCCESS, BRAWCAP_STATUS_ERROR_IN_USE] at h
  · simp [hl, BRAWCAP_SUCCESS, BRAWCAP_STATUS_SUCCESS] at h
    exact h.symm

/-- `PushBack` of a packet on an unlocked buffer whose slots are all occupied
returns `false` and leaves the native buffer as it was. -/
theorem PushBack_full (b : brawcap_buffer_t) (p : brawcap_packet_t)
    (hl : b.lock = LockState.Unlocked) (hfull : b.numPackets ≤ b.packets.length) :
    BRAWcapBuffer.PushBack b (some p) = (Outcome.returned false, b) := by
  simp [BRAWcapBuffer.PushBack, brawcap_buffer_add_back, brawcap_buffer_t.locked, hl, hfull,
    BRAWCAP_SUCCESS, BRAWCAP_STATUS_ERROR_OVERRUN]

/-- `PushBack` of a packet that fits a slot, on an unlocked buffer with a free
slot, returns `true` and stores the packet behind the occupied slots. -/
theorem PushBack_free (b : brawcap_buffer_t) (p : brawcap_packet_t)
    (hl : b.lock = LockState.Unlocked) (hfree : b.packets.length < b.numPackets)
    (hfit : p.payload.length ≤ b.maxPacketPayloadSize) :
    BRAWcapBuffer.PushBack b (some p)
      = (Outcome.returned true, { b with packets := b.packets ++ [b.slotOf p] }) := by
  have h1 : ¬ b.numPackets ≤ b.packets.length := by omega
  have h2 : ¬ b.maxPacketPayloadSize < p.payload.length := by omega
  simp [BRAWcapBuffer.PushBack, brawcap_buffer_add_back, brawcap_buffer_t.locked, hl, h1, h2,
    BRAWCAP_SUCCESS, BRAWCAP_STATUS_SUCCESS]

/-- C1. Capacity invariant of `BRAWcapBuffer`. For a buffer obtained from the
constructor, after any sequence of `Clear`, `PushBack`, `PushFront` and `Insert`
calls `Count()` and `Capacity()` return and `Count() ≤ Capacity()`; `PushBack`
of a packet on any buffer with `Count() = Capacity()` returns `false` and leaves
the buffer, hence `Count()`, unchanged; and when the buffer was created with
`numPackets = 1`, the first `PushBack` (of a packet that fits a slot) returns
`true`, the second returns `false`, and `Count()` is 1 after each of them. -/
theorem C1_count_le_capacity (address size num : Nat) (b0 : brawcap_buffer_t)
    (hnew : BRAWcapBuffer.BRAWcapBuffer address size num = Outcome.returned b0) :
    (∀ calls : List BufferCall, ∃ n c : Nat,
        BRAWcapBuffer.Count (afterCalls calls b0) = Outcome.returned n
          ∧ BRAWcapBuffer.Capacity (afterCalls calls b0) = Outcome.returned c ∧ n ≤ c)
    ∧ (∀ (b : brawcap_buffer_t) (n : Nat) (p : brawcap_packet_t),
        BRAWcapBuffer.Count b = Outcome.returned n →
        BRAWcapBuffer.Capacity b = Outcome.returned n →
        BRAWcapBuffer.PushBack b (some p) = (Outcome.returned false, b)
          ∧ BRAWcapBuffer.Count (BRAWcapBuffer.PushBack b (some p)).2 = Outcome.returned n)
    ∧ (num = 1 → ∀ p1 p2 : brawcap_packet_t, p1.payload.length ≤ size →
        ∃ b1 : brawcap_buffer_t,
          BRAWcapBuffer.PushBack b0 (some p1) = (Outcome.returned true, b1)
            ∧ BRAWcapBuffer.Count b1 = Outcome.returned 1
            ∧ BRAWcapBuffer.PushBack b1 (some p2) = (Outcome.returned false, b1)
            ∧ BRAWcapBuffer.Count (BRAWcapBuffer.PushBack b1 (some p2)).2
                = Outcome.returned 1) := by
  obtain ⟨hp, hn, hs, hl, -⟩ := BRAWcapBuffer_new_spec hnew
  refine ⟨?_, ?_, ?_⟩
  · intro calls
    have h0 : b0.packets.length ≤ b0.numPackets := by simp [hp]
    obtain ⟨hle, -, -, hlock, -⟩ := afterCalls_spec calls b0 h0
    have hcc := Count_Capacity_unlocked (afterCalls calls b0) (hlock.trans hl)
    exact ⟨_, _, hcc.1, hcc.2, hle⟩
  · intro b n p hc hcap
    obtain ⟨hlock, hcount⟩ := Count_returned hc
    have hfull : b.numPackets ≤ b.packets.length := by
      rw [← hcount, ← Capacity_returned hcap]
    have hpb := PushBack_full b p hlock hfull
    exact ⟨hpb, by rw [hpb]; exact hc⟩
  · intro h1 p1 p2 hfit
    subst h1
    have hfree : b0.packets.length < b0.numPackets := by simp [hp, hn]
    have hpb1 := PushBack_free b0 p1 hl hfree (by rw [hs]; exact hfit)
    refine ⟨_, hpb1, ?_, ?_⟩
    · have := (Count_Capacity_unlocked { b0 with packets := b0.packets ++ [b0.slotOf p1] } hl).1
      simpa [hp] using this
    · have hpb2 := PushBack_full { b0 with packets := b0.packets ++ [b0.slotOf p1] } p2 hl
        (by simp [hp, hn])
      refine ⟨hpb2, ?_⟩
      rw [hpb2]
      have := (Count_Capacity_unlocked { b0 with packets := b0.packets ++ [b0.slotOf p1] } hl).1
      simpa [hp] using this

/-- Witness for `C1_count_le_capacity`: a buffer of one slot of 64 bytes. -/
theorem C1_count_le_capacity_witness :
    BRAWcapBuffer.BRAWcapBuffer 0 64 1
        = Outcome.returned
            { address := 0, maxPacketPayloadSize := 64, numPackets := 1, packets := [],
              lock := LockState.Unlocked }
      ∧ BRAWcapBuffer.PushBack
            { address := 0, maxPacketPayloadSize := 64, numPackets := 1, packets := [],
              lock := LockState.Unlocked }
            (some { maxPayloadSize := 64, payload := [1, 2, 3] })
          = (Outcome.returned true,
              { address := 0, maxPacketPayloadSize := 64, numPackets := 1,
                packets := [{ maxPayloadSize := 64, payload := [1, 2, 3] }],
                lock := LockState.Unlocked })
      ∧ ∃ n c : Nat,
          BRAWcapBuffer.Count
              (afterCalls
                [BufferCall.PushBack (some { maxPayloadSize := 64, payload := [1, 2, 3] }),
                 BufferCall.PushBack (some { maxPayloadSize := 64, payload := [4] })]
                { address := 0, maxPacketPayloadSize := 64, numPackets := 1, packets := [],
                  lock := LockState.Unlocked }) = Outcome.returned n
            ∧ BRAWcapBuffer.Capacity
                (afterCalls
                  [BufferCall.PushBack (some { maxPayloadSize := 64, payload := [1, 2, 3] }),
                   BufferCall.PushBack (some { maxPayloadSize := 64, payload := [4] })]
                  { address := 0, maxPacketPayloadSize := 64, numPackets := 1, packets := [],
                    lock := LockState.Unlocked }) = Outcome.returned c
            ∧ n ≤ c :=
  ⟨by decide, by decide,
    (C1_count_le_capacity 0 64 1
      { address := 0, maxPacketPayloadSize := 64, numPackets := 1, packets := [],
        lock := LockState.Unlocked } (by decide)).1
      [BufferCall.PushBack (some { maxPayloadSize := 64, payload := [1, 2, 3] }),
       BufferCall.PushBack (some { maxPayloadSize := 64, payload := [4] })]⟩


/-- C2. `Insert` never returns `true`. On a two-slot buffer that holds one packet
the native insertion at index 0 succeeds and stores the packet in front,
`PushBack` and `PushFront` of the same packet return `true`, and `Insert`
returns `false`. -/
theorem C2_Insert_never_true :
    (∀ (b : brawcap_buffer_t) (packet : Option brawcap_packet_t) (index : Nat),
        (BRAWcapBuffer.Insert b packet index).1 ≠ Outcome.returned true)
      ∧ brawcap_buffer_add_at_index
            { address := 0, maxPacketPayloadSize := 64, numPackets := 2,
              packets := [{ maxPayloadSize := 64, payload := [9] }],
              lock := LockState.Unlocked }
            (some { maxPayloadSize := 64, payload := [1, 2, 3] }) 0
          = (BRAWCAP_STATUS_SUCCESS,
              { address := 0, maxPacketPayloadSize := 64, numPackets := 2,
                packets := [{ maxPayloadSize := 64, payload := [1, 2, 3] },
                            { maxPayloadSize := 64, payload := [9] }],
                lock := LockState.Unlocked })
      ∧ BRAWcapBuffer.Insert
            { address := 0, maxPacketPayloadSize := 64, numPackets := 2,
              packets := [{ maxPayloadSize := 64, payload := [9] }],
              lock := LockState.Unlocked }
            (some { maxPayloadSize := 64, payload := [1, 2, 3] }) 0
          = (Outcome.returned false,
              { address := 0, maxPacketPayloadSize := 64, numPackets := 2,
                packets := [{ maxPayloadSize := 64, payload := [1, 2, 3] },
                            { maxPayloadSize := 64, payload := [9] }],
                lock := LockState.Unlocked })
      ∧ (BRAWcapBuffer.PushBack
            { address := 0, maxPacketPayloadSize := 64, numPackets := 2,
              packets := [{ maxPayloadSize := 64, payload := [9] }],
              lock := LockState.Unlocked }
            (some { maxPayloadSize := 64, payload := [1, 2, 3] })).1 = Outcome.returned true
      ∧ (BRAWcapBuffer.PushFront
            { address := 0, maxPacketPayloadSize := 64, numPackets := 2,
              packets := [{ maxPayloadSize := 64, payload := [9] }],
              lock := LockState.Unlocked }
            (some { maxPayloadSize := 64, payload := [1, 2, 3] })).1 = Outcome.returned true := by
  refine ⟨?_, by decide, by decide, by decide, by decide⟩
  intro b packet index
  simp only [BRAWcapBuffer.Insert]
  split_ifs <;> simp

/-! ## Receive and transmit pipelines -/

/-- The receive dispatch loop with a registered callback, over a list that holds
the wrapper of `pBuffer`: exactly one invocation. -/
theorem ReceiveLoop_mem (pReceive : BRAWcapReceive) (status : brawcap_status_t) (pBuffer : Ptr)
    (cb : Ptr) (hcb : pReceive.m_callback = some cb) (l : List BRAWcapBuffer)
    (hmem : { m_pBuffer := pBuffer } ∈ l) :
    BRAWcapReceive.ReceiveBufferCompleteInternal.loop pReceive status pBuffer l
      = [Event.callback
          { callback := some cb, buffer := { m_pBuffer := pBuffer }, status := status,
            pUser := pReceive.m_pUser }] := by
  induction l with
  | nil => simp at hmem
  | cons x rest ih =>
    by_cases hx : x.m_pBuffer = pBuffer
    · cases x
      simp only at hx
      subst hx
      simp [BRAWcapReceive.ReceiveBufferCompleteInternal.loop, hcb]
    · have hrest : { m_pBuffer := pBuffer } ∈ rest := by
        rcases List.mem_cons.mp hmem with h | h
        · exact absurd (by rw [← h]) hx
        · exact h
      simp [BRAWcapReceive.ReceiveBufferCompleteInternal.loop, hcb, hx, ih hrest]

/-- The receive dispatch loop over a list that does not hold the wrapper of
`pBuffer`: no invocation. -/
theorem ReceiveLoop_not_mem (pReceive : BRAWcapReceive) (status : brawcap_status_t)
    (pBuffer : Ptr) (l : List BRAWcapBuffer) (hmem : { m_pBuffer := pBuffer } ∉ l) :
    BRAWcapReceive.ReceiveBufferCompleteInternal.loop pReceive status pBuffer l = [] := by
  induction l with
  | nil => rfl
  | cons x rest ih =>
    have hx : x.m_pBuffer ≠ pBuffer := by
      intro h
      apply hmem
      cases x
      simp only at h
      subst h
      exact List.mem_cons_self _ _
    have hrest : { m_pBuffer := pBuffer } ∉ rest := fun h => hmem (List.mem_cons_of_mem _ h)
    simp [BRAWcapReceive.ReceiveBufferCompleteInternal.loop, hx, ih hrest]

/-- The receive dispatch loop without a registered callback: no invocation. -/
theorem ReceiveLoop_no_callback (pReceive : BRAWcapReceive) (status : brawcap_status_t)
    (pBuffer : Ptr) (l : List BRAWcapBuffer) (hcb : pReceive.m_callback = none) :
    BRAWcapReceive.ReceiveBufferCompleteInternal.loop pReceive status pBuffer l = [] := by
  cases l <;> simp [BRAWcapReceive.ReceiveBufferCompleteInternal.loop, hcb]

/-- C3. Receive completion dispatch. For a completion event `(pBuffer, status)`
delivered to `ReceiveBufferCompleteInternal`: while a callback is registered
and `pBuffer` is wrapped by one of the pipeline's buffers, the user callback is
invoked exactly once, with the wrapper of `pBuffer`, the unchanged status and
`m_pUser`; when no callback is registered or `pBuffer` is none of the
pipeline's buffers it is not invoked; and after a `ReceiveStart(callback,
pUser)` that returned, the registered callback and `m_pUser` are the ones
given to `ReceiveStart`. -/
theorem C3_receive_dispatch (pReceive : BRAWcapReceive) (status : brawcap_status_t)
    (pBuffer : Ptr) :
    (∀ cb : Ptr, pReceive.m_callback = some cb →
        { m_pBuffer := pBuffer } ∈ pReceive.m_buffers →
        callbacks (pReceive.ReceiveBufferCompleteInternal status pBuffer)
          = [{ callback := some cb, buffer := { m_pBuffer := pBuffer }, status := status,
               pUser := pReceive.m_pUser }])
      ∧ (pReceive.m_callback = none ∨ { m_pBuffer := pBuffer } ∉ pReceive.m_buffers →
          callbacks (pReceive.ReceiveBufferCompleteInternal status pBuffer) = [])
      ∧ (∀ (n : Native) (cb : Ptr) (pUser : Option Ptr),
          (pReceive.ReceiveStart n (some cb) pUser).outcome = Outcome.returned () →
          { m_pBuffer := pBuffer } ∈ pReceive.m_buffers →
          callbacks
              ((pReceive.ReceiveStart n (some cb) pUser).self.ReceiveBufferCompleteInternal
                status pBuffer)
            = [{ callback := some cb, buffer := { m_pBuffer := pBuffer }, status := status,
                 pUser := pUser }]) := by
  refine ⟨?_, ?_, ?_⟩
  · intro cb hcb hmem
    simp [BRAWcapReceive.ReceiveBufferCompleteInternal,
      ReceiveLoop_mem pReceive status pBuffer cb hcb _ hmem, callbacks]
  · rintro (hcb | hmem)
    · simp [BRAWcapReceive.ReceiveBufferCompleteInternal,
        ReceiveLoop_no_callback pReceive status pBuffer _ hcb, callbacks]
    · simp [BRAWcapReceive.ReceiveBufferCompleteInternal,
        ReceiveLoop_not_mem pReceive status pBuffer _ hmem, callbacks]
  · intro n cb pUser _ hmem
    have hself : (pReceive.ReceiveStart n (some cb) pUser).self
        = { pReceive with m_callback := some cb, m_pUser := pUser } := by
      simp only [BRAWcapReceive.ReceiveStart]
      split_ifs <;> simp_all
    rw [hself]
    simp [BRAWcapReceive.ReceiveBufferCompleteInternal,
      ReceiveLoop_mem { pReceive with m_callback := some cb, m_pUser := pUser } status pBuffer cb
        rfl _ hmem, callbacks]

/-- Witness for `C3_receive_dispatch`: a pipeline with two buffers, started with
callback 100 and user context 200, receives the completion of its second
buffer. -/
theorem C3_receive_dispatch_witness :
    (BRAWcapReceive.ReceiveStart
        { m_buffers := [{ m_pBuffer := 10 }, { m_pBuffer := 11 }], m_callback := none,
          m_pUser := none }
        { handle := { rxStarted := false, rxBuffers := [10, 11], txStarted := false,
                      txQueue := [] },
          buffers := [] }
        (some 100) (some 200)).outcome = Outcome.returned ()
      ∧ callbacks
          ((BRAWcapReceive.ReceiveStart
              { m_buffers := [{ m_pBuffer := 10 }, { m_pBuffer := 11 }], m_callback := none,
                m_pUser := none }
              { handle := { rxStarted := false, rxBuffers := [10, 11], txStarted := false,
                            txQueue := [] },
                buffers := [] }
              (some 100) (some 200)).self.ReceiveBufferCompleteInternal 0 11)
        = [{ callback := some 100, buffer := { m_pBuffer := 11 }, status := 0,
             pUser := some 200 }] :=
  ⟨by decide,
    (C3_receive_dispatch
      { m_buffers := [{ m_pBuffer := 10 }, { m_pBuffer := 11 }], m_callback := none,
        m_pUser := none } 0 11).2.2
      { handle := { rxStarted := false, rxBuffers := [10, 11], txStarted := false,
                    txQueue := [] },
        buffers := [] }
      100 (some 200) (by decide) (by decide)⟩

/-- C4. `ReceiveStart` on a started pipeline. A `ReceiveStart` that directly
follows a `ReceiveStart` finds the reception started: `brawcap_rx_start`
answers `WARNING_PENDING` and the call stops at `assert(false)`. The sibling
`TransmitStart` in the same situation returns `false`. On a fresh pipeline the
first `ReceiveStart` returns and the second stops at the assertion. -/
theorem C4_ReceiveStart_pending_asserts :
    (∀ (self : BRAWcapReceive) (n : Native) (cb1 cb2 : Ptr) (pUser1 pUser2 : Option Ptr),
        (brawcap_rx_start (self.ReceiveStart n (some cb1) pUser1).native (some 1)).1
            = BRAWCAP_STATUS_WARNING_PENDING
          ∧ ((self.ReceiveStart n (some cb1) pUser1).self.ReceiveStart
                (self.ReceiveStart n (some cb1) pUser1).native (some cb2) pUser2).outcome
              = Outcome.assertFailed)
      ∧ (∀ (self : BRAWcapTransmit) (n : Native) (cb1 cb2 : Ptr) (pUser1 pUser2 : Option Ptr),
          ((self.TransmitStart n (some cb1) pUser1).self.TransmitStart
                (self.TransmitStart n (some cb1) pUser1).native (some cb2) pUser2).outcome
              = Outcome.returned false)
      ∧ (BRAWcapReceive.ReceiveStart
            { m_buffers := [], m_callback := none, m_pUser := none }
            { handle := { rxStarted := false, rxBuffers := [], txStarted := false,
                          txQueue := [] },
              buffers := [] }
            (some 100) none).outcome = Outcome.returned ()
      ∧ (BRAWcapReceive.ReceiveStart
            { m_buffers := [], m_callback := some 100, m_pUser := none }
            { handle := { rxStarted := true, rxBuffers := [], txStarted := false,
                          txQueue := [] },
              buffers := [] }
            (some 100) none).outcome = Outcome.assertFailed := by
  refine ⟨?_, ?_, by decide, by decide⟩
  · intro self n cb1 cb2 pUser1 pUser2
    have hstarted : (self.ReceiveStart n (some cb1) pUser1).native.handle.rxStarted = true := by
      by_cases h : n.handle.rxStarted <;>
        simp [BRAWcapReceive.ReceiveStart, brawcap_rx_start, h, BRAWCAP_SUCCESS,
          BRAWCAP_STATUS_WARNING_PENDING, BRAWCAP_STATUS_SUCCESS]
    constructor
    · simp [brawcap_rx_start, hstarted]
    · generalize (self.ReceiveStart n (some cb1) pUser1).native = n1 at hstarted
      generalize (self.ReceiveStart n (some cb1) pUser1).self = self1
      simp [BRAWcapReceive.ReceiveStart, brawcap_rx_start, hstarted, BRAWCAP_SUCCESS,
        BRAWCAP_STATUS_WARNING_PENDING]
  · intro self n cb1 cb2 pUser1 pUser2
    have hstarted : (self.TransmitStart n (some cb1) pUser1).native.handle.txStarted = true := by
      by_cases h : n.handle.txStarted <;>
        simp [BRAWcapTransmit.TransmitStart, brawcap_tx_start, h, BRAWCAP_ERROR,
          BRAWCAP_STATUS_WARNING_PENDING, BRAWCAP_STATUS_SUCCESS]
    generalize (self.TransmitStart n (some cb1) pUser1).native = n1 at hstarted
    generalize (self.TransmitStart n (some cb1) pUser1).self = self1
    simp [BRAWcapTransmit.TransmitStart, brawcap_tx_start, hstarted, BRAWCAP_ERROR,
      BRAWCAP_SUCCESS, BRAWCAP_INFO, BRAWCAP_STATUS_WARNING_PENDING]

/-- C5. `ReceiveStop` when reception is not running. A `ReceiveStop` that directly
follows a `ReceiveStop` finds no reception running: `brawcap_rx_stop` answers
`INFO_NOT_RUNNING` and the call stops at `assert(false)`. The sibling
`TransmitStop` in the same situation returns `true`. On a started pipeline the
first `ReceiveStop` returns and the second stops at the assertion. -/
theorem C5_ReceiveStop_not_running_asserts :
    (∀ (self : BRAWcapReceive) (n : Native),
        (brawcap_rx_stop (self.ReceiveStop n).native).1 = BRAWCAP_STATUS_INFO_NOT_RUNNING
          ∧ ((self.ReceiveStop n).self.ReceiveStop (self.ReceiveStop n).native).outcome
              = Outcome.assertFailed)
      ∧ (∀ (self : BRAWcapTransmit) (n : Native),
          ((self.TransmitStop n).self.TransmitStop (self.TransmitStop n).native).outcome
              = Outcome.returned true)
      ∧ (BRAWcapReceive.ReceiveStop
            { m_buffers := [], m_callback := some 100, m_pUser := none }
            { handle := { rxStarted := true, rxBuffers := [], txStarted := false,
                          txQueue := [] },
              buffers := [] }).outcome = Outcome.returned ()
      ∧ (BRAWcapReceive.ReceiveStop
            { m_buffers := [], m_callback := none, m_pUser := none }
            { handle := { rxStarted := false, rxBuffers := [], txStarted := false,
                          txQueue := [] },
              buffers := [] }).outcome = Outcome.assertFailed := by
  refine ⟨?_, ?_, by decide, by decide⟩
  · intro self n
    have hstopped : (self.ReceiveStop n).native.handle.rxStarted = false := by
      by_cases h : n.handle.rxStarted <;>
        simp [BRAWcapReceive.ReceiveStop, brawcap_rx_stop, h, BRAWCAP_SUCCESS,
          BRAWCAP_STATUS_INFO_NOT_RUNNING, BRAWCAP_STATUS_SUCCESS]
    constructor
    · simp [brawcap_rx_stop, hstopped]
    · generalize (self.ReceiveStop n).native = n1 at hstopped
      generalize (self.ReceiveStop n).self = self1
      simp [BRAWcapReceive.ReceiveStop, brawcap_rx_stop, hstopped, BRAWCAP_SUCCESS,
        BRAWCAP_STATUS_INFO_NOT_RUNNING]
  · intro self n
    have hstopped : (self.TransmitStop n).native.handle.txStarted = false := by
      by_cases h : n.handle.txStarted <;>
        simp [BRAWcapTransmit.TransmitStop, brawcap_tx_stop, h, BRAWCAP_ERROR,
          BRAWCAP_STATUS_INFO_NOT_RUNNING, BRAWCAP_STATUS_SUCCESS]
    generalize (self.TransmitStop n).native = n1 at hstopped
    generalize (self.TransmitStop n).self = self1
    simp [BRAWcapTransmit.TransmitStop, brawcap_tx_stop, hstopped, BRAWCAP_ERROR,
      BRAWCAP_SUCCESS, BRAWCAP_INFO, BRAWCAP_STATUS_INFO_NOT_RUNNING]

/-- Locking the buffer at `p` does not change what is found at another address. -/
theorem buffer?_setLock_ne (n : Native) (p q : Ptr) (l : LockState) (h : brawcap_handle_t)
    (hpq : p ≠ q) :
    Native.buffer? { n.setLock p l with handle := h } q = n.buffer? q := by
  simp only [Native.buffer?, Native.setLock]
  induction n.buffers with
  | nil => rfl
  | cons x rest ih =>
    simp only [List.map_cons, List.find?_cons]
    have hfa : (if (x.address == p) = true then { x with lock := l } else x).address
        = x.address := by
      split_ifs <;> rfl
    rw [hfa]
    cases hq : x.address == q with
    | true =>
      have hxp : ¬ (x.address == p) = true := by
        simp only [beq_iff_eq] at hq ⊢
        rw [hq]
        exact fun h => hpq h.symm
      simp [hxp]
    | false => exact ih

/-- `TransmitBufferSend` of a buffer that exists and is unlocked: the library
accepts it, the call returns `true`, the buffer is appended to the pending
list and, locked for transmit, to the transmit queue. -/
theorem TransmitBufferSend_unlocked (self : BRAWcapTransmit) (n : Native)
    (buffer : BRAWcapBuffer) (synchronized : Bool) (x : brawcap_buffer_t)
    (hx : n.buffer? buffer.m_pBuffer = some x) (hl : x.lock = LockState.Unlocked) :
    self.TransmitBufferSend n buffer synchronized
      = { outcome := Outcome.returned true,
          events := [Event.lock, Event.buffersWrite, Event.unlock],
          self := { self with m_buffers := self.m_buffers ++ [buffer] },
          native :=
            { n.setLock buffer.m_pBuffer LockState.LockedForTransmit with
              handle := { n.handle with txQueue := n.handle.txQueue ++ [buffer.m_pBuffer] } } } := by
  simp [BRAWcapTransmit.TransmitBufferSend, brawcap_tx_buffer_send, hx, brawcap_buffer_t.locked,
    hl, BRAWCAP_ERROR, BRAWCAP_SUCCESS, BRAWCAP_STATUS_SUCCESS]

/-- C6. Transmit ordering. Three distinct unlocked buffers `a`, `b`, `c` are passed
to `TransmitBufferSend` in that order on a pipeline with a registered callback
and an empty pending list, and their completions are delivered to
`TransmitBufferCompleteInternal` in submission order. Then every send returns
`true`, the pending list after the sends is `[a, b, c]`, the user callback is
invoked exactly three times, for `a`, then `b`, then `c`, each with its own
status and the registered user context, and the pending list is empty
afterwards. -/
theorem C6_transmit_order (t : BRAWcapTransmit) (n : Native) (a b c : BRAWcapBuffer)
    (xa xb xc : brawcap_buffer_t) (syncA syncB syncC : Bool) (sA sB sC : brawcap_status_t)
    (cb : Ptr) (hcb : t.m_callback = some cb) (hempty : t.m_buffers = [])
    (hab : a.m_pBuffer ≠ b.m_pBuffer) (hac : a.m_pBuffer ≠ c.m_pBuffer)
    (hbc : b.m_pBuffer ≠ c.m_pBuffer)
    (ha : n.buffer? a.m_pBuffer = some xa) (hla : xa.lock = LockState.Unlocked)
    (hb : n.buffer? b.m_pBuffer = some xb) (hlb : xb.lock = LockState.Unlocked)
    (hc : n.buffer? c.m_pBuffer = some xc) (hlc : xc.lock = LockState.Unlocked) :
    (t.TransmitBufferSend n a syncA).outcome = Outcome.returned true
      ∧ ((t.TransmitBufferSend n a syncA).self.TransmitBufferSend
            (t.TransmitBufferSend n a syncA).native b syncB).outcome = Outcome.returned true
      ∧ (((t.TransmitBufferSend n a syncA).self.TransmitBufferSend
            (t.TransmitBufferSend n a syncA).native b syncB).self.TransmitBufferSend
            ((t.TransmitBufferSend n a syncA).self.TransmitBufferSend
              (t.TransmitBufferSend n a syncA).native b syncB).native c syncC).outcome
          = Outcome.returned true
      ∧ (((t.TransmitBufferSend n a syncA).self.TransmitBufferSend
            (t.TransmitBufferSend n a syncA).native b syncB).self.TransmitBufferSend
            ((t.TransmitBufferSend n a syncA).self.TransmitBufferSend
              (t.TransmitBufferSend n a syncA).native b syncB).native c syncC).self
          = { t with m_buffers := [a, b, c] }
      ∧ callbacks
          ((BRAWcapTransmit.TransmitBufferCompleteInternal
              { t with m_buffers := [a, b, c] } sA a.m_pBuffer).1
            ++ (BRAWcapTransmit.TransmitBufferCompleteInternal
                  (BRAWcapTransmit.TransmitBufferCompleteInternal
                    { t with m_buffers := [a, b, c] } sA a.m_pBuffer).2 sB b.m_pBuffer).1
            ++ (BRAWcapTransmit.TransmitBufferCompleteInternal
                  (BRAWcapTransmit.TransmitBufferCompleteInternal
                    (BRAWcapTransmit.TransmitBufferCompleteInternal
                      { t with m_buffers := [a, b, c] } sA a.m_pBuffer).2 sB b.m_pBuffer).2
                  sC c.m_pBuffer).1)
          = [{ callback := some cb, buffer := a, status := sA, pUser := t.m_pUser },
             { callback := some cb, buffer := b, status := sB, pUser := t.m_pUser },
             { callback := some cb, buffer := c, status := sC, pUser := t.m_pUser }]
      ∧ (BRAWcapTransmit.TransmitBufferCompleteInternal
            (BRAWcapTransmit.TransmitBufferCompleteInternal
              (BRAWcapTransmit.TransmitBufferCompleteInternal
                { t with m_buffers := [a, b, c] } sA a.m_pBuffer).2 sB b.m_pBuffer).2
            sC c.m_pBuffer).2.m_buffers = [] := by
  have h1 := TransmitBufferSend_unlocked t n a syncA xa ha hla
  have hb1 : Native.buffer?
      { n.setLock a.m_pBuffer LockState.LockedForTransmit with
        handle := { n.handle with txQueue := n.handle.txQueue ++ [a.m_pBuffer] } } b.m_pBuffer
        = some xb := by
    rw [buffer?_setLock_ne n _ _ _ _ hab]; exact hb
  have hc1 : Native.buffer?
      { n.setLock a.m_pBuffer LockState.LockedForTransmit with
        handle := { n.handle with txQueue := n.handle.txQueue ++ [a.m_pBuffer] } } c.m_pBuffer
        = some xc := by
    rw [buffer?_setLock_ne n _ _ _ _ hac]; exact hc
  rw [h1]
  have h2 := TransmitBufferSend_unlocked { t with m_buffers := t.m_buffers ++ [a] } _ b syncB xb
    hb1 hlb
  rw [h2]
  have hc2 := (buffer?_setLock_ne _ b.m_pBuffer c.m_pBuffer LockState.LockedForTransmit
    { rxStarted := n.handle.rxStarted, rxBuffers := n.handle.rxBuffers,
      txStarted := n.handle.txStarted,
      txQueue := n.handle.txQueue ++ [a.m_pBuffer] ++ [b.m_pBuffer] } hbc).trans hc1
  have h3 := TransmitBufferSend_unlocked
    { t with m_buffers := t.m_buffers ++ [a] ++ [b] } _ c syncC xc hc2 hlc
  rw [h3]
  have hba : ¬ b.m_pBuffer = a.m_pBuffer := fun h => hab h.symm
  have hca : ¬ c.m_pBuffer = a.m_pBuffer := fun h => hac h.symm
  have hcb2 : ¬ c.m_pBuffer = b.m_pBuffer := fun h => hbc h.symm
  refine ⟨rfl, rfl, rfl, by simp [hempty], ?_, ?_⟩
  · simp [BRAWcapTransmit.TransmitBufferCompleteInternal,
      BRAWcapTransmit.TransmitBufferCompleteInternal.loop, callbacks, hcb, hab, hac, hbc, hba,
      hca, hcb2]
  · simp [BRAWcapTransmit.TransmitBufferCompleteInternal,
      BRAWcapTransmit.TransmitBufferCompleteInternal.loop, hab, hac, hbc, hba, hca, hcb2]

/-- Witness for `C6_transmit_order`: buffers at addresses 1, 2 and 3, callback 100,
user context 200. -/
theorem C6_transmit_order_witness :
    (((BRAWcapTransmit.TransmitBufferSend
          { m_buffers := [], m_callback := some 100, m_pUser := some 200 }
          { handle := { rxStarted := false, rxBuffers := [], txStarted := true, txQueue := [] },
            buffers :=
              [{ address := 1, maxPacketPayloadSize := 64, numPackets := 2, packets := [],
                 lock := LockState.Unlocked },
               { address := 2, maxPacketPayloadSize := 64, numPackets := 2, packets := [],
                 lock := LockState.Unlocked },
               { address := 3, maxPacketPayloadSize := 64, numPackets := 2, packets := [],
                 lock := LockState.Unlocked }] }
          { m_pBuffer := 1 } false).outcome = Outcome.returned true)
      ∧ callbacks
          ((BRAWcapTransmit.TransmitBufferCompleteInternal
              { m_buffers := [{ m_pBuffer := 1 }, { m_pBuffer := 2 }, { m_pBuffer := 3 }],
                m_callback := some 100, m_pUser := some 200 } 0 1).1
            ++ (BRAWcapTransmit.TransmitBufferCompleteInternal
                  (BRAWcapTransmit.TransmitBufferCompleteInternal
                    { m_buffers := [{ m_pBuffer := 1 }, { m_pBuffer := 2 }, { m_pBuffer := 3 }],
                      m_callback := some 100, m_pUser := some 200 } 0 1).2 0 2).1
            ++ (BRAWcapTransmit.TransmitBufferCompleteInternal
                  (BRAWcapTransmit.TransmitBufferCompleteInternal
                    (BRAWcapTransmit.TransmitBufferCompleteInternal
                      { m_buffers := [{ m_pBuffer := 1 }, { m_pBuffer := 2 }, { m_pBuffer := 3 }],
                        m_callback := some 100, m_pUser := some 200 } 0 1).2 0 2).2
                  5 3).1)
          = [{ callback := some 100, buffer := { m_pBuffer := 1 }, status := 0,
               pUser := some 200 },
             { callback := some 100, buffer := { m_pBuffer := 2 }, status := 0,
               pUser := some 200 },
             { callback := some 100, buffer := { m_pBuffer := 3 }, status := 5,
               pUser := some 200 }]) :=
  have h := C6_transmit_order
    { m_buffers := [], m_callback := some 100, m_pUser := some 200 }
    { handle := { rxStarted := false, rxBuffers := [], txStarted := true, txQueue := [] },
      buffers :=
        [{ address := 1, maxPacketPayloadSize := 64, numPackets := 2, packets := [],
           lock := LockState.Unlocked },
         { address := 2, maxPacketPayloadSize := 64, numPackets := 2, packets := [],
           lock := LockState.Unlocked },
         { address := 3, maxPacketPayloadSize := 64, numPackets := 2, packets := [],
           lock := LockState.Unlocked }] }
    { m_pBuffer := 1 } { m_pBuffer := 2 } { m_pBuffer := 3 }
    { address := 1, maxPacketPayloadSize := 64, numPackets := 2, packets := [],
      lock := LockState.Unlocked }
    { address := 2, maxPacketPayloadSize := 64, numPackets := 2, packets := [],
      lock := LockState.Unlocked }
    { address := 3, maxPacketPayloadSize := 64, numPackets := 2, packets := [],
      lock := LockState.Unlocked }
    false false false 0 0 5 100 rfl rfl (by decide) (by decide) (by decide)
    (by decide) rfl (by decide) rfl (by decide) rfl
  ⟨h.1, h.2.2.2.2.1⟩

/-- C7. A failing `TransmitBufferSend` has already changed the pending list. Every
call appends the buffer to `m_buffers` before the library is asked, whatever
the library answers. For a buffer that is attached for receive the library
answers `IN_USE` and leaves the native buffers untouched, the call stops at
the assertion, and the pending list, empty before, now holds the buffer. -/
theorem C7_failed_send_keeps_entry :
    (∀ (self : BRAWcapTransmit) (n : Native) (buffer : BRAWcapBuffer) (synchronized : Bool),
        (self.TransmitBufferSend n buffer synchronized).self.m_buffers
          = self.m_buffers ++ [buffer])
      ∧ brawcap_tx_buffer_send
            { handle := { rxStarted := true, rxBuffers := [7], txStarted := true,
                          txQueue := [] },
              buffers := [{ address := 7, maxPacketPayloadSize := 64, numPackets := 2,
                            packets := [{ maxPayloadSize := 64, payload := [1] }],
                            lock := LockState.LockedForReceive }] }
            7 false
          = (BRAWCAP_STATUS_ERROR_IN_USE,
              { handle := { rxStarted := true, rxBuffers := [7], txStarted := true,
                            txQueue := [] },
                buffers := [{ address := 7, maxPacketPayloadSize := 64, numPackets := 2,
                              packets := [{ maxPayloadSize := 64, payload := [1] }],
                              lock := LockState.LockedForReceive }] })
      ∧ BRAWcapTransmit.TransmitBufferSend
            { m_buffers := [], m_callback := some 100, m_pUser := none }
            { handle := { rxStarted := true, rxBuffers := [7], txStarted := true,
                          txQueue := [] },
              buffers := [{ address := 7, maxPacketPayloadSize := 64, numPackets := 2,
                            packets := [{ maxPayloadSize := 64, payload := [1] }],
                            lock := LockState.LockedForReceive }] }
            { m_pBuffer := 7 } false
          = { outcome := Outcome.assertFailed,
              events := [Event.lock, Event.buffersWrite, Event.unlock],
              self := { m_buffers := [{ m_pBuffer := 7 }], m_callback := some 100,
                        m_pUser := none },
              native :=
                { handle := { rxStarted := true, rxBuffers := [7], txStarted := true,
                              txQueue := [] },
                  buffers := [{ address := 7, maxPacketPayloadSize := 64, numPackets := 2,
                                packets := [{ maxPayloadSize := 64, payload := [1] }],
                                lock := LockState.LockedForReceive }] } } := by
  refine ⟨?_, by decide, by decide⟩
  intro self n buffer synchronized
  simp only [BRAWcapTransmit.TransmitBufferSend]
  split_ifs <;> rfl

/-! ## Iterators and element access -/

/-- An iterator created on an unlocked buffer at a position within
`[0, occupied count]`. -/
theorem Iterator_new_unlocked (b : brawcap_buffer_t) (i : Nat)
    (hl : b.lock = LockState.Unlocked) (hi : i ≤ b.packets.length) :
    BRAWcapBuffer.Iterator.Iterator b i
      = Outcome.returned
          { m_buffer := some b.address,
            m_iterator := some { buffer := b.address, count := b.packets.length, position := i },
            m_packet :=
              { m_pTimestamp := if i < b.packets.length then some (PacketPtr.slot b.address i) else none,
                m_created := false, m_pCreatedPacket := none, m_pBuffer := some b.address,
                m_pBufferedPacket :=
                  if i < b.packets.length then some (PacketPtr.slot b.address i) else none } } := by
  have h1 : ¬ b.packets.length < i := by omega
  by_cases h2 : i < b.packets.length <;>
    simp [BRAWcapBuffer.Iterator.Iterator, BRAWcapPacket.BRAWcapPacket_buffered,
      BRAWcapPacket.MapTo, brawcap_buffer_iterator_create, brawcap_buffer_iterator_eval,
      brawcap_packet_timestamp_get, brawcap_buffer_t.locked, hl, h1, h2, BRAWCAP_ERROR,
      BRAWCAP_STATUS_SUCCESS]

/-- `End()` on an unlocked buffer: the iterator at the sentinel, resolving no
slot. -/
theorem End_unlocked (b : brawcap_buffer_t) (hl : b.lock = LockState.Unlocked) :
    BRAWcapBuffer.End b
      = Outcome.returned
          { m_buffer := some b.address,
            m_iterator :=
              some { buffer := b.address, count := b.packets.length,
                     position := b.packets.length },
            m_packet :=
              { m_pTimestamp := none, m_created := false, m_pCreatedPacket := none,
                m_pBuffer := some b.address, m_pBufferedPacket := none } } := by
  simp [BRAWcapBuffer.End, brawcap_buffer_count, Iterator_new_unlocked b _ hl (le_refl _),
    BRAWcapBuffer.Iterator.operatorInc, brawcap_buffer_iterator_next,
    brawcap_buffer_iterator_eval, BRAWcapPacket.MapTo, brawcap_buffer_t.locked, hl,
    BRAWCAP_ERROR, BRAWCAP_SUCCESS, BRAWCAP_STATUS_SUCCESS]

/-- `At(i)` on an unlocked buffer, for the index of a buffered packet. -/
theorem At_unlocked (b : brawcap_buffer_t) (i : Nat) (hl : b.lock = LockState.Unlocked)
    (hi : i < b.packets.length) :
    BRAWcapBuffer.At b i
      = Outcome.returned
          { m_pTimestamp := some (PacketPtr.slot b.address i), m_created := false,
            m_pCreatedPacket := none, m_pBuffer := some b.address,
            m_pBufferedPacket := some (PacketPtr.slot b.address i) } := by
  have h1 : ¬ b.packets.length ≤ i := by omega
  simp [BRAWcapBuffer.At, brawcap_buffer_at_index, BRAWcapPacket.BRAWcapPacket_buffered,
    BRAWcapPacket.MapTo, brawcap_packet_timestamp_get, brawcap_buffer_t.locked, hl, h1,
    BRAWCAP_ERROR, BRAWCAP_SUCCESS, BRAWCAP_STATUS_SUCCESS]

/-- `End()` returns only on an unlocked buffer. -/
theorem End_returned {b : brawcap_buffer_t} {e : BRAWcapBuffer.Iterator}
    (h : BRAWcapBuffer.End b = Outcome.returned e) : b.lock = LockState.Unlocked := by
  by_contra hl
  have hlocked : b.locked = true := by simpa [brawcap_buffer_t.locked] using hl
  simp [BRAWcapBuffer.End, brawcap_buffer_count, hlocked, BRAWCAP_SUCCESS,
    BRAWCAP_STATUS_ERROR_IN_USE] at h

/-- C8. Iterator boundary. For every unlocked buffer with `N` occupied slots:
`Iterator(buffer, N)` is constructed (no assertion fires) and compares equal to
`End()`; for `N ≥ 1`, `++` applied to the iterator at index `N-1` yields an
iterator equal to `End()`, and `--` applied to `End()` yields an iterator whose
packet is the one `At(N-1)` returns, the slot at index `N-1`. -/
theorem C8_iterator_boundary (b : brawcap_buffer_t) (hl : b.lock = LockState.Unlocked) :
    (∃ itN e : BRAWcapBuffer.Iterator,
        BRAWcapBuffer.Iterator.Iterator b b.packets.length = Outcome.returned itN
          ∧ BRAWcapBuffer.End b = Outcome.returned e
          ∧ itN.operatorEq e = true ∧ itN.operatorNe e = false)
      ∧ (1 ≤ b.packets.length →
          ∃ it next e : BRAWcapBuffer.Iterator,
            BRAWcapBuffer.Iterator.Iterator b (b.packets.length - 1) = Outcome.returned it
              ∧ it.operatorInc = Outcome.returned next
              ∧ BRAWcapBuffer.End b = Outcome.returned e
              ∧ next.operatorEq e = true)
      ∧ (1 ≤ b.packets.length →
          ∃ (e prev : BRAWcapBuffer.Iterator) (p : BRAWcapPacket),
            BRAWcapBuffer.End b = Outcome.returned e
              ∧ e.operatorDec = Outcome.returned prev
              ∧ BRAWcapBuffer.At b (b.packets.length - 1) = Outcome.returned p
              ∧ prev.operatorDeref = p
              ∧ p.m_pBufferedPacket
                  = some (PacketPtr.slot b.address (b.packets.length - 1))) := by
  refine ⟨?_, ?_, ?_⟩
  · refine ⟨_, _, Iterator_new_unlocked b _ hl (le_refl _), End_unlocked b hl, ?_, ?_⟩ <;>
      simp [BRAWcapBuffer.Iterator.operatorEq, BRAWcapBuffer.Iterator.operatorNe]
  · intro hN
    have hlt : b.packets.length - 1 < b.packets.length := by omega
    have hsucc : b.packets.length - 1 + 1 = b.packets.length := by omega
    have hnew := Iterator_new_unlocked b (b.packets.length - 1) hl (by omega)
    have hend := End_unlocked b hl
    have hinc :
        (({ m_buffer := some b.address,
            m_iterator :=
              some { buffer := b.address, count := b.packets.length,
                     position := b.packets.length - 1 },
            m_packet :=
              { m_pTimestamp :=
                  if b.packets.length - 1 < b.packets.length then
                    some (PacketPtr.slot b.address (b.packets.length - 1)) else none,
                m_created := false, m_pCreatedPacket := none, m_pBuffer := some b.address,
                m_pBufferedPacket :=
                  if b.packets.length - 1 < b.packets.length then
                    some (PacketPtr.slot b.address (b.packets.length - 1)) else none } } :
              BRAWcapBuffer.Iterator).operatorInc)
          = Outcome.returned
              { m_buffer := some b.address,
                m_iterator :=
                  some { buffer := b.address, count := b.packets.length,
                         position := b.packets.length },
                m_packet :=
                  { m_pTimestamp := none, m_created := false, m_pCreatedPacket := none,
                    m_pBuffer := some b.address, m_pBufferedPacket := none } } := by
      simp [BRAWcapBuffer.Iterator.operatorInc, brawcap_buffer_iterator_next,
        brawcap_buffer_iterator_eval, BRAWcapPacket.MapTo, hlt, hsucc, BRAWCAP_ERROR,
        BRAWCAP_STATUS_SUCCESS]
    exact ⟨_, _, _, hnew, hinc, hend, by simp [BRAWcapBuffer.Iterator.operatorEq]⟩
  · intro hN
    have hlt : b.packets.length - 1 < b.packets.length := by omega
    have hne : b.packets.length ≠ 0 := by omega
    have hend := End_unlocked b hl
    have hat := At_unlocked b (b.packets.length - 1) hl hlt
    have hdec :
        (({ m_buffer := some b.address,
            m_iterator :=
              some { buffer := b.address, count := b.packets.length,
                     position := b.packets.length },
            m_packet :=
              { m_pTimestamp := none, m_created := false, m_pCreatedPacket := none,
                m_pBuffer := some b.address, m_pBufferedPacket := none } } :
              BRAWcapBuffer.Iterator).operatorDec)
          = Outcome.returned
              { m_buffer := some b.address,
                m_iterator :=
                  some { buffer := b.address, count := b.packets.length,
                         position := b.packets.length - 1 },
                m_packet :=
                  { m_pTimestamp := some (PacketPtr.slot b.address (b.packets.length - 1)),
                    m_created := false, m_pCreatedPacket := none, m_pBuffer := some b.address,
                    m_pBufferedPacket :=
                      some (PacketPtr.slot b.address (b.packets.length - 1)) } } := by
      simp [BRAWcapBuffer.Iterator.operatorDec, brawcap_buffer_iterator_prev,
        brawcap_buffer_iterator_eval, BRAWcapPacket.MapTo, brawcap_packet_timestamp_get, hlt,
        hne, BRAWCAP_ERROR, BRAWCAP_STATUS_SUCCESS]
    exact ⟨_, _, _, hend, hdec, hat, rfl, rfl⟩

/-- Witness for `C8_iterator_boundary`: an unlocked buffer with two occupied
slots. -/
theorem C8_iterator_boundary_witness :
    (∃ itN e : BRAWcapBuffer.Iterator,
        BRAWcapBuffer.Iterator.Iterator
            { address := 5, maxPacketPayloadSize := 64, numPackets := 3,
              packets := [{ maxPayloadSize := 64, payload := [1] },
                          { maxPayloadSize := 64, payload := [2, 3] }],
              lock := LockState.Unlocked } 2 = Outcome.returned itN
          ∧ BRAWcapBuffer.End
              { address := 5, maxPacketPayloadSize := 64, numPackets := 3,
                packets := [{ maxPayloadSize := 64, payload := [1] },
                            { maxPayloadSize := 64, payload := [2, 3] }],
                lock := LockState.Unlocked } = Outcome.returned e
          ∧ itN.operatorEq e = true ∧ itN.operatorNe e = false) :=
  (C8_iterator_boundary
    { address := 5, maxPacketPayloadSize := 64, numPackets := 3,
      packets := [{ maxPayloadSize := 64, payload := [1] },
                  { maxPayloadSize := 64, payload := [2, 3] }],
      lock := LockState.Unlocked } rfl).1

/-- C9. `Iterator::operator==` holds exactly when both iterators hold the same
resolved slot address and `operator!=` is its negation; `==` is reflexive,
symmetric and transitive; and any two iterators returned by `End()` compare
equal, in particular two obtained for the same buffer. -/
theorem C9_iterator_equality :
    (∀ a b : BRAWcapBuffer.Iterator,
        a.operatorEq b = true ↔ a.m_packet.m_pBufferedPacket = b.m_packet.m_pBufferedPacket)
      ∧ (∀ a b : BRAWcapBuffer.Iterator, a.operatorNe b = !a.operatorEq b)
      ∧ (∀ a : BRAWcapBuffer.Iterator, a.operatorEq a = true)
      ∧ (∀ a b : BRAWcapBuffer.Iterator, a.operatorEq b = true → b.operatorEq a = true)
      ∧ (∀ a b c : BRAWcapBuffer.Iterator,
          a.operatorEq b = true → b.operatorEq c = true → a.operatorEq c = true)
      ∧ (∀ (buffer1 buffer2 : brawcap_buffer_t) (e1 e2 : BRAWcapBuffer.Iterator),
          BRAWcapBuffer.End buffer1 = Outcome.returned e1 →
          BRAWcapBuffer.End buffer2 = Outcome.returned e2 →
          e1.operatorEq e2 = true ∧ e1.operatorNe e2 = false) := by
  refine ⟨?_, ?_, ?_, ?_, ?_, ?_⟩
  · intro a b
    simp [BRAWcapBuffer.Iterator.operatorEq]
  · intro a b
    simp [BRAWcapBuffer.Iterator.operatorEq, BRAWcapBuffer.Iterator.operatorNe, bne]
  · intro a
    simp [BRAWcapBuffer.Iterator.operatorEq]
  · intro a b h
    simp only [BRAWcapBuffer.Iterator.operatorEq, beq_iff_eq] at h ⊢
    exact h.symm
  · intro a b c h1 h2
    simp only [BRAWcapBuffer.Iterator.operatorEq, beq_iff_eq] at h1 h2 ⊢
    exact h1.trans h2
  · intro buffer1 buffer2 e1 e2 h1 h2
    rw [End_unlocked buffer1 (End_returned h1)] at h1
    rw [End_unlocked buffer2 (End_returned h2)] at h2
    cases h1
    cases h2
    simp [BRAWcapBuffer.Iterator.operatorEq, BRAWcapBuffer.Iterator.operatorNe]

/-- Witness for `C9_iterator_equality`: two `End()` iterators of one buffer with an
occupied slot. -/
theorem C9_iterator_equality_witness :
    BRAWcapBuffer.End
        { address := 5, maxPacketPayloadSize := 64, numPackets := 3,
          packets := [{ maxPayloadSize := 64, payload := [1] }], lock := LockState.Unlocked }
      = Outcome.returned
          { m_buffer := some 5, m_iterator := some { buffer := 5, count := 1, position := 1 },
            m_packet :=
              { m_pTimestamp := none, m_created := false, m_pCreatedPacket := none,
                m_pBuffer := some 5, m_pBufferedPacket := none } }
      ∧ BRAWcapBuffer.Iterator.operatorEq
          { m_buffer := some 5, m_iterator := some { buffer := 5, count := 1, position := 1 },
            m_packet :=
              { m_pTimestamp := none, m_created := false, m_pCreatedPacket := none,
                m_pBuffer := some 5, m_pBufferedPacket := none } }
          { m_buffer := some 5, m_iterator := some { buffer := 5, count := 1, position := 1 },
            m_packet :=
              { m_pTimestamp := none, m_created := false, m_pCreatedPacket := none,
                m_pBuffer := some 5, m_pBufferedPacket := none } } = true :=
  ⟨by decide,
    (C9_iterator_equality.2.2.2.2.2
      { address := 5, maxPacketPayloadSize := 64, numPackets := 3,
        packets := [{ maxPayloadSize := 64, payload := [1] }], lock := LockState.Unlocked }
      { address := 5, maxPacketPayloadSize := 64, numPackets := 3,
        packets := [{ maxPayloadSize := 64, payload := [1] }], lock := LockState.Unlocked }
      _ _ (by decide) (by decide)).1⟩

/-- C10. `Back()` never returns: it asks for the packet at index `Count()`, one
past the last buffered packet. On a full one-slot buffer `At(0)` and `Front()`
return the slot at index 0, the last buffered packet, and `Back()` stops at the
assertion. `Front()` is `At(0)`. -/
theorem C10_Back_off_by_one :
    (∀ b : brawcap_buffer_t, BRAWcapBuffer.Back b = Outcome.assertFailed)
      ∧ (∀ b : brawcap_buffer_t, BRAWcapBuffer.Front b = BRAWcapBuffer.At b 0)
      ∧ BRAWcapBuffer.Count
            { address := 5, maxPacketPayloadSize := 64, numPackets := 1,
              packets := [{ maxPayloadSize := 64, payload := [1] }],
              lock := LockState.Unlocked } = Outcome.returned 1
      ∧ BRAWcapBuffer.At
            { address := 5, maxPacketPayloadSize := 64, numPackets := 1,
              packets := [{ maxPayloadSize := 64, payload := [1] }],
              lock := LockState.Unlocked } 0
          = Outcome.returned
              { m_pTimestamp := some (PacketPtr.slot 5 0), m_created := false,
                m_pCreatedPacket := none, m_pBuffer := some 5,
                m_pBufferedPacket := some (PacketPtr.slot 5 0) }
      ∧ BRAWcapBuffer.Back
            { address := 5, maxPacketPayloadSize := 64, numPackets := 1,
              packets := [{ maxPayloadSize := 64, payload := [1] }],
              lock := LockState.Unlocked } = Outcome.assertFailed := by
  refine ⟨?_, fun _ => rfl, by decide, by decide, by decide⟩
  intro b
  by_cases hl : b.locked
  · simp [BRAWcapBuffer.Back, BRAWcapBuffer.Count, brawcap_buffer_count, hl, BRAWCAP_SUCCESS,
      BRAWCAP_STATUS_ERROR_IN_USE]
  · simp [BRAWcapBuffer.Back, BRAWcapBuffer.Count, BRAWcapBuffer.At, brawcap_buffer_count,
      brawcap_buffer_at_index, hl, BRAWCAP_SUCCESS, BRAWCAP_STATUS_SUCCESS,
      BRAWCAP_STATUS_ERROR_INVALID_PARAM]

/-! ## Packet payload -/

/-- C11. `PayloadCopy` into a destination whose capacity is passed in `length`, for
a packet holding `L` payload bytes: it returns `true` exactly when `L` is at
most the capacity; then the first `L` destination bytes are the payload and
the remaining destination bytes are unchanged; otherwise it returns `false`,
the destination is unchanged and `length` is set to `L`. -/
theorem C11_PayloadCopy (p : brawcap_packet_t) (dest : List Nat) :
    ((BRAWcapPacket.PayloadCopy (some p) dest dest.length).1 = Outcome.returned true
        ↔ p.payload.length ≤ dest.length)
      ∧ (p.payload.length ≤ dest.length →
          (BRAWcapPacket.PayloadCopy (some p) dest dest.length).1 = Outcome.returned true
            ∧ (BRAWcapPacket.PayloadCopy (some p) dest dest.length).2.1.take p.payload.length
                = p.payload
            ∧ (BRAWcapPacket.PayloadCopy (some p) dest dest.length).2.1.drop p.payload.length
                = dest.drop p.payload.length
            ∧ (BRAWcapPacket.PayloadCopy (some p) dest dest.length).2.1.length = dest.length)
      ∧ (dest.length < p.payload.length →
          BRAWcapPacket.PayloadCopy (some p) dest dest.length
            = (Outcome.returned false, dest, p.payload.length)) := by
  have hget : brawcap_packet_payload_get (some p) none 0
      = (BRAWCAP_STATUS_SUCCESS, some p.payload, p.payload.length) := rfl
  have hcopy : BRAWcapPacket.PayloadCopy (some p) dest dest.length
      = if p.payload.length > dest.length then (Outcome.returned false, dest, p.payload.length)
        else (Outcome.returned true, memcpy dest p.payload p.payload.length, dest.length) := by
    simp [BRAWcapPacket.PayloadCopy, hget, BRAWCAP_ERROR, BRAWCAP_STATUS_SUCCESS]
  rw [hcopy]
  refine ⟨?_, ?_, ?_⟩
  · by_cases h : p.payload.length > dest.length
    · simp [h]
    · simp [h]; omega
  · intro h
    have h' : ¬ p.payload.length > dest.length := by omega
    simp only [h', if_false, memcpy, List.take_length]
    refine ⟨trivial, ?_, ?_, ?_⟩
    · simp
    · simp
    · simp; omega
  · intro h
    simp [h]

/-- Witness for `C11_PayloadCopy`: a payload of two bytes copied into five. -/
theorem C11_PayloadCopy_witness :
    BRAWcapPacket.PayloadCopy (some { maxPayloadSize := 64, payload := [7, 8] })
        [1, 2, 3, 4, 5] 5 = (Outcome.returned true, [7, 8, 3, 4, 5], 5)
      ∧ (BRAWcapPacket.PayloadCopy (some { maxPayloadSize := 64, payload := [7, 8] })
          [1, 2, 3, 4, 5] 5).2.1.drop 2 = [3, 4, 5] :=
  ⟨by decide,
    ((C11_PayloadCopy { maxPayloadSize := 64, payload := [7, 8] } [1, 2, 3, 4, 5]).2.1
      (by decide)).2.2.1⟩

/-- C12. Payload round trip. For a packet whose `MaxPayloadSize()` is `m` and a
byte string `p`: when `len(p) ≤ m`, `PayloadSet(p)` returns `true` and a
following `PayloadRef` yields exactly the bytes of `p` with length `len(p)`;
when `len(p) > m`, the library answers `PARAM_OUT_OF_RANGE`, `PayloadSet`
returns `false`, and the packet, hence its payload and `PayloadLength()`, is
the one from before the call. -/
theorem C12_PayloadSet_roundtrip (pkt : brawcap_packet_t) (p : List Nat) (m : Nat)
    (hm : BRAWcapPacket.MaxPayloadSize (some pkt) = Outcome.returned m) :
    (p.length ≤ m →
        (BRAWcapPacket.PayloadSet (some pkt) (some p) p.length).1 = Outcome.returned true
          ∧ ∀ (oldPayload : Option (List Nat)) (oldLength : Nat),
              BRAWcapPacket.PayloadRef
                  (BRAWcapPacket.PayloadSet (some pkt) (some p) p.length).2 oldPayload oldLength
                = (Outcome.returned (), some p, p.length))
      ∧ (m < p.length →
          (brawcap_packet_payload_set (some pkt) (some p) p.length).1
              = BRAWCAP_STATUS_ERROR_PARAM_OUT_OF_RANGE
            ∧ BRAWcapPacket.PayloadSet (some pkt) (some p) p.length
                = (Outcome.returned false, some pkt)
            ∧ BRAWcapPacket.PayloadLength
                  (BRAWcapPacket.PayloadSet (some pkt) (some p) p.length).2
                = BRAWcapPacket.PayloadLength (some pkt)) := by
  have hmax : m = pkt.maxPayloadSize := by
    simp [BRAWcapPacket.MaxPayloadSize, brawcap_packet_payload_max_size_get, BRAWCAP_ERROR,
      BRAWCAP_STATUS_SUCCESS] at hm
    exact hm.symm
  subst hmax
  refine ⟨?_, ?_⟩
  · intro h
    have h' : ¬ pkt.maxPayloadSize < p.length := by omega
    have hset : BRAWcapPacket.PayloadSet (some pkt) (some p) p.length
        = (Outcome.returned true, some { pkt with payload := p }) := by
      simp [BRAWcapPacket.PayloadSet, brawcap_packet_payload_set, h', BRAWCAP_SUCCESS,
        BRAWCAP_STATUS_SUCCESS]
    rw [hset]
    refine ⟨rfl, ?_⟩
    intro oldPayload oldLength
    simp [BRAWcapPacket.PayloadRef, brawcap_packet_payload_get, BRAWCAP_ERROR,
      BRAWCAP_STATUS_SUCCESS]
  · intro h
    have hset : BRAWcapPacket.PayloadSet (some pkt) (some p) p.length
        = (Outcome.returned false, some pkt) := by
      simp [BRAWcapPacket.PayloadSet, brawcap_packet_payload_set, h, BRAWCAP_SUCCESS,
        BRAWCAP_STATUS_ERROR_PARAM_OUT_OF_RANGE]
    refine ⟨?_, hset, ?_⟩
    · simp [brawcap_packet_payload_set, h]
    · rw [hset]

/-- Witness for `C12_PayloadSet_roundtrip`: three bytes set on a packet of capacity
64 that held one byte. -/
theorem C12_PayloadSet_roundtrip_witness :
    BRAWcapPacket.MaxPayloadSize (some { maxPayloadSize := 64, payload := [9] })
        = Outcome.returned 64
      ∧ (BRAWcapPacket.PayloadSet (some { maxPayloadSize := 64, payload := [9] })
          (some [1, 2, 3]) 3).1 = Outcome.returned true
      ∧ BRAWcapPacket.PayloadRef
          (BRAWcapPacket.PayloadSet (some { maxPayloadSize := 64, payload := [9] })
            (some [1, 2, 3]) 3).2 none 0
        = (Outcome.returned (), some [1, 2, 3], 3) :=
  ⟨by decide,
    ((C12_PayloadSet_roundtrip { maxPayloadSize := 64, payload := [9] } [1, 2, 3] 64
      (by decide)).1 (by decide)).1,
    ((C12_PayloadSet_roundtrip { maxPayloadSize := 64, payload := [9] } [1, 2, 3] 64
      (by decide)).1 (by decide)).2 none 0⟩

/-! ## Timestamps -/

/-- C14. Timestamp round trip. For every packet timestamp and every `(s, f)`:
setting it at nanosecond granularity with `f < 1,000,000,000` returns, and
reading it back at nanosecond granularity returns exactly `(s, f)`; likewise
at microsecond granularity for `f < 1,000,000` and at millisecond granularity
for `f < 1,000`. Setting a fraction of one whole second or more is answered
with `PARAM_OUT_OF_RANGE` by the library, the setter stops at its assertion,
and the timestamp is unchanged. -/
theorem C14_timestamp_roundtrip (t : brawcap_timestamp_t) (s f : Nat) (old : Nat × Nat) :
    (f < 1000000000 →
        (BRAWcapPacket.TimestampNsSet (some t) s f).1 = Outcome.returned ()
          ∧ BRAWcapPacket.TimestampNs (BRAWcapPacket.TimestampNsSet (some t) s f).2 old
              = (Outcome.returned (), s, f))
      ∧ (f < 1000000 →
          (BRAWcapPacket.TimestampUsSet (some t) s f).1 = Outcome.returned ()
            ∧ BRAWcapPacket.TimestampUs (BRAWcapPacket.TimestampUsSet (some t) s f).2 old
                = (Outcome.returned (), s, f))
      ∧ (f < 1000 →
          (BRAWcapPacket.TimestampMsSet (some t) s f).1 = Outcome.returned ()
            ∧ BRAWcapPacket.TimestampMs (BRAWcapPacket.TimestampMsSet (some t) s f).2 old
                = (Outcome.returned (), s, f))
      ∧ (1000000000 ≤ f →
          (brawcap_timestamp_value_ns_set (some t) s f).1
              = BRAWCAP_STATUS_ERROR_PARAM_OUT_OF_RANGE
            ∧ BRAWcapPacket.TimestampNsSet (some t) s f = (Outcome.assertFailed, some t))
      ∧ (1000000 ≤ f →
          (brawcap_timestamp_value_us_set (some t) s f).1
              = BRAWCAP_STATUS_ERROR_PARAM_OUT_OF_RANGE
            ∧ BRAWcapPacket.TimestampUsSet (some t) s f = (Outcome.assertFailed, some t))
      ∧ (1000 ≤ f →
          (brawcap_timestamp_value_ms_set (some t) s f).1
              = BRAWCAP_STATUS_ERROR_PARAM_OUT_OF_RANGE
            ∧ BRAWcapPacket.TimestampMsSet (some t) s f = (Outcome.assertFailed, some t)) := by
  refine ⟨?_, ?_, ?_, ?_, ?_, ?_⟩
  · intro h
    have h' : ¬ BRAWCAP_TIMESTAMP_NS_PER_SEC ≤ f := by
      simp only [BRAWCAP_TIMESTAMP_NS_PER_SEC]; omega
    simp [BRAWcapPacket.TimestampNsSet, BRAWcapPacket.TimestampNs,
      BRAWcapTimestamp.NanosecondsSet, BRAWcapTimestamp.Nanoseconds, BRAWcapTimestamp.NsSet,
      BRAWcapTimestamp.Ns, brawcap_timestamp_value_ns_set, brawcap_timestamp_value_ns_get, h',
      BRAWCAP_ERROR, BRAWCAP_STATUS_SUCCESS]
  · intro h
    have h' : ¬ BRAWCAP_TIMESTAMP_US_PER_SEC ≤ f := by
      simp only [BRAWCAP_TIMESTAMP_US_PER_SEC]; omega
    simp [BRAWcapPacket.TimestampUsSet, BRAWcapPacket.TimestampUs,
      BRAWcapTimestamp.MicrosecondsSet, BRAWcapTimestamp.Microseconds, BRAWcapTimestamp.UsSet,
      BRAWcapTimestamp.Us, brawcap_timestamp_value_us_set, brawcap_timestamp_value_us_get, h',
      BRAWCAP_ERROR, BRAWCAP_STATUS_SUCCESS, BRAWCAP_TIMESTAMP_NS_PER_US]
  · intro h
    have h' : ¬ BRAWCAP_TIMESTAMP_MS_PER_SEC ≤ f := by
      simp only [BRAWCAP_TIMESTAMP_MS_PER_SEC]; omega
    simp [BRAWcapPacket.TimestampMsSet, BRAWcapPacket.TimestampMs,
      BRAWcapTimestamp.MillisecondsSet, BRAWcapTimestamp.Milliseconds, BRAWcapTimestamp.MsSet,
      BRAWcapTimestamp.Ms, brawcap_timestamp_value_ms_set, brawcap_timestamp_value_ms_get, h',
      BRAWCAP_ERROR, BRAWCAP_STATUS_SUCCESS, BRAWCAP_TIMESTAMP_NS_PER_MS]
  · intro h
    have h' : BRAWCAP_TIMESTAMP_NS_PER_SEC ≤ f := by
      simp only [BRAWCAP_TIMESTAMP_NS_PER_SEC]; omega
    simp [BRAWcapPacket.TimestampNsSet, BRAWcapTimestamp.NanosecondsSet, BRAWcapTimestamp.NsSet,
      brawcap_timestamp_value_ns_set, h', BRAWCAP_ERROR,
      BRAWCAP_STATUS_ERROR_PARAM_OUT_OF_RANGE]
  · intro h
    have h' : BRAWCAP_TIMESTAMP_US_PER_SEC ≤ f := by
      simp only [BRAWCAP_TIMESTAMP_US_PER_SEC]; omega
    simp [BRAWcapPacket.TimestampUsSet, BRAWcapTimestamp.MicrosecondsSet, BRAWcapTimestamp.UsSet,
      brawcap_timestamp_value_us_set, h', BRAWCAP_ERROR,
      BRAWCAP_STATUS_ERROR_PARAM_OUT_OF_RANGE]
  · intro h
    have h' : BRAWCAP_TIMESTAMP_MS_PER_SEC ≤ f := by
      simp only [BRAWCAP_TIMESTAMP_MS_PER_SEC]; omega
    simp [BRAWcapPacket.TimestampMsSet, BRAWcapTimestamp.MillisecondsSet, BRAWcapTimestamp.MsSet,
      brawcap_timestamp_value_ms_set, h', BRAWCAP_ERROR,
      BRAWCAP_STATUS_ERROR_PARAM_OUT_OF_RANGE]

/-- Witness for `C14_timestamp_roundtrip`: 999 microseconds set on a timestamp that
held 5 s and 7 ns. -/
theorem C14_timestamp_roundtrip_witness :
    (BRAWcapPacket.TimestampUsSet
        (some { mode := 1, resolution_ns := 100, seconds := 5, nanoseconds := 7 }) 12 999).1
        = Outcome.returned ()
      ∧ BRAWcapPacket.TimestampUs
          (BRAWcapPacket.TimestampUsSet
            (some { mode := 1, resolution_ns := 100, seconds := 5, nanoseconds := 7 }) 12 999).2
          (0, 0)
        = (Outcome.returned (), 12, 999) :=
  (C14_timestamp_roundtrip { mode := 1, resolution_ns := 100, seconds := 5, nanoseconds := 7 }
    12 999 (0, 0)).2.1 (by decide)

/-! ## Filters -/

/-- The constructor, when it returns, yields a coherent filter. -/
theorem BRAWcapFilter_new_coherent {type : Nat} {st : FilterState}
    (h : BRAWcapFilter.BRAWcapFilter type = (Outcome.returned (), st)) : st.coherent := by
  unfold BRAWcapFilter.BRAWcapFilter brawcap_filter_create at h
  by_cases ht : type = BRAWCAP_FILTER_TYPE_BYTE_MASK
  · simp [ht, BRAWCAP_ERROR, BRAWCAP_STATUS_SUCCESS] at h
    subst h
    simp [FilterState.coherent, BRAWCAP_FILTER_BYTE_MAX_LENGTH]
  · simp [ht, BRAWCAP_ERROR, BRAWCAP_STATUS_ERROR_NOT_AVAILABLE] at h

/-- Every single-field setter keeps a coherent filter coherent, whether it returns
or stops at its assertion. -/
theorem FilterCall_after_coherent (c : FilterCall) (st : FilterState) (h : st.coherent) :
    (c.after st).coherent := by
  obtain ⟨self, pf⟩ := st
  cases pf with
  | none => simp [FilterState.coherent] at h
  | some f =>
    simp only [FilterState.coherent] at h
    obtain ⟨ht, ho, hl, hm, hi, hco, hcl, hb⟩ := h
    cases c <;>
      simp only [FilterCall.after, BRAWcapFilter.CaptureByteOffsetSet,
        BRAWcapFilter.CaptureByteLengthSet, BRAWcapFilter.ByteFilterOffsetSet,
        BRAWcapFilter.ByteFilterLengthSet, BRAWcapFilter.ByteFilterByteMaskSet,
        BRAWcapFilter.ByteFilterIgnoreBitsSet, brawcap_filter_mask_set,
        brawcap_filter_bytes_to_capture_set] <;>
      split_ifs <;>
      simp_all [FilterState.coherent, BRAWCAP_ERROR, BRAWCAP_STATUS_SUCCESS,
        BRAWCAP_STATUS_ERROR_PARAM_OUT_OF_RANGE, BRAWCAP_STATUS_ERROR_INVALID_PARAM]

/-- Coherence along a sequence of setter calls. -/
theorem afterFilterCalls_coherent (calls : List FilterCall) (st : FilterState)
    (h : st.coherent) : (afterFilterCalls calls st).coherent := by
  induction calls generalizing st with
  | nil => exact h
  | cons c rest ih => exact ih (c.after st) (FilterCall_after_coherent c st h)

/-- The mask bound on a filter obtained from the constructor, after any
sequence of single-field setter calls: the remembered offset and length are
those of the native filter and `offset + length ≤ 64`; `ByteFilterOffsetSet(o)`
with `o + length > 64` and `ByteFilterLengthSet(l)` with `offset + l > 64` are
answered with `PARAM_OUT_OF_RANGE` by the library, stop at their assertion,
and leave the filter (offset, length, mask, ignore bits, remembered and
native) unchanged. -/
theorem filter_mask_bound_from_constructor (type : Nat) (st0 : FilterState)
    (hnew : BRAWcapFilter.BRAWcapFilter type = (Outcome.returned (), st0))
    (calls : List FilterCall) :
    (afterFilterCalls calls st0).self.m_byteOffset
          + (afterFilterCalls calls st0).self.m_byteLength ≤ 64
      ∧ (∃ f : brawcap_filter_t,
          (afterFilterCalls calls st0).m_pFilter = some f
            ∧ f.offset = (afterFilterCalls calls st0).self.m_byteOffset
            ∧ f.length = (afterFilterCalls calls st0).self.m_byteLength
            ∧ f.offset + f.length ≤ 64)
      ∧ (∀ o : Nat, 64 < o + (afterFilterCalls calls st0).self.m_byteLength →
          (brawcap_filter_mask_set (afterFilterCalls calls st0).m_pFilter o
              (afterFilterCalls calls st0).self.m_byteLength
              (afterFilterCalls calls st0).self.m_byteMask
              (afterFilterCalls calls st0).self.m_byteIgnore).1
              = BRAWCAP_STATUS_ERROR_PARAM_OUT_OF_RANGE
            ∧ BRAWcapFilter.ByteFilterOffsetSet (afterFilterCalls calls st0) o
                = (Outcome.assertFailed, afterFilterCalls calls st0))
      ∧ (∀ l : Nat, 64 < (afterFilterCalls calls st0).self.m_byteOffset + l →
          (brawcap_filter_mask_set (afterFilterCalls calls st0).m_pFilter
              (afterFilterCalls calls st0).self.m_byteOffset l
              (afterFilterCalls calls st0).self.m_byteMask
              (afterFilterCalls calls st0).self.m_byteIgnore).1
              = BRAWCAP_STATUS_ERROR_PARAM_OUT_OF_RANGE
            ∧ BRAWcapFilter.ByteFilterLengthSet (afterFilterCalls calls st0) l
                = (Outcome.assertFailed, afterFilterCalls calls st0)) := by
  have hco := afterFilterCalls_coherent calls st0 (BRAWcapFilter_new_coherent hnew)
  generalize afterFilterCalls calls st0 = st at hco
  obtain ⟨self, pf⟩ := st
  cases pf with
  | none => simp [FilterState.coherent] at hco
  | some f =>
    simp only [FilterState.coherent, BRAWCAP_FILTER_BYTE_MAX_LENGTH] at hco
    obtain ⟨ht, ho, hl, hm, hi, -, -, hb⟩ := hco
    refine ⟨hb, ⟨f, rfl, ho, hl, by rw [ho, hl]; exact hb⟩, ?_, ?_⟩
    · intro o hgt
      simp [BRAWcapFilter.ByteFilterOffsetSet, brawcap_filter_mask_set, ht, hgt,
        BRAWCAP_FILTER_BYTE_MAX_LENGTH, BRAWCAP_ERROR, BRAWCAP_STATUS_ERROR_PARAM_OUT_OF_RANGE]
    · intro l hgt
      simp [BRAWcapFilter.ByteFilterLengthSet, brawcap_filter_mask_set, ht, hgt,
        BRAWCAP_FILTER_BYTE_MAX_LENGTH, BRAWCAP_ERROR, BRAWCAP_STATUS_ERROR_PARAM_OUT_OF_RANGE]

/-- C13. An out-of-range `ByteFilterOffsetSet` or `ByteFilterLengthSet` on a filter
returned by `ReceiveFilter()` does not fail. The setters pass the remembered
length and offset to `brawcap_filter_mask_set`, and on the filter
`ReceiveFilter()` returns these are zero, whatever the native filter holds.
With a handle filter of mask offset 0, length 4 and mask bytes 255 (set by
`ReceiveFilterSet`): on the filter `ReceiveFilter()` returns,
`ByteFilterOffsetSet(62)`, for which `62 + 4 > 64`, is answered with `SUCCESS`,
returns, and leaves the native filter with offset 62, length 0 and a zero mask.
With a handle filter of offset 60 and length 4: `ByteFilterLengthSet(10)`, for
which `60 + 10 > 64`, returns and leaves the native filter with offset 0 and
length 10. For every handle filter of the byte-mask type and every offset up
to 64, `ByteFilterOffsetSet` on the filter `ReceiveFilter()` returns, returns,
with native length 0 and zero mask and ignore bits. On a filter from the
constructor, after `ByteFilterLengthSet(10)`, `ByteFilterOffsetSet(60)` stops
at the assertion and changes nothing. -/
theorem C13_ReceiveFilter_out_of_range_accepted :
    BRAWcapReceive.ReceiveFilterSet
          { type := 0, offset := 0, length := 0, mask := List.replicate 64 0,
            ignoreBits := List.replicate 64 0, captureOffset := 0, captureLength := 0,
            active := false, indicate := false }
          (afterFilterCalls
            [FilterCall.ByteFilterByteMaskSet (List.replicate 64 255),
             FilterCall.ByteFilterLengthSet 4]
            (BRAWcapFilter.BRAWcapFilter BRAWCAP_FILTER_TYPE_BYTE_MASK).2)
        = (Outcome.returned (),
            { type := 0, offset := 0, length := 4, mask := List.replicate 64 255,
              ignoreBits := List.replicate 64 0, captureOffset := 0, captureLength := 0,
              active := false, indicate := false })
      ∧ (brawcap_filter_mask_set
            (BRAWcapReceive.ReceiveFilter
              { type := 0, offset := 0, length := 4, mask := List.replicate 64 255,
                ignoreBits := List.replicate 64 0, captureOffset := 0, captureLength := 0,
                active := false, indicate := false }).2.m_pFilter
            62 0 (List.replicate 64 0) (List.replicate 64 0)).1 = BRAWCAP_STATUS_SUCCESS
      ∧ BRAWcapFilter.ByteFilterOffsetSet
            (BRAWcapReceive.ReceiveFilter
              { type := 0, offset := 0, length := 4, mask := List.replicate 64 255,
                ignoreBits := List.replicate 64 0, captureOffset := 0, captureLength := 0,
                active := false, indicate := false }).2
            62
          = (Outcome.returned (),
              { self :=
                  { m_type := 0, m_captureByteOffset := 0, m_captureByteLength := 0,
                    m_byteOffset := 62, m_byteLength := 0, m_byteMask := List.replicate 64 0,
                    m_byteIgnore := List.replicate 64 0 },
                m_pFilter :=
                  some { type := 0, offset := 62, length := 0, mask := List.replicate 64 0,
                         ignoreBits := List.replicate 64 0, captureOffset := 0,
                         captureLength := 0, active := false, indicate := false } })
      ∧ BRAWcapReceive.ReceiveFilterSet
            { type := 0, offset := 0, length := 0, mask := List.replicate 64 0,
              ignoreBits := List.replicate 64 0, captureOffset := 0, captureLength := 0,
              active := false, indicate := false }
            (afterFilterCalls
              [FilterCall.ByteFilterByteMaskSet (List.replicate 64 255),
               FilterCall.ByteFilterOffsetSet 60, FilterCall.ByteFilterLengthSet 4]
              (BRAWcapFilter.BRAWcapFilter BRAWCAP_FILTER_TYPE_BYTE_MASK).2)
          = (Outcome.returned (),
              { type := 0, offset := 60, length := 4, mask := List.replicate 64 255,
                ignoreBits := List.replicate 64 0, captureOffset := 0, captureLength := 0,
                active := false, indicate := false })
      ∧ BRAWcapFilter.ByteFilterLengthSet
            (BRAWcapReceive.ReceiveFilter
              { type := 0, offset := 60, length := 4, mask := List.replicate 64 255,
                ignoreBits := List.replicate 64 0, captureOffset := 0, captureLength := 0,
                active := false, indicate := false }).2
            10
          = (Outcome.returned (),
              { self :=
                  { m_type := 0, m_captureByteOffset := 0, m_captureByteLength := 0,
                    m_byteOffset := 0, m_byteLength := 10, m_byteMask := List.replicate 64 0,
                    m_byteIgnore := List.replicate 64 0 },
                m_pFilter :=
                  some { type := 0, offset := 0, length := 10, mask := List.replicate 64 0,
                         ignoreBits := List.replicate 64 0, captureOffset := 0,
                         captureLength := 0, active := false, indicate := false } })
      ∧ (∀ (rxFilter : brawcap_filter_t) (o : Nat),
          rxFilter.type = BRAWCAP_FILTER_TYPE_BYTE_MASK → o ≤ 64 →
          BRAWcapFilter.ByteFilterOffsetSet (BRAWcapReceive.ReceiveFilter rxFilter).2 o
            = (Outcome.returned (),
                { self :=
                    { m_type := BRAWCAP_FILTER_TYPE_BYTE_MASK, m_captureByteOffset := 0,
                      m_captureByteLength := 0, m_byteOffset := o, m_byteLength := 0,
                      m_byteMask := List.replicate 64 0, m_byteIgnore := List.replicate 64 0 },
                  m_pFilter :=
                    some { rxFilter with offset := o, length := 0, mask := List.replicate 64 0,
                                         ignoreBits := List.replicate 64 0 } }))
      ∧ BRAWcapFilter.ByteFilterOffsetSet
            (afterFilterCalls [FilterCall.ByteFilterLengthSet 10]
              (BRAWcapFilter.BRAWcapFilter BRAWCAP_FILTER_TYPE_BYTE_MASK).2)
            60
          = (Outcome.assertFailed,
              afterFilterCalls [FilterCall.ByteFilterLengthSet 10]
                (BRAWcapFilter.BRAWcapFilter BRAWCAP_FILTER_TYPE_BYTE_MASK).2) := by
  refine ⟨by decide, by decide, by decide, by decide, by decide, ?_, by decide⟩
  intro rxFilter o ht ho
  have hno : ¬ 64 < o := by omega
  simp [BRAWcapReceive.ReceiveFilter, BRAWcapFilter.BRAWcapFilter, brawcap_filter_create,
    brawcap_rx_filter_get, BRAWcapFilter.ByteFilterOffsetSet, brawcap_filter_mask_set, ht, hno,
    BRAWCAP_ERROR, BRAWCAP_STATUS_SUCCESS, BRAWCAP_FILTER_TYPE_BYTE_MASK,
    BRAWCAP_FILTER_BYTE_MAX_LENGTH]

/-! ## Receive buffers, stop, and release -/

/-- C15. `ReceiveBufferAdd` beyond the limit. Two `ReceiveBufferAdd` calls on an
empty pipeline attach two buffers. A third call finds the limit reached: the
library answers `WARNING_LIMIT_REACHED` and attaches nothing, the call returns
normally, and the pipeline now holds three buffers, the third unlocked and
not attached to the handle. -/
theorem C15_ReceiveBufferAdd_over_limit :
    ((BRAWcapReceive.ReceiveBufferAdd
          { m_buffers := [], m_callback := none, m_pUser := none }
          { handle := { rxStarted := false, rxBuffers := [], txStarted := false, txQueue := [] },
            buffers := [] }
          1 64 4).self.ReceiveBufferAdd
        (BRAWcapReceive.ReceiveBufferAdd
          { m_buffers := [], m_callback := none, m_pUser := none }
          { handle := { rxStarted := false, rxBuffers := [], txStarted := false, txQueue := [] },
            buffers := [] }
          1 64 4).native
        2 64 4)
      = { outcome := Outcome.returned (),
          events := [Event.lock, Event.buffersWrite, Event.unlock],
          self := { m_buffers := [{ m_pBuffer := 1 }, { m_pBuffer := 2 }], m_callback := none,
                    m_pUser := none },
          native :=
            { handle := { rxStarted := false, rxBuffers := [1, 2], txStarted := false,
                          txQueue := [] },
              buffers :=
                [{ address := 1, maxPacketPayloadSize := 64, numPackets := 4, packets := [],
                   lock := LockState.LockedForReceive },
                 { address := 2, maxPacketPayloadSize := 64, numPackets := 4, packets := [],
                   lock := LockState.LockedForReceive }] } }
      ∧ (brawcap_rx_buffer_attach
            { handle := { rxStarted := false, rxBuffers := [1, 2], txStarted := false,
                          txQueue := [] },
              buffers :=
                [{ address := 1, maxPacketPayloadSize := 64, numPackets := 4, packets := [],
                   lock := LockState.LockedForReceive },
                 { address := 2, maxPacketPayloadSize := 64, numPackets := 4, packets := [],
                   lock := LockState.LockedForReceive },
                 { address := 3, maxPacketPayloadSize := 64, numPackets := 4, packets := [],
                   lock := LockState.Unlocked }] }
            3).1 = BRAWCAP_STATUS_WARNING_LIMIT_REACHED
      ∧ BRAWcapReceive.ReceiveBufferAdd
            { m_buffers := [{ m_pBuffer := 1 }, { m_pBuffer := 2 }], m_callback := none,
              m_pUser := none }
            { handle := { rxStarted := false, rxBuffers := [1, 2], txStarted := false,
                          txQueue := [] },
              buffers :=
                [{ address := 1, maxPacketPayloadSize := 64, numPackets := 4, packets := [],
                   lock := LockState.LockedForReceive },
                 { address := 2, maxPacketPayloadSize := 64, numPackets := 4, packets := [],
                   lock := LockState.LockedForReceive }] }
            3 64 4
          = { outcome := Outcome.returned (),
              events := [Event.lock, Event.buffersWrite, Event.unlock],
              self := { m_buffers := [{ m_pBuffer := 1 }, { m_pBuffer := 2 }, { m_pBuffer := 3 }],
                        m_callback := none, m_pUser := none },
              native :=
                { handle := { rxStarted := false, rxBuffers := [1, 2], txStarted := false,
                              txQueue := [] },
                  buffers :=
                    [{ address := 1, maxPacketPayloadSize := 64, numPackets := 4, packets := [],
                       lock := LockState.LockedForReceive },
                     { address := 2, maxPacketPayloadSize := 64, numPackets := 4, packets := [],
                       lock := LockState.LockedForReceive },
                     { address := 3, maxPacketPayloadSize := 64, numPackets := 4, packets := [],
                       lock := LockState.Unlocked }] } } := by
  refine ⟨by decide, by decide, by decide⟩

/-- C17, as claimed, fails: for a buffer that is attached for receive
`brawcap_buffer_free` answers `IN_USE`, and the destructor of its last owner
returns like the destructor of an unlocked buffer; the buffer stays. -/
theorem C17_locked_release_counterexample :
    (brawcap_buffer_free
        (some { address := 7, maxPacketPayloadSize := 64, numPackets := 2, packets := [],
                lock := LockState.LockedForReceive })).1 = BRAWCAP_STATUS_ERROR_IN_USE
      ∧ BRAWcapBuffer.destructor
          { address := 7, maxPacketPayloadSize := 64, numPackets := 2, packets := [],
            lock := LockState.LockedForReceive }
        = (Outcome.returned (),
            some { address := 7, maxPacketPayloadSize := 64, numPackets := 2, packets := [],
                   lock := LockState.LockedForReceive })
      ∧ (BRAWcapBuffer.destructor
          { address := 7, maxPacketPayloadSize := 64, numPackets := 2, packets := [],
            lock := LockState.LockedForReceive }).1
        = (BRAWcapBuffer.destructor
            { address := 7, maxPacketPayloadSize := 64, numPackets := 2, packets := [],
              lock := LockState.Unlocked }).1 := by
  refine ⟨by decide, by decide, by decide⟩

/-- C17, amended. Releasing the last reference to a locked `BRAWcapBuffer` calls
`brawcap_buffer_free`, which answers `IN_USE` and leaves the buffer in place;
the status is dropped: the destructor returns normally and reports nothing. -/
theorem C17_locked_release_unreported (b : brawcap_buffer_t) (hlocked : b.locked = true) :
    (brawcap_buffer_free (some b)).1 = BRAWCAP_STATUS_ERROR_IN_USE
      ∧ BRAWcapBuffer.destructor b = (Outcome.returned (), some b) := by
  simp [BRAWcapBuffer.destructor, brawcap_buffer_free, hlocked]

/-- Witness for `C17_locked_release_unreported`: a buffer pending for transmit. -/
theorem C17_locked_release_unreported_witness :
    BRAWcapBuffer.destructor
        { address := 7, maxPacketPayloadSize := 64, numPackets := 2, packets := [],
          lock := LockState.LockedForTransmit }
      = (Outcome.returned (),
          some { address := 7, maxPacketPayloadSize := 64, numPackets := 2, packets := [],
                 lock := LockState.LockedForTransmit }) :=
  (C17_locked_release_unreported
    { address := 7, maxPacketPayloadSize := 64, numPackets := 2, packets := [],
      lock := LockState.LockedForTransmit } (by decide)).2

/-- C18. `ResolvePacket` of a buffered packet returns `m_pBufferedPacket` whatever
has become of the buffer. A packet obtained with `At(0)` from the buffer at
address 5 still resolves to slot 0 of that buffer after the buffer has been
released, where `ResolvePacketSafe` stops at its assertion. -/
theorem C18_ResolvePacket_stale :
    (∀ (pTimestamp pCreated pBuffered : Option PacketPtr) (pBuffer : Option Ptr),
        BRAWcapPacket.ResolvePacket
            { m_pTimestamp := pTimestamp, m_created := false, m_pCreatedPacket := pCreated,
              m_pBuffer := pBuffer, m_pBufferedPacket := pBuffered } = pBuffered)
      ∧ BRAWcapBuffer.At
            { address := 5, maxPacketPayloadSize := 64, numPackets := 1,
              packets := [{ maxPayloadSize := 64, payload := [1] }],
              lock := LockState.Unlocked } 0
          = Outcome.returned
              { m_pTimestamp := some (PacketPtr.slot 5 0), m_created := false,
                m_pCreatedPacket := none, m_pBuffer := some 5,
                m_pBufferedPacket := some (PacketPtr.slot 5 0) }
      ∧ BRAWcapBuffer.destructor
            { address := 5, maxPacketPayloadSize := 64, numPackets := 1,
              packets := [{ maxPayloadSize := 64, payload := [1] }],
              lock := LockState.Unlocked } = (Outcome.returned (), none)
      ∧ BRAWcapPacket.ResolvePacket
            { m_pTimestamp := some (PacketPtr.slot 5 0), m_created := false,
              m_pCreatedPacket := none, m_pBuffer := some 5,
              m_pBufferedPacket := some (PacketPtr.slot 5 0) } = some (PacketPtr.slot 5 0)
      ∧ BRAWcapPacket.ResolvePacketSafe
            { m_pTimestamp := some (PacketPtr.slot 5 0), m_created := false,
              m_pCreatedPacket := none, m_pBuffer := some 5,
              m_pBufferedPacket := some (PacketPtr.slot 5 0) } (fun _ => false) none
          = (Outcome.assertFailed, none) := by
  refine ⟨fun _ _ _ _ => rfl, by decide, by decide, by decide, by decide⟩

/-! ## Status bands and versions -/

/-- The four status macros as conditions on the integer. -/
theorem status_bands_unfold (s : Int) :
    (BRAWCAP_SUCCESS s = true ↔ s = 0) ∧ (BRAWCAP_ERROR s = true ↔ s < 0)
      ∧ (BRAWCAP_WARNING s = true ↔ (0 < s ∧ s < 2000))
      ∧ (BRAWCAP_INFO s = true ↔ (2000 ≤ s ∧ s < 4000)) := by
  simp [BRAWCAP_SUCCESS, BRAWCAP_ERROR, BRAWCAP_WARNING, BRAWCAP_INFO]

/-- C19. Status bands. On every integer status the predicates `BRAWCAP_SUCCESS`,
`BRAWCAP_ERROR`, `BRAWCAP_WARNING` and `BRAWCAP_INFO` are pairwise disjoint;
every status below 4000 satisfies one of them, hence exactly one; and every
code of `brawcap_status_t` lies in the band its name states: success 0, errors
-1..-11, warnings 1..6, infos 2000..2005. -/
theorem C19_status_bands :
    (∀ s : brawcap_status_t,
        ¬ (BRAWCAP_SUCCESS s = true ∧ BRAWCAP_ERROR s = true)
          ∧ ¬ (BRAWCAP_SUCCESS s = true ∧ BRAWCAP_WARNING s = true)
          ∧ ¬ (BRAWCAP_SUCCESS s = true ∧ BRAWCAP_INFO s = true)
          ∧ ¬ (BRAWCAP_ERROR s = true ∧ BRAWCAP_WARNING s = true)
          ∧ ¬ (BRAWCAP_ERROR s = true ∧ BRAWCAP_INFO s = true)
          ∧ ¬ (BRAWCAP_WARNING s = true ∧ BRAWCAP_INFO s = true))
      ∧ (∀ s : brawcap_status_t, s < 4000 →
          BRAWCAP_SUCCESS s = true ∨ BRAWCAP_ERROR s = true ∨ BRAWCAP_WARNING s = true
            ∨ BRAWCAP_INFO s = true)
      ∧ BRAWCAP_SUCCESS BRAWCAP_STATUS_SUCCESS = true
      ∧ (∀ s ∈ [BRAWCAP_STATUS_ERROR_FAILED, BRAWCAP_STATUS_ERROR_NOT_AVAILABLE,
            BRAWCAP_STATUS_ERROR_INVALID_POINTER, BRAWCAP_STATUS_ERROR_INVALID_PARAM,
            BRAWCAP_STATUS_ERROR_PARAM_OUT_OF_RANGE, BRAWCAP_STATUS_ERROR_NOT_FOUND,
            BRAWCAP_STATUS_ERROR_IN_USE, BRAWCAP_STATUS_ERROR_BEYOND_MTU,
            BRAWCAP_STATUS_ERROR_DRIVER_IO_FAILED, BRAWCAP_STATUS_ERROR_DRIVER_NOT_AVAILABLE,
            BRAWCAP_STATUS_ERROR_OVERRUN], BRAWCAP_ERROR s = true ∧ -11 ≤ s ∧ s ≤ -1)
      ∧ (∀ s ∈ [BRAWCAP_STATUS_WARNING_DEMO_MODE, BRAWCAP_STATUS_WARNING_PENDING,
            BRAWCAP_STATUS_WARNING_LIMIT_REACHED, BRAWCAP_STATUS_WARNING_CANCELED,
            BRAWCAP_STATUS_WARNING_NOT_ALL_PROCESSED, BRAWCAP_STATUS_WARNING_NO_UPLINK],
          BRAWCAP_WARNING s = true ∧ 1 ≤ s ∧ s ≤ 6)
      ∧ (∀ s ∈ [BRAWCAP_STATUS_INFO_NOT_RUNNING, BRAWCAP_STATUS_INFO_NOT_ATTACHED,
            BRAWCAP_STATUS_INFO_NOT_REGISTERED, BRAWCAP_STATUS_INFO_ALREADY_REGISTERED,
            BRAWCAP_STATUS_INFO_NO_DATA, BRAWCAP_STATUS_INFO_TIMEOUT],
          BRAWCAP_INFO s = true ∧ 2000 ≤ s ∧ s ≤ 2005) := by
  refine ⟨?_, ?_, by decide, by decide, by decide, by decide⟩
  · intro s
    obtain ⟨h1, h2, h3, h4⟩ := status_bands_unfold s
    rw [h1, h2, h3, h4]
    omega
  · intro s hs
    obtain ⟨h1, h2, h3, h4⟩ := status_bands_unfold s
    rw [h1, h2, h3, h4]
    have hs' : @LT.lt Int _ s 4000 := hs
    omega

/-- Witness for `C19_status_bands`: the status 3999 is an info and nothing else. -/
theorem C19_status_bands_witness :
    (BRAWCAP_SUCCESS 3999 = true ∨ BRAWCAP_ERROR 3999 = true ∨ BRAWCAP_WARNING 3999 = true
        ∨ BRAWCAP_INFO 3999 = true)
      ∧ ¬ (BRAWCAP_WARNING 3999 = true ∧ BRAWCAP_INFO 3999 = true) :=
  ⟨C19_status_bands.2.1 3999 (by decide), (C19_status_bands.1 3999).2.2.2.2.2⟩

/-- C20. Version comparison. For two versions whose fragments are `UINT16` values,
`a.complete < b.complete` holds exactly when `(major, minor, patch, build)` of
`a` is lexicographically smaller than that of `b`, and `a.complete = b.complete`
exactly when all four fragments are equal. -/
theorem C20_version_order (a b : brawcap_version_fragments_t) (ha : a.inRange)
    (hb : b.inRange) :
    (a.complete < b.complete ↔ a.lexLt b) ∧ (a.complete = b.complete ↔ a = b) := by
  obtain ⟨a0, a1, a2, a3⟩ := a
  obtain ⟨b0, b1, b2, b3⟩ := b
  simp only [brawcap_version_fragments_t.inRange] at ha hb
  obtain ⟨ha0, ha1, ha2, ha3⟩ := ha
  obtain ⟨hb0, hb1, hb2, hb3⟩ := hb
  simp only [brawcap_version_fragments_t.complete, brawcap_version_fragments_t.lexLt,
    Nat.mod_eq_of_lt ha0, Nat.mod_eq_of_lt ha1, Nat.mod_eq_of_lt ha2, Nat.mod_eq_of_lt ha3,
    Nat.mod_eq_of_lt hb0, Nat.mod_eq_of_lt hb1, Nat.mod_eq_of_lt hb2, Nat.mod_eq_of_lt hb3,
    brawcap_version_fragments_t.mk.injEq]
  norm_num
  constructor
  · constructor
    · intro h
      omega
    · intro h
      omega
  · constructor
    · intro h
      omega
    · rintro ⟨rfl, rfl, rfl, rfl⟩
      rfl

/-- Witness for `C20_version_order`: version 1.2.3.4 is older than 1.3.0.0. -/
theorem C20_version_order_witness :
    brawcap_version_fragments_t.complete { build := 4, patch := 3, minor := 2, major := 1 }
        < brawcap_version_fragments_t.complete { build := 0, patch := 0, minor := 3, major := 1 }
      ↔ brawcap_version_fragments_t.lexLt { build := 4, patch := 3, minor := 2, major := 1 }
          { build := 0, patch := 0, minor := 3, major := 1 } :=
  (C20_version_order { build := 4, patch := 3, minor := 2, major := 1 }
    { build := 0, patch := 0, minor := 3, major := 1 }
    ⟨by decide, by decide, by decide, by decide⟩
    ⟨by decide, by decide, by decide, by decide⟩).1

/-! ## Transmit completion dispatch -/

/-- The transmit dispatch loop over a list whose first wrapper of `pBuffer` stands
between `before` and `after`: that wrapper, and the list without it. -/
theorem TransmitLoop_first (pBuffer : Ptr) (before after : List BRAWcapBuffer)
    (h : { m_pBuffer := pBuffer } ∉ before) :
    BRAWcapTransmit.TransmitBufferCompleteInternal.loop pBuffer
        (before ++ { m_pBuffer := pBuffer } :: after)
      = some ({ m_pBuffer := pBuffer }, before ++ after) := by
  induction before with
  | nil => simp [BRAWcapTransmit.TransmitBufferCompleteInternal.loop]
  | cons x rest ih =>
    have hx : x.m_pBuffer ≠ pBuffer := by
      intro hx
      apply h
      cases x
      simp only at hx
      subst hx
      exact List.mem_cons_self _ _
    have hrest : { m_pBuffer := pBuffer } ∉ rest := fun hm => h (List.mem_cons_of_mem _ hm)
    simp [BRAWcapTransmit.TransmitBufferCompleteInternal.loop, hx, ih hrest]

/-- The transmit dispatch loop over a list that does not hold the wrapper of
`pBuffer` runs to the end. -/
theorem TransmitLoop_not_mem (pBuffer : Ptr) (l : List BRAWcapBuffer)
    (h : { m_pBuffer := pBuffer } ∉ l) :
    BRAWcapTransmit.TransmitBufferCompleteInternal.loop pBuffer l = none := by
  induction l with
  | nil => rfl
  | cons x rest ih =>
    have hx : x.m_pBuffer ≠ pBuffer := by
      intro hx
      apply h
      cases x
      simp only at hx
      subst hx
      exact List.mem_cons_self _ _
    have hrest : { m_pBuffer := pBuffer } ∉ rest := fun hm => h (List.mem_cons_of_mem _ hm)
    simp [BRAWcapTransmit.TransmitBufferCompleteInternal.loop, hx, ih hrest]

/-- C22. Transmit completion dispatch. For a completion event `(pBuffer, status)`
delivered to `TransmitBufferCompleteInternal`: when the pending list holds a
wrapper of `pBuffer`, with `before` the entries in front of the first one and
`after` the entries behind it, the callback is invoked exactly once, with the
wrapper of `pBuffer`, the unchanged status and `m_pUser`, and the pending list
afterwards is `before ++ after` (the first entry for `pBuffer` removed, all
other entries in their order); every list that holds a wrapper of `pBuffer`
splits in this way; when the list holds no wrapper of `pBuffer`, the callback
is not invoked and the object, with its list, is unchanged. -/
theorem C22_transmit_dispatch (pTransmit : BRAWcapTransmit) (status : brawcap_status_t)
    (pBuffer : Ptr) :
    (∀ before after : List BRAWcapBuffer,
        pTransmit.m_buffers = before ++ { m_pBuffer := pBuffer } :: after →
        { m_pBuffer := pBuffer } ∉ before →
        callbacks (pTransmit.TransmitBufferCompleteInternal status pBuffer).1
            = [{ callback := pTransmit.m_callback, buffer := { m_pBuffer := pBuffer },
                 status := status, pUser := pTransmit.m_pUser }]
          ∧ (pTransmit.TransmitBufferCompleteInternal status pBuffer).2
              = { pTransmit with m_buffers := before ++ after })
      ∧ ({ m_pBuffer := pBuffer } ∈ pTransmit.m_buffers →
          ∃ before after : List BRAWcapBuffer,
            pTransmit.m_buffers = before ++ { m_pBuffer := pBuffer } :: after
              ∧ { m_pBuffer := pBuffer } ∉ before)
      ∧ ({ m_pBuffer := pBuffer } ∉ pTransmit.m_buffers →
          callbacks (pTransmit.TransmitBufferCompleteInternal status pBuffer).1 = []
            ∧ (pTransmit.TransmitBufferCompleteInternal status pBuffer).2 = pTransmit) := by
  refine ⟨?_, ?_, ?_⟩
  · intro before after hsplit hbefore
    simp [BRAWcapTransmit.TransmitBufferCompleteInternal, hsplit,
      TransmitLoop_first pBuffer before after hbefore, callbacks]
  · intro hmem
    obtain ⟨before, after, hnot, hsplit, _⟩ := List.exists_erase_eq hmem
    exact ⟨before, after, hsplit, hnot⟩
  · intro hmem
    simp [BRAWcapTransmit.TransmitBufferCompleteInternal,
      TransmitLoop_not_mem pBuffer _ hmem, callbacks]

/-- Witness for `C22_transmit_dispatch`: the pending list holds the buffers 10, 11,
12, 11 and the completion of buffer 11 arrives with status `WARNING_CANCELED`;
the list afterwards is 10, 12, 11. -/
theorem C22_transmit_dispatch_witness :
    callbacks
        (BRAWcapTransmit.TransmitBufferCompleteInternal
          { m_buffers := [{ m_pBuffer := 10 }, { m_pBuffer := 11 }, { m_pBuffer := 12 },
                          { m_pBuffer := 11 }],
            m_callback := some 100, m_pUser := some 200 } 4 11).1
        = [{ callback := some 100, buffer := { m_pBuffer := 11 }, status := 4,
             pUser := some 200 }]
      ∧ (BRAWcapTransmit.TransmitBufferCompleteInternal
          { m_buffers := [{ m_pBuffer := 10 }, { m_pBuffer := 11 }, { m_pBuffer := 12 },
                          { m_pBuffer := 11 }],
            m_callback := some 100, m_pUser := some 200 } 4 11).2
        = { m_buffers := [{ m_pBuffer := 10 }, { m_pBuffer := 12 }, { m_pBuffer := 11 }],
            m_callback := some 100, m_pUser := some 200 } :=
  (C22_transmit_dispatch
    { m_buffers := [{ m_pBuffer := 10 }, { m_pBuffer := 11 }, { m_pBuffer := 12 },
                    { m_pBuffer := 11 }],
      m_callback := some 100, m_pUser := some 200 } 4 11).1
    [{ m_pBuffer := 10 }] [{ m_pBuffer := 12 }, { m_pBuffer := 11 }] rfl (by decide)


/-! ## Iterating over a buffer -/

/-- `Iterator(buffer, i)` on an unlocked buffer, for `i` up to the occupied
count. -/
theorem Iterator_new_iteratorAt (b : brawcap_buffer_t) (i : Nat)
    (hl : b.lock = LockState.Unlocked) (hi : i ≤ b.packets.length) :
    BRAWcapBuffer.Iterator.Iterator b i = Outcome.returned (BRAWcapBuffer.iteratorAt b i) := by
  rw [Iterator_new_unlocked b i hl hi]
  by_cases h : i < b.packets.length <;>
    simp [BRAWcapBuffer.iteratorAt, BRAWcapBuffer.packetAt, h]

/-- `End()` on an unlocked buffer is the iterator at the occupied count. -/
theorem End_iteratorAt (b : brawcap_buffer_t) (hl : b.lock = LockState.Unlocked) :
    BRAWcapBuffer.End b = Outcome.returned (BRAWcapBuffer.iteratorAt b b.packets.length) := by
  rw [End_unlocked b hl]
  simp [BRAWcapBuffer.iteratorAt]

/-- `++` on the iterator at an occupied slot moves it to the next position. -/
theorem operatorInc_iteratorAt (b : brawcap_buffer_t) (i : Nat) (hi : i < b.packets.length) :
    (BRAWcapBuffer.iteratorAt b i).operatorInc = Outcome.returned (BRAWcapBuffer.iteratorAt b (i + 1)) := by
  by_cases h : i + 1 < b.packets.length <;>
    simp [BRAWcapBuffer.iteratorAt, BRAWcapBuffer.packetAt, BRAWcapBuffer.Iterator.operatorInc,
      brawcap_buffer_iterator_next, brawcap_buffer_iterator_eval, BRAWcapPacket.MapTo,
      brawcap_packet_timestamp_get, hi, h, BRAWCAP_ERROR, BRAWCAP_STATUS_SUCCESS]

/-- The iterator at position `i` differs from `End()` exactly while `i` is an
occupied slot. -/
theorem operatorNe_iteratorAt (b : brawcap_buffer_t) (i : Nat) :
    (BRAWcapBuffer.iteratorAt b i).operatorNe (BRAWcapBuffer.iteratorAt b b.packets.length)
      = decide (i < b.packets.length) := by
  by_cases h : i < b.packets.length <;>
    simp [BRAWcapBuffer.iteratorAt, BRAWcapBuffer.packetAt, BRAWcapBuffer.Iterator.operatorNe, h]

/-- The loop from the iterator at position `i`, with `k` occupied slots still
ahead: with more than `k` units of fuel it ends after `k` further rounds, having
dereferenced the slots `i`, .., `i + k - 1` in order; with less it does not
end. -/
theorem forLoop_loop_spec (b : brawcap_buffer_t) (hl : b.lock = LockState.Unlocked) (k : Nat) :
    ∀ (i fuel : Nat) (visited : List BRAWcapPacket), i + k = b.packets.length →
      BRAWcapBuffer.forLoop.loop b fuel (BRAWcapBuffer.iteratorAt b i) visited
        = if k < fuel then
            some (Outcome.returned (visited ++ (List.range' i k).map (BRAWcapBuffer.packetAt b)))
          else none := by
  induction k with
  | zero =>
    intro i fuel visited hik
    have hi : ¬ i < b.packets.length := by omega
    cases fuel with
    | zero => simp [BRAWcapBuffer.forLoop.loop]
    | succ fuel =>
      simp [BRAWcapBuffer.forLoop.loop, End_iteratorAt b hl, operatorNe_iteratorAt, hi]
  | succ k ih =>
    intro i fuel visited hik
    have hi : i < b.packets.length := by omega
    cases fuel with
    | zero => simp [BRAWcapBuffer.forLoop.loop]
    | succ fuel =>
      have hderef : (BRAWcapBuffer.iteratorAt b i).operatorDeref = BRAWcapBuffer.packetAt b i := by
        simp [BRAWcapBuffer.Iterator.operatorDeref, BRAWcapBuffer.iteratorAt, hi]
      simp only [BRAWcapBuffer.forLoop.loop, End_iteratorAt b hl, operatorNe_iteratorAt,
        operatorInc_iteratorAt b i hi, hderef]
      rw [ih (i + 1) fuel (visited ++ [BRAWcapBuffer.packetAt b i]) (by omega)]
      simp [hi, List.range'_succ]

/-- C23. The loop `for (it = Begin(); it != End(); ++it)` over an unlocked buffer
with `N` occupied slots (`N = 0` included): given more than `N` evaluations of
its condition it ends, and it has then dereferenced exactly the `N` packets of
the slots `0, 1, .., N-1`, in that order, which are the packets `At(0)`, ..,
`At(N-1)` return; it does not end with `N` evaluations of the condition or
fewer, so it makes exactly `N` rounds. -/
theorem C23_for_loop (b : brawcap_buffer_t) (hl : b.lock = LockState.Unlocked) :
    (∀ fuel : Nat, b.packets.length < fuel →
        BRAWcapBuffer.forLoop b fuel
          = some (Outcome.returned ((List.range b.packets.length).map (BRAWcapBuffer.packetAt b))))
      ∧ (∀ fuel : Nat, fuel ≤ b.packets.length → BRAWcapBuffer.forLoop b fuel = none)
      ∧ ((List.range b.packets.length).map (BRAWcapBuffer.packetAt b)).length = b.packets.length
      ∧ (∀ i : Nat, i < b.packets.length →
          BRAWcapBuffer.At b i = Outcome.returned (BRAWcapBuffer.packetAt b i)
            ∧ (BRAWcapBuffer.packetAt b i).m_pBufferedPacket = some (PacketPtr.slot b.address i)) := by
  have hbegin : BRAWcapBuffer.Begin b = Outcome.returned (BRAWcapBuffer.iteratorAt b 0) :=
    Iterator_new_iteratorAt b 0 hl (Nat.zero_le _)
  refine ⟨?_, ?_, by simp, ?_⟩
  · intro fuel hfuel
    simp only [BRAWcapBuffer.forLoop, hbegin]
    rw [forLoop_loop_spec b hl b.packets.length 0 fuel [] (by omega)]
    simp [hfuel, List.range_eq_range']
  · intro fuel hfuel
    have h : ¬ b.packets.length < fuel := by omega
    simp only [BRAWcapBuffer.forLoop, hbegin]
    rw [forLoop_loop_spec b hl b.packets.length 0 fuel [] (by omega)]
    simp [h]
  · intro i hi
    exact ⟨by rw [At_unlocked b i hl hi]; rfl, rfl⟩

/-- Witness for `C23_for_loop`: an unlocked buffer with two occupied slots; the
loop visits slot 0 and then slot 1. -/
theorem C23_for_loop_witness :
    BRAWcapBuffer.forLoop
        { address := 5, maxPacketPayloadSize := 64, numPackets := 3,
          packets := [{ maxPayloadSize := 64, payload := [1] },
                      { maxPayloadSize := 64, payload := [2, 3] }],
          lock := LockState.Unlocked } 3
      = some (Outcome.returned
          [{ m_pTimestamp := some (PacketPtr.slot 5 0), m_created := false,
             m_pCreatedPacket := none, m_pBuffer := some 5,
             m_pBufferedPacket := some (PacketPtr.slot 5 0) },
           { m_pTimestamp := some (PacketPtr.slot 5 1), m_created := false,
             m_pCreatedPacket := none, m_pBuffer := some 5,
             m_pBufferedPacket := some (PacketPtr.slot 5 1) }]) :=
  (C23_for_loop
    { address := 5, maxPacketPayloadSize := 64, numPackets := 3,
      packets := [{ maxPayloadSize := 64, payload := [1] },
                  { maxPayloadSize := 64, payload := [2, 3] }],
      lock := LockState.Unlocked } rfl).1 3 (by decide)


/-! ## Start calls that do not start the loop -/

/-- C24. A start call that does not start the loop still replaces the registered
callback and user context. `TransmitStart` and `ReceiveStart` with a callback
store the callback and the context before they call the library, so the object
afterwards holds the new ones whatever the library answers. On a transmit
pipeline started with callback 100 and context 200, with buffer 10 pending, a
second `TransmitStart(101, 201)` gets `WARNING_PENDING` and returns `false`;
the library state is unchanged, but the completion of buffer 10 is now
dispatched to callback 101 with context 201. On a started receive pipeline a
second `ReceiveStart(101, 201)` stops at its assertion, with callback 101 and
context 201 registered. -/
theorem C24_failed_start_replaces_callback :
    (∀ (self : BRAWcapTransmit) (n : Native) (cb : Ptr) (pUser : Option Ptr),
        (self.TransmitStart n (some cb) pUser).self
          = { self with m_callback := some cb, m_pUser := pUser })
      ∧ (∀ (self : BRAWcapReceive) (n : Native) (cb : Ptr) (pUser : Option Ptr),
          (self.ReceiveStart n (some cb) pUser).self
            = { self with m_callback := some cb, m_pUser := pUser })
      ∧ BRAWcapTransmit.TransmitStart
            { m_buffers := [], m_callback := none, m_pUser := none }
            { handle := { rxStarted := false, rxBuffers := [], txStarted := false,
                          txQueue := [] },
              buffers := [{ address := 10, maxPacketPayloadSize := 64, numPackets := 2,
                            packets := [{ maxPayloadSize := 64, payload := [1] }],
                            lock := LockState.Unlocked }] }
            (some 100) (some 200)
          = { outcome := Outcome.returned true, events := [],
              self := { m_buffers := [], m_callback := some 100, m_pUser := some 200 },
              native :=
                { handle := { rxStarted := false, rxBuffers := [], txStarted := true,
                              txQueue := [] },
                  buffers := [{ address := 10, maxPacketPayloadSize := 64, numPackets := 2,
                                packets := [{ maxPayloadSize := 64, payload := [1] }],
                                lock := LockState.Unlocked }] } }
      ∧ BRAWcapTransmit.TransmitBufferSend
            { m_buffers := [], m_callback := some 100, m_pUser := some 200 }
            { handle := { rxStarted := false, rxBuffers := [], txStarted := true,
                          txQueue := [] },
              buffers := [{ address := 10, maxPacketPayloadSize := 64, numPackets := 2,
                            packets := [{ maxPayloadSize := 64, payload := [1] }],
                            lock := LockState.Unlocked }] }
            { m_pBuffer := 10 } false
          = { outcome := Outcome.returned true,
              events := [Event.lock, Event.buffersWrite, Event.unlock],
              self := { m_buffers := [{ m_pBuffer := 10 }], m_callback := some 100,
                        m_pUser := some 200 },
              native :=
                { handle := { rxStarted := false, rxBuffers := [], txStarted := true,
                              txQueue := [10] },
                  buffers := [{ address := 10, maxPacketPayloadSize := 64, numPackets := 2,
                                packets := [{ maxPayloadSize := 64, payload := [1] }],
                                lock := LockState.LockedForTransmit }] } }
      ∧ (brawcap_tx_start
            { handle := { rxStarted := false, rxBuffers := [], txStarted := true,
                          txQueue := [10] },
              buffers := [{ address := 10, maxPacketPayloadSize := 64, numPackets := 2,
                            packets := [{ maxPayloadSize := 64, payload := [1] }],
                            lock := LockState.LockedForTransmit }] }
            (some 2)).1 = BRAWCAP_STATUS_WARNING_PENDING
      ∧ BRAWcapTransmit.TransmitStart
            { m_buffers := [{ m_pBuffer := 10 }], m_callback := some 100, m_pUser := some 200 }
            { handle := { rxStarted := false, rxBuffers := [], txStarted := true,
                          txQueue := [10] },
              buffers := [{ address := 10, maxPacketPayloadSize := 64, numPackets := 2,
                            packets := [{ maxPayloadSize := 64, payload := [1] }],
                            lock := LockState.LockedForTransmit }] }
            (some 101) (some 201)
          = { outcome := Outcome.returned false, events := [],
              self := { m_buffers := [{ m_pBuffer := 10 }], m_callback := some 101,
                        m_pUser := some 201 },
              native :=
                { handle := { rxStarted := false, rxBuffers := [], txStarted := true,
                              txQueue := [10] },
                  buffers := [{ address := 10, maxPacketPayloadSize := 64, numPackets := 2,
                                packets := [{ maxPayloadSize := 64, payload := [1] }],
                                lock := LockState.LockedForTransmit }] } }
      ∧ callbacks
            (BRAWcapTransmit.TransmitBufferCompleteInternal
              { m_buffers := [{ m_pBuffer := 10 }], m_callback := some 101, m_pUser := some 201 }
              BRAWCAP_STATUS_SUCCESS 10).1
          = [{ callback := some 101, buffer := { m_pBuffer := 10 },
               status := BRAWCAP_STATUS_SUCCESS, pUser := some 201 }]
      ∧ BRAWcapReceive.ReceiveStart
            { m_buffers := [{ m_pBuffer := 10 }], m_callback := some 100, m_pUser := some 200 }
            { handle := { rxStarted := true, rxBuffers := [10], txStarted := false,
                          txQueue := [] },
              buffers := [{ address := 10, maxPacketPayloadSize := 64, numPackets := 2,
                            packets := [], lock := LockState.LockedForReceive }] }
            (some 101) (some 201)
          = { outcome := Outcome.assertFailed, events := [],
              self := { m_buffers := [{ m_pBuffer := 10 }], m_callback := some 101,
                        m_pUser := some 201 },
              native :=
                { handle := { rxStarted := true, rxBuffers := [10], txStarted := false,
                              txQueue := [] },
                  buffers := [{ address := 10, maxPacketPayloadSize := 64, numPackets := 2,
                                packets := [], lock := LockState.LockedForReceive }] } }
      ∧ callbacks
            (BRAWcapReceive.ReceiveBufferCompleteInternal
              { m_buffers := [{ m_pBuffer := 10 }], m_callback := some 101, m_pUser := some 201 }
              BRAWCAP_STATUS_SUCCESS 10)
          = [{ callback := some 101, buffer := { m_pBuffer := 10 },
               status := BRAWCAP_STATUS_SUCCESS, pUser := some 201 }] := by
  refine ⟨?_, ?_, by decide, by decide, by decide, by decide, by decide, by decide, by decide⟩
  · intro self n cb pUser
    simp only [BRAWcapTransmit.TransmitStart]
    split_ifs <;> simp_all
  · intro self n cb pUser
    simp only [BRAWcapReceive.ReceiveStart]
    split_ifs <;> simp_all

/-! ## Single packets -/

/-- C26. `ReceiveSinglePacket` never returns `false`. Whatever status
`brawcap_rx_packet` returns, the call either stops at its assertion or returns
`true`, because the returned expression `!BRAWCAP_ERROR(status)` is the
asserted one. In particular it returns `true` for `INFO_NO_DATA`,
`WARNING_PENDING` and `WARNING_DEMO_MODE`, three statuses of
`brawcap_rx_packet` other than `SUCCESS`. The sibling `TransmitSinglePacket`
returns `false` for the warnings of `brawcap_tx_packet`. -/
theorem C26_ReceiveSinglePacket_never_false :
    (∀ status : brawcap_status_t,
        BRAWcapReceive.ReceiveSinglePacket status = Outcome.assertFailed
          ∨ BRAWcapReceive.ReceiveSinglePacket status = Outcome.returned true)
      ∧ BRAWCAP_STATUS_INFO_NO_DATA ∈ brawcap_rx_packet_statuses
      ∧ BRAWCAP_SUCCESS BRAWCAP_STATUS_INFO_NO_DATA = false
      ∧ BRAWcapReceive.ReceiveSinglePacket BRAWCAP_STATUS_INFO_NO_DATA = Outcome.returned true
      ∧ BRAWCAP_STATUS_WARNING_PENDING ∈ brawcap_rx_packet_statuses
      ∧ BRAWCAP_SUCCESS BRAWCAP_STATUS_WARNING_PENDING = false
      ∧ BRAWcapReceive.ReceiveSinglePacket BRAWCAP_STATUS_WARNING_PENDING
          = Outcome.returned true
      ∧ BRAWCAP_STATUS_WARNING_DEMO_MODE ∈ brawcap_rx_packet_statuses
      ∧ BRAWCAP_SUCCESS BRAWCAP_STATUS_WARNING_DEMO_MODE = false
      ∧ BRAWcapReceive.ReceiveSinglePacket BRAWCAP_STATUS_WARNING_DEMO_MODE
          = Outcome.returned true
      ∧ BRAWcapReceive.ReceiveSinglePacket BRAWCAP_STATUS_SUCCESS = Outcome.returned true
      ∧ BRAWCAP_STATUS_WARNING_DEMO_MODE ∈ brawcap_tx_packet_statuses
      ∧ BRAWcapTransmit.TransmitSinglePacket BRAWCAP_STATUS_WARNING_DEMO_MODE
          = Outcome.returned false
      ∧ BRAWCAP_STATUS_WARNING_NOT_ALL_PROCESSED ∈ brawcap_tx_packet_statuses
      ∧ BRAWcapTransmit.TransmitSinglePacket BRAWCAP_STATUS_WARNING_NOT_ALL_PROCESSED
          = Outcome.returned false := by
  refine ⟨?_, by decide, by decide, by decide, by decide, by decide, by decide, by decide,
    by decide, by decide, by decide, by decide, by decide, by decide, by decide⟩
  intro status
  simp only [BRAWcapReceive.ReceiveSinglePacket]
  split_ifs with h
  · exact Or.inl rfl
  · exact Or.inr (by simp [h])


/-! ## Filters obtained from a handle or by copy -/

/-- C25. The remembered values of a `BRAWcapFilter` returned by `ReceiveFilter()`
are not the values of its native filter. `ReceiveFilter()` returns a filter
whose native filter holds the filter of the handle and whose remembered
values are the zeros of the constructor, whatever the handle holds. With the
handle filter set from a filter with mask bytes 255, mask length 4 and capture
length 64: on the filter `ReceiveFilter()` returns, `ByteFilterOffsetSet(2)`
returns and leaves the native filter with mask length 0 and a zero mask, and
`CaptureByteOffsetSet(1)` returns and leaves it with capture length 0. A copy
shares the native filter and keeps its own remembered values: after
`ByteFilterLengthSet(4)` on the original, `ByteFilterOffsetSet(2)` on the copy
puts the mask length back to 0. -/
theorem C25_ReceiveFilter_stale_cache :
    (∀ rxFilter : brawcap_filter_t,
        BRAWcapReceive.ReceiveFilter rxFilter
          = (Outcome.returned (),
              { self :=
                  { m_type := BRAWCAP_FILTER_TYPE_BYTE_MASK, m_captureByteOffset := 0,
                    m_captureByteLength := 0, m_byteOffset := 0, m_byteLength := 0,
                    m_byteMask := List.replicate 64 0, m_byteIgnore := List.replicate 64 0 },
                m_pFilter := some rxFilter }))
      ∧ BRAWcapReceive.ReceiveFilterSet
            { type := 0, offset := 0, length := 0, mask := List.replicate 64 0,
              ignoreBits := List.replicate 64 0, captureOffset := 0, captureLength := 0,
              active := false, indicate := false }
            (afterFilterCalls
              [FilterCall.ByteFilterByteMaskSet (List.replicate 64 255),
               FilterCall.ByteFilterLengthSet 4, FilterCall.CaptureByteLengthSet 64]
              (BRAWcapFilter.BRAWcapFilter BRAWCAP_FILTER_TYPE_BYTE_MASK).2)
          = (Outcome.returned (),
              { type := 0, offset := 0, length := 4, mask := List.replicate 64 255,
                ignoreBits := List.replicate 64 0, captureOffset := 0, captureLength := 64,
                active := false, indicate := false })
      ∧ BRAWcapFilter.ByteFilterOffsetSet
            (BRAWcapReceive.ReceiveFilter
              { type := 0, offset := 0, length := 4, mask := List.replicate 64 255,
                ignoreBits := List.replicate 64 0, captureOffset := 0, captureLength := 64,
                active := false, indicate := false }).2
            2
          = (Outcome.returned (),
              { self :=
                  { m_type := 0, m_captureByteOffset := 0, m_captureByteLength := 0,
                    m_byteOffset := 2, m_byteLength := 0, m_byteMask := List.replicate 64 0,
                    m_byteIgnore := List.replicate 64 0 },
                m_pFilter :=
                  some { type := 0, offset := 2, length := 0, mask := List.replicate 64 0,
                         ignoreBits := List.replicate 64 0, captureOffset := 0,
                         captureLength := 64, active := false, indicate := false } })
      ∧ BRAWcapFilter.CaptureByteOffsetSet
            (BRAWcapReceive.ReceiveFilter
              { type := 0, offset := 0, length := 4, mask := List.replicate 64 255,
                ignoreBits := List.replicate 64 0, captureOffset := 0, captureLength := 64,
                active := false, indicate := false }).2
            1
          = (Outcome.returned (),
              { self :=
                  { m_type := 0, m_captureByteOffset := 1, m_captureByteLength := 0,
                    m_byteOffset := 0, m_byteLength := 0, m_byteMask := List.replicate 64 0,
                    m_byteIgnore := List.replicate 64 0 },
                m_pFilter :=
                  some { type := 0, offset := 0, length := 4, mask := List.replicate 64 255,
                         ignoreBits := List.replicate 64 0, captureOffset := 1,
                         captureLength := 0, active := false, indicate := false } })
      ∧ ((BRAWcapFilter.ByteFilterLengthSet
            (BRAWcapFilter.BRAWcapFilter BRAWCAP_FILTER_TYPE_BYTE_MASK).2 4).2.m_pFilter.map
          (fun f => f.length)) = some 4
      ∧ BRAWcapFilter.ByteFilterOffsetSet
            (BRAWcapFilter.copy (BRAWcapFilter.BRAWcapFilter BRAWCAP_FILTER_TYPE_BYTE_MASK).2
              (BRAWcapFilter.ByteFilterLengthSet
                (BRAWcapFilter.BRAWcapFilter BRAWCAP_FILTER_TYPE_BYTE_MASK).2 4).2.m_pFilter)
            2
          = (Outcome.returned (),
              { self :=
                  { m_type := 0, m_captureByteOffset := 0, m_captureByteLength := 0,
                    m_byteOffset := 2, m_byteLength := 0, m_byteMask := List.replicate 64 0,
                    m_byteIgnore := List.replicate 64 0 },
                m_pFilter :=
                  some { type := 0, offset := 2, length := 0, mask := List.replicate 64 0,
                         ignoreBits := List.replicate 64 0, captureOffset := 0,
                         captureLength := 0, active := false, indicate := false } }) := by
  refine ⟨?_, by decide, by decide, by decide, by decide, by decide⟩
  intro rxFilter
  simp [BRAWcapReceive.ReceiveFilter, BRAWcapFilter.BRAWcapFilter, brawcap_filter_create,
    brawcap_rx_filter_get, BRAWCAP_ERROR, BRAWCAP_STATUS_SUCCESS, BRAWCAP_FILTER_TYPE_BYTE_MASK,
    BRAWCAP_FILTER_BYTE_MAX_LENGTH]


/-! ## Adapter addresses as text -/

/-- The text `AdapterIpv4String` builds: the four address bytes as characters,
with dots between them. -/
theorem AdapterIpv4String_text (ipv4 : brawcap_adapter_ipv4_t) :
    BRAWcapAdapter.AdapterIpv4String (BRAWCAP_STATUS_SUCCESS, ipv4)
      = Outcome.returned [ipv4.byte 0, 46, ipv4.byte 1, 46, ipv4.byte 2, 46, ipv4.byte 3] := by
  have h : ∀ i : Nat, ipv4.byte i % 256 = ipv4.byte i := fun i => by
    simp [brawcap_adapter_ipv4_t.byte]
  simp [BRAWcapAdapter.AdapterIpv4String, BRAWcapAdapter.AdapterIpv4, BRAWCAP_SUCCESS,
    BRAWCAP_STATUS_SUCCESS, List.range, List.range.loop, stringstream.dec,
    stringstream.insertUnsignedChar, stringstream.insertCStr, cstr, h]

/-- The text `AdapterIpv6String` builds: the first eight address bytes as
characters, with colons between them. -/
theorem AdapterIpv6String_text (ipv6 : brawcap_adapter_ipv6_t) :
    BRAWcapAdapter.AdapterIpv6String (BRAWCAP_STATUS_SUCCESS, ipv6)
      = Outcome.returned
          [ipv6.byte 0, 58, ipv6.byte 1, 58, ipv6.byte 2, 58, ipv6.byte 3, 58, ipv6.byte 4, 58,
           ipv6.byte 5, 58, ipv6.byte 6, 58, ipv6.byte 7] := by
  have h : ∀ i : Nat, ipv6.byte i % 256 = ipv6.byte i := fun i => by
    simp [brawcap_adapter_ipv6_t.byte]
  simp [BRAWcapAdapter.AdapterIpv6String, BRAWcapAdapter.AdapterIpv6, BRAWCAP_SUCCESS,
    BRAWCAP_STATUS_SUCCESS, List.range, List.range.loop, stringstream.hex,
    stringstream.insertUnsignedChar, stringstream.insertCStr, cstr, h]

set_option maxRecDepth 100000 in
/-- The first two characters of `%u.` for a byte are never that byte followed by a
dot. -/
theorem printf_u_head : ∀ b : Nat, b < 256 → (printf_u b ++ [46]).take 2 ≠ [b, 46] := by
  decide

/-- Up to the second character, what follows the separator does not matter. -/
theorem take_two_append (L X : List Nat) (hL : 1 ≤ L.length) (c : Nat) :
    (L ++ c :: X).take 2 = (L ++ [c]).take 2 := by
  match L, hL with
  | [a], _ => simp
  | a :: b :: t, _ => simp

/-- The separator of the IPv4 text. -/
theorem cstr_dot : cstr "." = [46] := by decide

/-- The separator of the IPv6 text. -/
theorem cstr_colon : cstr ":" = [58] := by decide

/-- A conversion to digits writes at least one digit. -/
theorem toDigitsCore_length_pos (base fuel n : Nat) (hf : 0 < fuel) :
    1 ≤ (Nat.toDigitsCore base fuel n []).length := by
  obtain ⟨f, rfl⟩ : ∃ f, fuel = f + 1 := ⟨fuel - 1, by omega⟩
  simp only [Nat.toDigitsCore]
  split_ifs
  · simp
  · rw [Nat.toDigitsCore_lens_eq]
    omega

/-- `%u` writes at least one digit. -/
theorem printf_u_length (b : Nat) : 1 ≤ (printf_u b).length := by
  simp only [printf_u, List.length_map, Nat.toDigits, Nat.toDigitsCore]
  split_ifs
  · simp
  · rw [Nat.toDigitsCore_lens_eq]
    omega

/-- `%x` writes at least one digit. -/
theorem printf_x_length (w : Nat) : 1 ≤ (printf_x w).length := by
  simp only [printf_x, List.length_map, Nat.toDigits]
  exact toDigitsCore_length_pos 16 (w + 1) w (by omega)

/-- `%x` writes at least two digits for a value from 16 on. -/
theorem printf_x_length_two (w : Nat) (hw : 16 ≤ w) : 2 ≤ (printf_x w).length := by
  have hne : ¬ w / 16 = 0 := by omega
  simp only [printf_x, List.length_map, Nat.toDigits, Nat.toDigitsCore, hne, if_false]
  rw [Nat.toDigitsCore_lens_eq]
  have := toDigitsCore_length_pos 16 w (w / 16) (by omega)
  omega

/-- The one digit `%x` writes for a value below 16 is not the character with that
code. -/
theorem printf_x_digit : ∀ w : Nat, w < 16 → printf_x w ≠ [w] := by
  decide

/-- For no address is the text of `AdapterIpv4String` the text of
`"%u.%u.%u.%u"`. -/
theorem AdapterIpv4String_ne_printf (ipv4 : brawcap_adapter_ipv4_t) :
    BRAWcapAdapter.AdapterIpv4String (BRAWCAP_STATUS_SUCCESS, ipv4)
      ≠ Outcome.returned (printf_ipv4 ipv4) := by
  rw [AdapterIpv4String_text]
  intro h
  have hl := Outcome.returned.inj h
  have hb : ipv4.byte 0 < 256 := by
    simp only [brawcap_adapter_ipv4_t.byte]
    omega
  apply printf_u_head (ipv4.byte 0) hb
  have h2 := congrArg (List.take 2) hl
  simp only [printf_ipv4, cstr_dot, List.append_assoc, List.singleton_append, List.cons_append] at h2
  rw [take_two_append _ _ (printf_u_length _)] at h2
  rw [← h2]
  rfl

/-- For no address is the text of `AdapterIpv6String` the text of
`"%x:%x:%x:%x:%x:%x:%x:%x"`. -/
theorem AdapterIpv6String_ne_printf (ipv6 : brawcap_adapter_ipv6_t) :
    BRAWcapAdapter.AdapterIpv6String (BRAWCAP_STATUS_SUCCESS, ipv6)
      ≠ Outcome.returned (printf_ipv6 ipv6) := by
  rw [AdapterIpv6String_text]
  intro h
  have hl := Outcome.returned.inj h
  have hlen := congrArg List.length hl
  simp only [printf_ipv6, cstr_colon, List.length_append, List.length_cons, List.length_nil]
    at hlen
  have h0 := printf_x_length (ipv6.word 0)
  have h1 := printf_x_length (ipv6.word 1)
  have h2 := printf_x_length (ipv6.word 2)
  have h3 := printf_x_length (ipv6.word 3)
  have h4 := printf_x_length (ipv6.word 4)
  have h5 := printf_x_length (ipv6.word 5)
  have h6 := printf_x_length (ipv6.word 6)
  have h7 := printf_x_length (ipv6.word 7)
  have hw : ipv6.word 0 < 16 := by
    by_contra hge
    have := printf_x_length_two (ipv6.word 0) (by omega)
    omega
  have hb : ipv6.byte 0 < 256 := by
    simp only [brawcap_adapter_ipv6_t.byte]
    omega
  have hwb : ipv6.word 0 = ipv6.byte 0 := by
    have hdef : ipv6.word 0 = ipv6.byte 0 + 256 * ipv6.byte 1 := by
      simp [brawcap_adapter_ipv6_t.word]
    omega
  have hone : (printf_x (ipv6.word 0)).length = 1 := by omega
  obtain ⟨c, hc⟩ := List.length_eq_one.mp hone
  apply printf_x_digit (ipv6.word 0) hw
  rw [hc]
  have hhead := congrArg List.head? hl
  simp only [printf_ipv6, hc, List.append_assoc, List.singleton_append, List.cons_append,
    List.head?_cons] at hhead
  rw [hwb]
  simpa using hhead.symm

/-- C27. `AdapterIpv4String` writes the address bytes as characters, not as
decimal numbers. For every address it returns the seven characters `bytes[0]`,
`.`, `bytes[1]`, `.`, `bytes[2]`, `.`, `bytes[3]`, each byte being written as
the one character with that code, and for no address is this the text that
`"%u.%u.%u.%u"` gives. For 192.168.1.10 the result is the characters with the
codes 192, 168, 1 and 10 between dots, not `192.168.1.10`; for 65.66.67.68 it
is `A.B.C.D`. -/
theorem C27_AdapterIpv4String_characters :
    (∀ ipv4 : brawcap_adapter_ipv4_t,
        BRAWcapAdapter.AdapterIpv4String (BRAWCAP_STATUS_SUCCESS, ipv4)
          = Outcome.returned
              [ipv4.byte 0, 46, ipv4.byte 1, 46, ipv4.byte 2, 46, ipv4.byte 3])
      ∧ (∀ ipv4 : brawcap_adapter_ipv4_t,
          BRAWcapAdapter.AdapterIpv4String (BRAWCAP_STATUS_SUCCESS, ipv4)
            ≠ Outcome.returned (printf_ipv4 ipv4))
      ∧ BRAWcapAdapter.AdapterIpv4String (BRAWCAP_STATUS_SUCCESS, { bytes := [192, 168, 1, 10] })
          = Outcome.returned [192, 46, 168, 46, 1, 46, 10]
      ∧ printf_ipv4 { bytes := [192, 168, 1, 10] } = cstr "192.168.1.10"
      ∧ BRAWcapAdapter.AdapterIpv4String (BRAWCAP_STATUS_SUCCESS, { bytes := [65, 66, 67, 68] })
          = Outcome.returned (cstr "A.B.C.D")
      ∧ printf_ipv4 { bytes := [65, 66, 67, 68] } = cstr "65.66.67.68" :=
  ⟨AdapterIpv4String_text, AdapterIpv4String_ne_printf, by decide, by decide, by decide,
    by decide⟩

/-- C28. `AdapterIpv6String` writes the first eight address bytes as characters,
not the eight 16-bit words as hexadecimal numbers. For every address it
returns the fifteen characters `bytes[0]`, `:`, `bytes[1]`, .., `:`,
`bytes[7]`, each byte being written as the one character with that code, so
the bytes 8 to 15 of the address do not appear at all, and for no address is
this the text that `"%x:%x:%x:%x:%x:%x:%x:%x"` gives for `words[0]` ..
`words[7]`. For the address with the bytes fe 80 00 .. 00 01 the result is the
characters with the codes 254, 128, 0, 0, 0, 0, 0, 0 between colons, not
`80fe:0:0:0:0:0:0:100`; for the bytes 61 62 .. 70 (hexadecimal) it is
`a:b:c:d:e:f:g:h`. -/
theorem C28_AdapterIpv6String_characters :
    (∀ ipv6 : brawcap_adapter_ipv6_t,
        BRAWcapAdapter.AdapterIpv6String (BRAWCAP_STATUS_SUCCESS, ipv6)
          = Outcome.returned
              [ipv6.byte 0, 58, ipv6.byte 1, 58, ipv6.byte 2, 58, ipv6.byte 3, 58,
               ipv6.byte 4, 58, ipv6.byte 5, 58, ipv6.byte 6, 58, ipv6.byte 7])
      ∧ (∀ ipv6 : brawcap_adapter_ipv6_t,
          BRAWcapAdapter.AdapterIpv6String (BRAWCAP_STATUS_SUCCESS, ipv6)
            ≠ Outcome.returned (printf_ipv6 ipv6))
      ∧ BRAWcapAdapter.AdapterIpv6String
            (BRAWCAP_STATUS_SUCCESS,
              { bytes := [254, 128, 0, 0, 0, 0, 0, 0, 0, 0, 0, 0, 0, 0, 0, 1] })
          = Outcome.returned [254, 58, 128, 58, 0, 58, 0, 58, 0, 58, 0, 58, 0, 58, 0]
      ∧ printf_ipv6 { bytes := [254, 128, 0, 0, 0, 0, 0, 0, 0, 0, 0, 0, 0, 0, 0, 1] }
          = cstr "80fe:0:0:0:0:0:0:100"
      ∧ BRAWcapAdapter.AdapterIpv6String
            (BRAWCAP_STATUS_SUCCESS,
              { bytes := [97, 98, 99, 100, 101, 102, 103, 104, 105, 106, 107, 108, 109, 110,
                          111, 112] })
          = Outcome.returned (cstr "a:b:c:d:e:f:g:h")
      ∧ printf_ipv6
            { bytes := [97, 98, 99, 100, 101, 102, 103, 104, 105, 106, 107, 108, 109, 110,
                        111, 112] }
          = cstr "6261:6463:6665:6867:6a69:6c6b:6e6d:706f" :=
  ⟨AdapterIpv6String_text, AdapterIpv6String_ne_printf, by decide, by decide, by decide,
    by decide⟩


/-! ## The buffer-list mutex -/

/-- The events of `TransmitBufferSend` on every path on which `push_back` does not
throw. -/
theorem TransmitBufferSend_events (self : BRAWcapTransmit) (n : Native) (buffer : BRAWcapBuffer)
    (synchronized : Bool) :
    (self.TransmitBufferSend n buffer synchronized).events
      = [Event.lock, Event.buffersWrite, Event.unlock] := by
  simp only [BRAWcapTransmit.TransmitBufferSend]
  split_ifs <;> rfl

/-- C29. `TransmitBufferSend` leaves `m_bufferLock` locked when `push_back` throws.
On the path on which `m_buffers.push_back(buffer)` throws `std::bad_alloc` the
method has locked the mutex once and never unlocks it: the exception leaves
the method with the mutex locked, the list and the library state unchanged.
From then on every `TransmitBufferSend` and every completion dispatch of that
pipeline calls `lock()` on the locked mutex and waits. On all other paths
(`TransmitBufferSend` returning or stopping at its assertion, the dispatcher
finding the buffer or not) the mutex is locked once, unlocked once and
unlocked at the end, the dispatcher invokes the user callback only after the
unlock, and a `TransmitBufferSend` that directly follows the events of the
dispatcher, as when the callback calls it, finds the mutex unlocked. -/
theorem C29_push_back_throw_keeps_mutex :
    (∀ (self : BRAWcapTransmit) (n : Native) (buffer : BRAWcapBuffer) (synchronized : Bool),
        BRAWcapTransmit.TransmitBufferSend.orThrow self n buffer synchronized true
            = Except.error { events := [Event.lock], self := self, native := n }
          ∧ mutexAfter false [Event.lock] = some true
          ∧ [Event.lock].count Event.lock = 1
          ∧ [Event.lock].count Event.unlock = 0)
      ∧ BRAWcapTransmit.TransmitBufferSend.orThrow
            { m_buffers := [{ m_pBuffer := 10 }, { m_pBuffer := 11 }], m_callback := some 100,
              m_pUser := some 200 }
            { handle := { rxStarted := false, rxBuffers := [], txStarted := true,
                          txQueue := [10, 11] },
              buffers := [{ address := 12, maxPacketPayloadSize := 64, numPackets := 2,
                            packets := [{ maxPayloadSize := 64, payload := [1] }],
                            lock := LockState.Unlocked }] }
            { m_pBuffer := 12 } false true
          = Except.error
              { events := [Event.lock],
                self := { m_buffers := [{ m_pBuffer := 10 }, { m_pBuffer := 11 }],
                          m_callback := some 100, m_pUser := some 200 },
                native :=
                  { handle := { rxStarted := false, rxBuffers := [], txStarted := true,
                                txQueue := [10, 11] },
                    buffers := [{ address := 12, maxPacketPayloadSize := 64, numPackets := 2,
                                  packets := [{ maxPayloadSize := 64, payload := [1] }],
                                  lock := LockState.Unlocked }] } }
      ∧ mutexAfter true
            (BRAWcapTransmit.TransmitBufferCompleteInternal
              { m_buffers := [{ m_pBuffer := 10 }, { m_pBuffer := 11 }], m_callback := some 100,
                m_pUser := some 200 }
              BRAWCAP_STATUS_SUCCESS 10).1
          = none
      ∧ (∀ (self : BRAWcapTransmit) (n : Native) (buffer : BRAWcapBuffer) (synchronized : Bool),
          mutexAfter true (self.TransmitBufferSend n buffer synchronized).events = none)
      ∧ (∀ (self : BRAWcapTransmit) (status : brawcap_status_t) (pBuffer : Ptr),
          mutexAfter true (self.TransmitBufferCompleteInternal status pBuffer).1 = none)
      ∧ (∀ (self : BRAWcapTransmit) (n : Native) (buffer : BRAWcapBuffer) (synchronized : Bool),
          BRAWcapTransmit.TransmitBufferSend.orThrow self n buffer synchronized false
              = Except.ok (self.TransmitBufferSend n buffer synchronized)
            ∧ mutexAfter false (self.TransmitBufferSend n buffer synchronized).events
                = some false
            ∧ (self.TransmitBufferSend n buffer synchronized).events.count Event.lock = 1
            ∧ (self.TransmitBufferSend n buffer synchronized).events.count Event.unlock = 1)
      ∧ (∀ (self : BRAWcapTransmit) (status : brawcap_status_t) (pBuffer : Ptr),
          mutexAfter false (self.TransmitBufferCompleteInternal status pBuffer).1 = some false
            ∧ (self.TransmitBufferCompleteInternal status pBuffer).1.count Event.lock = 1
            ∧ (self.TransmitBufferCompleteInternal status pBuffer).1.count Event.unlock = 1
            ∧ callbacksOutsideLock false (self.TransmitBufferCompleteInternal status pBuffer).1
                = true)
      ∧ (∀ (self : BRAWcapTransmit) (n : Native) (buffer : BRAWcapBuffer) (synchronized : Bool)
            (status : brawcap_status_t) (pBuffer : Ptr),
          mutexAfter false
              ((self.TransmitBufferCompleteInternal status pBuffer).1
                ++ ((self.TransmitBufferCompleteInternal status pBuffer).2.TransmitBufferSend n
                      buffer synchronized).events)
            = some false) := by
  refine ⟨?_, rfl, by decide, ?_, ?_, ?_, ?_, ?_⟩
  · intro self n buffer synchronized
    exact ⟨rfl, rfl, by decide, by decide⟩
  · intro self n buffer synchronized
    rw [TransmitBufferSend_events]
    rfl
  · intro self status pBuffer
    cases h : BRAWcapTransmit.TransmitBufferCompleteInternal.loop pBuffer self.m_buffers <;>
      simp [BRAWcapTransmit.TransmitBufferCompleteInternal, h, mutexAfter]
  · intro self n buffer synchronized
    rw [TransmitBufferSend_events]
    exact ⟨rfl, rfl, by decide, by decide⟩
  · intro self status pBuffer
    cases h : BRAWcapTransmit.TransmitBufferCompleteInternal.loop pBuffer self.m_buffers <;>
      simp [BRAWcapTransmit.TransmitBufferCompleteInternal, h, mutexAfter, callbacksOutsideLock]
  · intro self n buffer synchronized status pBuffer
    rw [TransmitBufferSend_events]
    cases h : BRAWcapTransmit.TransmitBufferCompleteInternal.loop pBuffer self.m_buffers <;>
      simp [BRAWcapTransmit.TransmitBufferCompleteInternal, h, mutexAfter]

/-- C30. `ReceiveBufferCompleteInternal` reads `m_buffers` without holding
`m_bufferLock`. For every completion event its first event is the read of
`m_buffers`, with no lock taken, so not every access to `m_buffers` is under
the mutex; on a pipeline with the buffers 10 and 11 and callback 100 the
completion of buffer 11 reads the list and invokes the callback, and takes no
lock. `TransmitBufferCompleteInternal`, `TransmitBufferSend`,
`ReceiveBufferAdd` and `ReceiveBufferRemove` access `m_buffers` only while
they hold the mutex. -/
theorem C30_receive_dispatch_unlocked :
    (∀ (pReceive : BRAWcapReceive) (status : brawcap_status_t) (pBuffer : Ptr),
        (pReceive.ReceiveBufferCompleteInternal status pBuffer).head? = some Event.buffersRead
          ∧ buffersUnderLock false (pReceive.ReceiveBufferCompleteInternal status pBuffer)
              = false)
      ∧ BRAWcapReceive.ReceiveBufferCompleteInternal
            { m_buffers := [{ m_pBuffer := 10 }, { m_pBuffer := 11 }], m_callback := some 100,
              m_pUser := some 200 }
            BRAWCAP_STATUS_SUCCESS 11
          = [Event.buffersRead,
             Event.callback
               { callback := some 100, buffer := { m_pBuffer := 11 },
                 status := BRAWCAP_STATUS_SUCCESS, pUser := some 200 }]
      ∧ (∀ (pTransmit : BRAWcapTransmit) (status : brawcap_status_t) (pBuffer : Ptr),
          buffersUnderLock false (pTransmit.TransmitBufferCompleteInternal status pBuffer).1
            = true)
      ∧ (∀ (self : BRAWcapTransmit) (n : Native) (buffer : BRAWcapBuffer) (synchronized : Bool),
          buffersUnderLock false (self.TransmitBufferSend n buffer synchronized).events = true)
      ∧ (∀ (self : BRAWcapReceive) (n : Native) (address maxPacketPayloadSize numPackets : Nat),
          buffersUnderLock false
              (self.ReceiveBufferAdd n address maxPacketPayloadSize numPackets).events
            = true)
      ∧ (∀ (self : BRAWcapReceive) (n : Native) (lastOwner : Bool),
          (self.ReceiveBufferRemove n lastOwner).all
              (fun r => buffersUnderLock false r.events)
            = true) := by
  refine ⟨?_, by decide, ?_, ?_, ?_, ?_⟩
  · intro pReceive status pBuffer
    simp [BRAWcapReceive.ReceiveBufferCompleteInternal, buffersUnderLock]
  · intro pTransmit status pBuffer
    cases h : BRAWcapTransmit.TransmitBufferCompleteInternal.loop pBuffer pTransmit.m_buffers <;>
      simp [BRAWcapTransmit.TransmitBufferCompleteInternal, h, buffersUnderLock]
  · intro self n buffer synchronized
    simp only [BRAWcapTransmit.TransmitBufferSend]
    split_ifs <;> simp [buffersUnderLock]
  · intro self n address maxPacketPayloadSize numPackets
    simp only [BRAWcapReceive.ReceiveBufferAdd]
    split
    · simp [buffersUnderLock]
    · split_ifs <;> simp [buffersUnderLock]
  · intro self n lastOwner
    simp only [BRAWcapReceive.ReceiveBufferRemove]
    split
    · rfl
    · split_ifs <;> simp [buffersUnderLock]

end BRAWcap
